import Mathlib

/-!
# Stellarium Navigator: time model, observer lifecycle, transform pipeline,
gaze vectors and start-up configuration

A shallow embedding of `src/core/Navigator.cpp`.  The C++ `double` is read as an
element of an arbitrary linearly ordered field `K` (instantiate `K := ℚ` to
evaluate, `K := ℝ` for the real-number reading); rounding, infinities and NaN
are outside the model of the navigator.  The slope check of `MinorPlanet.cpp` is
read on `Double`, which has the infinities and NaN.
-/

namespace Stellarium

/-! ## Data model -/

/-- Modelled from the spec: the `Location` value (`Location.hpp` is not part of
the sources).  Field names are the ones `Navigator.cpp` uses (`planetName`,
`name`, `state`, `longitude`); `latitude` and `altitude` come from the spec's
data model. -/
structure Location (K : Type) where
  planetName : String
  longitude : K
  latitude : K
  altitude : K
  name : String
  state : String

/-- Modelled from the spec: the observer state (`Observer.hpp` is not part of
the sources).  `stationary` is the class `Observer`, `transitioning` is the class
`SpaceShipObserver`, wrapping source, destination, start time and duration; `now`
is the observer's own clock, the only time it is ever told about being the
`deltaTime` handed to `update`. -/
inductive Observer (K : Type) where
  | stationary (loc : Location K)
  | transitioning (source destination : Location K) (startTime duration now : K)

/-- Modelled from the spec: the selection held by `StelObjectMgr` (an external
collaborator); objects are identified by name, the head of the list is
`getSelectedObject()[0]`. -/
structure StelObjectMgr where
  selected : List String

/-- `Vec3d`: three coordinates. -/
abbrev Vec3d (K : Type) := Fin 3 → K

/-- `Mat4d`: a 4x4 matrix, indexed row then column. -/
abbrev Mat4d (K : Type) := Matrix (Fin 4) (Fin 4) K

/-- `Navigator::ViewingModeType`. -/
inductive ViewingModeType where
  | ViewHorizon
  | ViewEquator
  deriving DecidableEq, Repr

/-- The fields of `class Navigator` that `Navigator.cpp` reads and writes. -/
structure Navigator (K : Type) where
  timeSpeed : K
  JDay : K
  position : Observer K
  localVision : Vec3d K
  equVision : Vec3d K
  J2000EquVision : Vec3d K
  viewingMode : ViewingModeType
  matAltAzToEarthEqu : Mat4d K
  matEarthEquToAltAz : Mat4d K
  matEarthEquToJ2000 : Mat4d K
  matJ2000ToEarthEqu : Mat4d K
  matJ2000ToAltAz : Mat4d K
  matHeliocentricEclipticToEarthEqu : Mat4d K
  matAltAzToHeliocentricEcliptic : Mat4d K
  matHeliocentricEclipticToAltAz : Mat4d K
  matAltAzToEye : Mat4d K
  matEarthEquToEye : Mat4d K
  matHeliocentricEclipticToEye : Mat4d K
  matJ2000ToEye : Mat4d K

variable {K : Type} [LinearOrderedField K]

/-! ## Observer state (modelled from the spec) -/

namespace Observer

/-- Modelled from the spec: `ratio = clamp((now − startTime)/duration, 0, 1)` of a
transitioning observer (`Observer.cpp` is not part of the sources); a
stationary observer has no transition in progress. -/
def transitRatio : Observer K → K
  | stationary _ => 0
  | transitioning _ _ startTime duration now => max 0 (min 1 ((now - startTime) / duration))

/-- Modelled from the spec: "is your life over?" is true only for a
transitioning observer once `ratio >= 1` (`Observer::isObserverLifeOver`,
absent from the sources). -/
def isObserverLifeOver : Observer K → Bool
  | stationary _ => false
  | o@(transitioning _ _ _ _ _) => decide (1 ≤ o.transitRatio)

/-- Modelled from the spec: the next observer state of a transitioning observer
is `Stationary(destination)` (`Observer::getNextObserver`, absent from the
sources); a stationary observer continues as itself. -/
def getNextObserver : Observer K → Observer K
  | stationary loc => stationary loc
  | transitioning _ destination _ _ _ => stationary destination

/-- Modelled from the spec: `Observer::update(deltaTime)` (absent from the
sources) advances the clock of a transitioning observer; a stationary observer
does not change. -/
def update (deltaTime : K) : Observer K → Observer K
  | stationary loc => stationary loc
  | transitioning source destination startTime duration now =>
      transitioning source destination startTime duration (now + deltaTime)

/-- Modelled from the spec: `Observer::getCurrentLocation` (absent from the
sources).  A stationary observer answers with the location it wraps; a
transitioning one interpolates the geographic coordinates linearly in `ratio`
and holds the source's body and labels for `ratio < 1`, the destination's at
`ratio = 1`. -/
def getCurrentLocation : Observer K → Location K
  | stationary loc => loc
  | o@(transitioning source destination _ _ _) =>
      let r := o.transitRatio
      { planetName := if r < 1 then source.planetName else destination.planetName
        longitude := source.longitude + r * (destination.longitude - source.longitude)
        latitude := source.latitude + r * (destination.latitude - source.latitude)
        altitude := source.altitude + r * (destination.altitude - source.altitude)
        name := if r < 1 then source.name else destination.name
        state := if r < 1 then source.state else destination.state }

/-- Modelled from the spec: `Observer::getHomePlanet` (absent from the sources),
the identity of the body the observer currently stands on: the source's body
while `ratio < 1`, the destination's at `ratio = 1`. -/
def getHomePlanet (o : Observer K) : String :=
  o.getCurrentLocation.planetName

/-- Modelled from the spec: the constructor `SpaceShipObserver(startLoc, target,
transitSeconds)` (absent from the sources) starts a transition of the given
duration with its clock at the start time. -/
def SpaceShipObserver (startLoc target : Location K) (transitSeconds : K) : Observer K :=
  transitioning startLoc target 0 transitSeconds 0

end Observer

namespace StelObjectMgr

/-- Modelled from the spec: `StelObjectMgr::getWasSelected`. -/
def getWasSelected (m : StelObjectMgr) : Bool := !m.selected.isEmpty

/-- Modelled from the spec: `StelObjectMgr::unSelect` clears the selection. -/
def unSelect (_ : StelObjectMgr) : StelObjectMgr := { selected := [] }

end StelObjectMgr

/-! ## Time model (`Navigator.cpp`) -/

namespace Navigator

/-- `Navigator::getCurrentLocation` (lines 193-196). -/
def getCurrentLocation (nav : Navigator K) : Location K :=
  nav.position.getCurrentLocation

/-- `Navigator::increaseTimeSpeed` (lines 229-237); `JD_SECOND` is a macro of a
header that is not part of the sources and is taken as a parameter. -/
def increaseTimeSpeed (JD_SECOND : K) (nav : Navigator K) : Navigator K :=
  let s := nav.timeSpeed
  let s :=
    if s ≥ JD_SECOND then s * 10
    else if s < -JD_SECOND then s / 10
    else if s ≥ 0 ∧ s < JD_SECOND then JD_SECOND
    else if s ≥ -JD_SECOND ∧ s < 0 then 0
    else s
  { nav with timeSpeed := s }

/-- `Navigator::decreaseTimeSpeed` (lines 240-248). -/
def decreaseTimeSpeed (JD_SECOND : K) (nav : Navigator K) : Navigator K :=
  let s := nav.timeSpeed
  let s :=
    if s > JD_SECOND then s / 10
    else if s ≤ -JD_SECOND then s * 10
    else if s > -JD_SECOND ∧ s ≤ 0 then -JD_SECOND
    else if s > 0 ∧ s ≤ JD_SECOND then 0
    else s
  { nav with timeSpeed := s }

/-- `Navigator::updateTime` (lines 276-297).  The object manager reached through
`StelApp::getInstance()` is threaded through explicitly. -/
def updateTime (deltaTime : K) (objmgr : StelObjectMgr) (nav : Navigator K) :
    Navigator K × StelObjectMgr :=
  let JDay := nav.JDay + nav.timeSpeed * deltaTime
  let JDay := if JDay > 38245309.499988 then 38245309.499988 else JDay
  let JDay := if JDay < -34803211.500012 then -34803211.500012 else JDay
  if nav.position.isObserverLifeOver then
    let objmgr :=
      if objmgr.getWasSelected && objmgr.selected.head? == some nav.position.getHomePlanet
      then objmgr.unSelect else objmgr
    let newObs := nav.position.getNextObserver
    ({ nav with JDay := JDay, position := newObs.update deltaTime }, objmgr)
  else
    ({ nav with JDay := JDay, position := nav.position.update deltaTime }, objmgr)

/-- `Navigator::moveObserverTo` (lines 199-213). -/
def moveObserverTo (target : Location K) (duration durationIfPlanetChange : K)
    (nav : Navigator K) : Navigator K :=
  let d := if (getCurrentLocation nav).planetName = target.planetName
    then duration else durationIfPlanetChange
  if d > 0 then
    let newObs := Observer.SpaceShipObserver (getCurrentLocation nav) target d
    { nav with position := newObs }
  else
    { nav with position := Observer.stationary target }

/-- Run `updateTime` once per element of `deltas`, in order. -/
def updateTimes (deltas : List K) (s : Navigator K × StelObjectMgr) :
    Navigator K × StelObjectMgr :=
  deltas.foldl (fun st deltaTime => updateTime deltaTime st.2 st.1) s

end Navigator

/-! ## Matrices and the transform pipeline -/

namespace Mat4d

/-- Modelled from the spec: `Mat4d::translation(v)` (`VecMath.hpp` is not part of
the sources), the identity with `v` as its translation column. -/
def translation (v : Vec3d K) : Mat4d K :=
  !![1, 0, 0, v 0;
     0, 1, 0, v 1;
     0, 0, 1, v 2;
     0, 0, 0, 1]

/-- Modelled from the spec: `Mat4d * Vec3d` (`VecMath.hpp` is not part of the
sources): the matrix applied to the point `v`, its translation column
included. -/
def mulVec3 (M : Mat4d K) (v : Vec3d K) : Vec3d K :=
  ![M 0 0 * v 0 + M 0 1 * v 1 + M 0 2 * v 2 + M 0 3,
    M 1 0 * v 0 + M 1 1 * v 1 + M 1 2 * v 2 + M 1 3,
    M 2 0 * v 0 + M 2 1 * v 1 + M 2 2 * v 2 + M 2 3]

/-- An orthonormal rotation stored in a `Mat4d`: the transpose is the inverse
and the last row is `(0, 0, 0, 1)`. -/
def IsRotation (M : Mat4d K) : Prop :=
  M * M.transpose = 1 ∧ M 3 = ![0, 0, 0, 1]

end Mat4d

/-- The answers of the body orientation provider, which `Navigator.cpp` reaches
through `position->...`; the bodies themselves are not part of the sources, so
the four queries are parameters. -/
structure Provider (K : Type) where
  getRotAltAzToEquatorial : Observer K → K → Mat4d K
  getRotEquatorialToVsop87 : Observer K → Mat4d K
  getCenterVsop87Pos : Observer K → Vec3d K
  getDistanceFromCenter : Observer K → K

/-- The constant `matVsop87ToJ2000` (line 304); `matJ2000ToVsop87` (line 303) is
built from rotations by fixed angles and is taken as a parameter. -/
def matVsop87ToJ2000 (matJ2000ToVsop87 : Mat4d K) : Mat4d K :=
  matJ2000ToVsop87.transpose

namespace Navigator

/-- `Navigator::updateTransformMatrices` (lines 306-325). -/
def updateTransformMatrices (matJ2000ToVsop87 : Mat4d K) (P : Provider K)
    (nav : Navigator K) : Navigator K :=
  let matAltAzToEarthEqu := P.getRotAltAzToEquatorial nav.position nav.JDay
  let matEarthEquToAltAz := matAltAzToEarthEqu.transpose
  let matEarthEquToJ2000 :=
    matVsop87ToJ2000 matJ2000ToVsop87 * P.getRotEquatorialToVsop87 nav.position
  let matJ2000ToEarthEqu := matEarthEquToJ2000.transpose
  let matJ2000ToAltAz := matEarthEquToAltAz * matJ2000ToEarthEqu
  let matHeliocentricEclipticToEarthEqu :=
    matJ2000ToEarthEqu * matVsop87ToJ2000 matJ2000ToVsop87 *
      Mat4d.translation (-P.getCenterVsop87Pos nav.position)
  let tmp := matJ2000ToVsop87 * matEarthEquToJ2000 * matAltAzToEarthEqu
  let matAltAzToHeliocentricEcliptic :=
    Mat4d.translation (P.getCenterVsop87Pos nav.position) * tmp *
      Mat4d.translation ![0, 0, P.getDistanceFromCenter nav.position]
  let matHeliocentricEclipticToAltAz :=
    Mat4d.translation ![0, 0, -P.getDistanceFromCenter nav.position] * tmp.transpose *
      Mat4d.translation (-P.getCenterVsop87Pos nav.position)
  { nav with
    matAltAzToEarthEqu := matAltAzToEarthEqu
    matEarthEquToAltAz := matEarthEquToAltAz
    matEarthEquToJ2000 := matEarthEquToJ2000
    matJ2000ToEarthEqu := matJ2000ToEarthEqu
    matJ2000ToAltAz := matJ2000ToAltAz
    matHeliocentricEclipticToEarthEqu := matHeliocentricEclipticToEarthEqu
    matAltAzToHeliocentricEcliptic := matAltAzToHeliocentricEcliptic
    matHeliocentricEclipticToAltAz := matHeliocentricEclipticToAltAz }

/-- Modelled from the spec: the inline helper `Navigator::altAzToEarthEqu`
(`Navigator.hpp` is not part of the sources) applies `matAltAzToEarthEqu`. -/
def altAzToEarthEqu (nav : Navigator K) (v : Vec3d K) : Vec3d K :=
  Mat4d.mulVec3 nav.matAltAzToEarthEqu v

/-- Modelled from the spec: the inline helper `Navigator::earthEquToAltAz`
(`Navigator.hpp` is not part of the sources) applies `matEarthEquToAltAz`. -/
def earthEquToAltAz (nav : Navigator K) (v : Vec3d K) : Vec3d K :=
  Mat4d.mulVec3 nav.matEarthEquToAltAz v

/-- `Navigator::setLocalVision` (lines 251-256). -/
def setLocalVision (pos : Vec3d K) (nav : Navigator K) : Navigator K :=
  let nav := { nav with localVision := pos }
  let nav := { nav with equVision := altAzToEarthEqu nav nav.localVision }
  { nav with J2000EquVision := Mat4d.mulVec3 nav.matEarthEquToJ2000 nav.equVision }

/-- `Navigator::setEquVision` (lines 259-264). -/
def setEquVision (pos : Vec3d K) (nav : Navigator K) : Navigator K :=
  let nav := { nav with equVision := pos }
  let nav := { nav with J2000EquVision := Mat4d.mulVec3 nav.matEarthEquToJ2000 nav.equVision }
  { nav with localVision := earthEquToAltAz nav nav.equVision }

/-- `Navigator::setJ2000EquVision` (lines 267-272). -/
def setJ2000EquVision (pos : Vec3d K) (nav : Navigator K) : Navigator K :=
  let nav := { nav with J2000EquVision := pos }
  let nav := { nav with equVision := Mat4d.mulVec3 nav.matJ2000ToEarthEqu nav.J2000EquVision }
  { nav with localVision := earthEquToAltAz nav nav.equVision }

end Navigator

/-! ## Concrete states used to evaluate the definitions -/

/-- A location on Earth. -/
def paris : Location ℚ :=
  { planetName := "Earth", longitude := 2, latitude := 49, altitude := 35,
    name := "Paris", state := "France" }

/-- Another location on Earth. -/
def greenwich : Location ℚ :=
  { planetName := "Earth", longitude := 0, latitude := 51, altitude := 10,
    name := "Greenwich", state := "United Kingdom" }

/-- A location on another body. -/
def olympus : Location ℚ :=
  { planetName := "Mars", longitude := -134, latitude := 18, altitude := 21000,
    name := "Olympus Mons", state := "" }

/-- The state the constructor `Navigator::Navigator` builds (lines 38-44) once
`init` has placed a stationary observer, with every matrix the identity. -/
def nav0 : Navigator ℚ :=
  { timeSpeed := 1 / 86400, JDay := 0, position := Observer.stationary paris,
    localVision := ![1, 0, 0], equVision := ![1, 0, 0], J2000EquVision := ![1, 0, 0],
    viewingMode := ViewingModeType.ViewHorizon,
    matAltAzToEarthEqu := 1, matEarthEquToAltAz := 1, matEarthEquToJ2000 := 1,
    matJ2000ToEarthEqu := 1, matJ2000ToAltAz := 1, matHeliocentricEclipticToEarthEqu := 1,
    matAltAzToHeliocentricEcliptic := 1, matHeliocentricEclipticToAltAz := 1,
    matAltAzToEye := 1, matEarthEquToEye := 1, matHeliocentricEclipticToEye := 1,
    matJ2000ToEye := 1 }

/-- A rotation by a right angle about the z axis. -/
def rotZ90 : Mat4d ℚ :=
  !![0, -1, 0, 0;
     1, 0, 0, 0;
     0, 0, 1, 0;
     0, 0, 0, 1]

/-- A rotation with rational entries about the x axis (a 3-4-5 triangle). -/
def rotX345 : Mat4d ℚ :=
  !![1, 0, 0, 0;
     0, 3 / 5, -4 / 5, 0;
     0, 4 / 5, 3 / 5, 0;
     0, 0, 0, 1]

/-- A provider whose answers do not depend on the observer. -/
def provider0 : Provider ℚ :=
  { getRotAltAzToEquatorial := fun _ _ => rotZ90
    getRotEquatorialToVsop87 := fun _ => rotX345
    getCenterVsop87Pos := fun _ => ![1, 2, 3]
    getDistanceFromCenter := fun _ => 1 / 4 }

/-- A rotation with rational entries about the x axis (a 5-12-13 triangle),
standing in for the constant `matJ2000ToVsop87`. -/
def rotX51213 : Mat4d ℚ :=
  !![1, 0, 0, 0;
     0, 12 / 13, 5 / 13, 0;
     0, -5 / 13, 12 / 13, 0;
     0, 0, 0, 1]

/-! ## Predicates the theorems are stated with -/

/-- Gaze consistency: the equatorial gaze vector is the horizon gaze vector
taken through `matAltAzToEarthEqu`, and it is the J2000 gaze vector taken through
`matJ2000ToEarthEqu`. -/
def GazeConsistent (nav : Navigator K) : Prop :=
  nav.equVision = Mat4d.mulVec3 nav.matAltAzToEarthEqu nav.localVision ∧
    nav.equVision = Mat4d.mulVec3 nav.matJ2000ToEarthEqu nav.J2000EquVision

/-- The pipeline matrices held by `nav` are the ones `updateTransformMatrices`
writes from the state `src`. -/
def PipelineFrom (matJ2000ToVsop87 : Mat4d K) (P : Provider K) (src nav : Navigator K) : Prop :=
  nav.matAltAzToEarthEqu
      = (Navigator.updateTransformMatrices matJ2000ToVsop87 P src).matAltAzToEarthEqu ∧
    nav.matEarthEquToAltAz
      = (Navigator.updateTransformMatrices matJ2000ToVsop87 P src).matEarthEquToAltAz ∧
    nav.matEarthEquToJ2000
      = (Navigator.updateTransformMatrices matJ2000ToVsop87 P src).matEarthEquToJ2000 ∧
    nav.matJ2000ToEarthEqu
      = (Navigator.updateTransformMatrices matJ2000ToVsop87 P src).matJ2000ToEarthEqu ∧
    nav.matJ2000ToAltAz
      = (Navigator.updateTransformMatrices matJ2000ToVsop87 P src).matJ2000ToAltAz ∧
    nav.matHeliocentricEclipticToEarthEqu
      = (Navigator.updateTransformMatrices matJ2000ToVsop87 P src).matHeliocentricEclipticToEarthEqu ∧
    nav.matAltAzToHeliocentricEcliptic
      = (Navigator.updateTransformMatrices matJ2000ToVsop87 P src).matAltAzToHeliocentricEcliptic ∧
    nav.matHeliocentricEclipticToAltAz
      = (Navigator.updateTransformMatrices matJ2000ToVsop87 P src).matHeliocentricEclipticToAltAz

/-! ## Concrete inputs for the relocation theorems -/

/-- A location on a body named `Vulcan`, which no body provider needs to know:
`Navigator.cpp` never asks whether a body exists. -/
def vulcan : Location ℚ :=
  { planetName := "Vulcan", longitude := 10, latitude := 20, altitude := 0,
    name := "Nowhere", state := "" }

/-! ## Observer position in the heliocentric frame -/

/-- `Navigator::getObserverHelioPos` (lines 377-381). -/
def Navigator.getObserverHelioPos (nav : Navigator K) : Vec3d K :=
  Mat4d.mulVec3 nav.matAltAzToHeliocentricEcliptic ![0, 0, 0]

/-- The chain of rotations `tmp` of `updateTransformMatrices` (line 318), from
horizon axes to heliocentric ecliptic axes. -/
def Navigator.rotAltAzToVsop87 (matJ2000ToVsop87 : Mat4d K) (P : Provider K)
    (nav : Navigator K) : Mat4d K :=
  matJ2000ToVsop87
    * (matVsop87ToJ2000 matJ2000ToVsop87 * P.getRotEquatorialToVsop87 nav.position)
    * P.getRotAltAzToEquatorial nav.position nav.JDay

/-- A provider whose horizon-to-equatorial rotation depends on the instant: the
identity at `JDay = 0`, a quarter turn at every other instant. -/
def provider1 : Provider ℚ :=
  { getRotAltAzToEquatorial := fun _ jd => if jd = 0 then 1 else rotZ90
    getRotEquatorialToVsop87 := fun _ => rotX345
    getCenterVsop87Pos := fun _ => ![1, 2, 3]
    getDistanceFromCenter := fun _ => 1 / 4 }

/-! ## The cached real-time check (`Navigator.cpp`) -/

/-- The two function-local statics of `Navigator::getIsTimeNow` (lines 149-150). -/
structure IsTimeNowStatics (K : Type) where
  lastJD : K
  previousResult : Bool

/-- `Navigator::getIsTimeNow` (lines 146-157).  The statics are passed in and
handed back: `none` before the first call, when their initialisers run.
`getJDFromSystem` is what `StelUtils::getJDFromSystem()` answers during the
call. -/
def Navigator.getIsTimeNow (JD_SECOND getJDFromSystem : K)
    (statics : Option (IsTimeNowStatics K)) (nav : Navigator K) :
    Bool × IsTimeNowStatics K :=
  let st : IsTimeNowStatics K :=
    match statics with
    | some st => st
    | none =>
      { lastJD := nav.JDay
        previousResult := decide (|nav.JDay - getJDFromSystem| < JD_SECOND) }
  let st : IsTimeNowStatics K :=
    if |st.lastJD - nav.JDay| > JD_SECOND / 4 then
      { lastJD := nav.JDay
        previousResult := decide (|nav.JDay - getJDFromSystem| < JD_SECOND) }
    else st
  (st.previousResult, st)

/-! ## Start-up configuration (`Navigator::init`) -/

/-- What a call ends in: it returns, or a failed `assert` aborts the process. -/
inductive Outcome (α : Type) where
  | returned (a : α)
  | aborted

/-- The settings read through `QSettings`: the string stored under a key, if
any. -/
abbrev Settings := String → Option String

/-- The call `conf->value(key, default).toString()`. -/
def Settings.value (conf : Settings) (key dflt : String) : String :=
  (conf key).getD dflt

/-- Modelled from the spec: `QString::toLower` (Qt is not part of the sources). -/
def toLower (s : String) : String :=
  String.mk (s.data.map Char.toLower)

/-- `Navigator::setViewingMode` (lines 390-396). -/
def Navigator.setViewingMode (viewMode : ViewingModeType) (nav : Navigator K) : Navigator K :=
  { nav with viewingMode := viewMode }

/-- The viewing-mode part of `Navigator::init` (lines 70-82).  On a string that is
neither `"equator"` nor `"horizon"` the code logs an error with `qDebug` and runs
`assert(0)`: the process is aborted, unless assertions are compiled out
(`ndebug`), in which case `init` goes on with the mode untouched. -/
def Navigator.initViewingMode (ndebug : Bool) (conf : Settings) (nav : Navigator K) :
    Outcome (Navigator K) :=
  let tmpstr := conf.value "navigation/viewing_mode" "horizon"
  if tmpstr = "equator" then
    Outcome.returned (Navigator.setViewingMode ViewingModeType.ViewEquator nav)
  else if tmpstr = "horizon" then
    Outcome.returned (Navigator.setViewingMode ViewingModeType.ViewHorizon nav)
  else if ndebug then Outcome.returned nav
  else Outcome.aborted

/-- Modelled from the spec: `QTime` (Qt is not part of the sources), a time of
day that may be invalid. -/
structure QTime where
  isValid : Bool
  msecs : Nat

/-- Modelled from the spec: `QDateTime` (Qt is not part of the sources), a date
and a time of day; it may be invalid, as the result of parsing a string that is
no date. -/
structure QDateTime where
  isValid : Bool
  julianDay : Int
  time : QTime

/-- Modelled from the spec: `QDateTime::setTime`. -/
def QDateTime.setTime (dt : QDateTime) (t : QTime) : QDateTime :=
  { dt with time := t }

/-- What the start-up time code takes from Qt and from `StelUtils`, none of which
is part of the sources: the system clock, the conversions and the parsers are
parameters. -/
structure TimeEnv (K : Type) where
  getJDFromSystem : K
  currentDateTime : QDateTime
  qDateTimeToJd : QDateTime → K
  getGMTShiftFromQT : K → K
  JD_HOUR : K
  toDouble : String → Option K
  dateTimeFromString : String → QDateTime
  timeFromString : String → QTime

/-- Modelled from the spec: the inline setter `Navigator::setJDay`
(`Navigator.hpp` is not part of the sources), a direct setter of the instant. -/
def Navigator.setJDay (JD : K) (nav : Navigator K) : Navigator K :=
  { nav with JDay := JD }

/-- `Navigator::setTimeNow` (lines 124-127). -/
def Navigator.setTimeNow (env : TimeEnv K) (nav : Navigator K) : Navigator K :=
  Navigator.setJDay env.getJDFromSystem nav

/-- `Navigator::setTodayTime` (lines 129-143). -/
def Navigator.setTodayTime (env : TimeEnv K) (target : QTime) (nav : Navigator K) :
    Navigator K :=
  let dt := env.currentDateTime
  if target.isValid then
    let dt := dt.setTime target
    Navigator.setJDay
      (env.qDateTimeToJd dt - env.getGMTShiftFromQT env.getJDFromSystem * env.JD_HOUR) nav
  else
    Navigator.setTimeNow env nav

/-- The start-up time part of `Navigator::init` (lines 87-107), as far as `JDay`
goes: the preset time is the configured string read as a number or, failing
that, as a date; then the start-up time mode picks the preset time, today's date
at the configured time, or leaves the instant `setTimeNow` stored at line 65. -/
def Navigator.initStartupTime (env : TimeEnv K) (conf : Settings) (nav : Navigator K) :
    Navigator K :=
  let presetTimeStr := conf.value "navigation/preset_sky_time" "2451545"
  let presetSkyTime :=
    match env.toDouble presetTimeStr with
    | some x => x
    | none => env.qDateTimeToJd (env.dateTimeFromString presetTimeStr)
  let initTodayTime := env.timeFromString (conf.value "navigation/today_time" "22:00")
  let startupTimeMode := toLower (conf.value "navigation/startup_time_mode" "actual")
  if startupTimeMode = "preset" then
    Navigator.setJDay (presetSkyTime - env.getGMTShiftFromQT presetSkyTime * env.JD_HOUR) nav
  else if startupTimeMode = "today" then
    Navigator.setTodayTime env initTodayTime nav
  else nav

/-! ## Concrete settings and clocks -/

/-- Settings that ask for the viewing mode `"polar"`. -/
def confPolar : Settings :=
  fun key => if key = "navigation/viewing_mode" then some "polar" else none

/-- Settings that ask for the viewing mode `"equator"`. -/
def confEquator : Settings :=
  fun key => if key = "navigation/viewing_mode" then some "equator" else none

/-- Settings that ask for the viewing mode `"horizon"`. -/
def confHorizon : Settings :=
  fun key => if key = "navigation/viewing_mode" then some "horizon" else none

/-- Settings with no key at all. -/
def confEmpty : Settings := fun _ => none

/-- Settings that ask for a preset start-up time and give a string that is neither
a number nor a date. -/
def confBadPreset : Settings :=
  fun key =>
    if key = "navigation/startup_time_mode" then some "Preset"
    else if key = "navigation/preset_sky_time" then some "soon"
    else none

/-- An invalid time of day. -/
def invalidTime : QTime := { isValid := false, msecs := 0 }

/-- An invalid date and time: the null date, whose Julian day number is `0`. -/
def invalidDateTime : QDateTime := { isValid := false, julianDay := 0, time := invalidTime }

/-- A sample environment: the system clock reads `JD 2455000`, the time zone is
UTC, only `"2451545"` parses as a number, no string parses as a date and only
`"22:00"` parses as a time of day. -/
def env0 : TimeEnv ℚ :=
  { getJDFromSystem := 2455000
    currentDateTime :=
      { isValid := true, julianDay := 2455000, time := { isValid := true, msecs := 43200000 } }
    qDateTimeToJd := fun dt => (dt.julianDay : ℚ) + (dt.time.msecs : ℚ) / 86400000 - 1 / 2
    getGMTShiftFromQT := fun _ => 0
    JD_HOUR := 1 / 24
    toDouble := fun s => if s = "2451545" then some 2451545 else none
    dateTimeFromString := fun _ => invalidDateTime
    timeFromString := fun s =>
      if s = "22:00" then { isValid := true, msecs := 79200000 } else invalidTime }

/-- The statics of `getIsTimeNow` after the answer `true` was cached at
`JDay = 0`. -/
def staticsTrueAt0 : IsTimeNowStatics ℚ := { lastJD := 0, previousResult := true }

/-- A matrix that carries no translation: its last row and its last column are
`(0, 0, 0, 1)`. -/
def Mat4d.NoTranslation (M : Mat4d K) : Prop :=
  M 3 = ![0, 0, 0, 1] ∧ M.transpose 3 = ![0, 0, 0, 1]

/-- The sample environment a day later on the system clock. -/
def env1 : TimeEnv ℚ := { env0 with getJDFromSystem := 2455001 }

/-- A provider that answers as `provider0` does, but for the distance of the
observer from the centre of the body. -/
def provider0High : Provider ℚ :=
  { provider0 with getDistanceFromCenter := fun _ => 1 / 2 }

/-! ## Minor planets (`MinorPlanet.cpp`) -/

/-- The part of the `QRegExp` syntax that the pattern of line 265 uses: one
character of a class (`\d`, `\s`, `[A-Z]`), a sequence, a fixed number of
repetitions (`{n}`) and any number of characters of a class (`\d*`). -/
inductive RegExp where
  | cls (p : Char → Bool)
  | seq (a b : RegExp)
  | times (n : Nat) (a : RegExp)
  | many (p : Char → Bool)

/-- What is left of the input after `n` matches in a row of `f`, every way there
is, in the order a backtracking matcher tries them. -/
def timesRests (f : List Char → List (List Char)) : Nat → List Char → List (List Char)
  | 0, cs => [cs]
  | n + 1, cs => (f cs).flatMap (timesRests f n)

/-- What is left of the input after any number of characters of the class `p`:
the longest run first (the repetition is greedy), then the shorter ones. -/
def manyRests (p : Char → Bool) : List Char → List (List Char)
  | [] => [[]]
  | c :: cs => if p c then manyRests p cs ++ [c :: cs] else [c :: cs]

/-- Modelled from the spec: matching with `QRegExp` (Qt is not part of the
sources).  The remainders of the input after a match of the expression at its
start, every way there is, in the order a backtracking matcher tries them. -/
def RegExp.rests : RegExp → List Char → List (List Char)
  | RegExp.cls p => fun cs =>
    match cs with
    | [] => []
    | c :: cs => if p c then [cs] else []
  | RegExp.seq a b => fun cs => (a.rests cs).flatMap b.rests
  | RegExp.times n a => fun cs => timesRests a.rests n cs
  | RegExp.many p => fun cs => manyRests p cs

/-- Modelled from the spec: `QRegExp("^(g1)(g2)$").indexIn(s) == 0` with the two
captures `cap(1)` and `cap(2)`: the first way to match `g1` and then `g2` that
uses up the whole input. -/
def matchGroups (g1 g2 : RegExp) (cs : List Char) : Option (List Char × List Char) :=
  ((g1.rests cs).flatMap fun r1 =>
    (g2.rests r1).filterMap fun r2 =>
      if r2 = [] then some (cs.take (cs.length - r1.length), r1.take (r1.length - r2.length))
      else none).head?

/-- The class `[A-Z]`. -/
def isUpperAZ (c : Char) : Bool := decide ('A' ≤ c ∧ c ≤ 'Z')

/-- The first group of the pattern of line 265, `\d{4}\s[A-Z]{2}`; the classes `\d`
and `\s` are Qt's and are parameters. -/
def provisionalMain (isDigit isSpace : Char → Bool) : RegExp :=
  RegExp.seq (RegExp.times 4 (RegExp.cls isDigit))
    (RegExp.seq (RegExp.cls isSpace) (RegExp.times 2 (RegExp.cls isUpperAZ)))

/-- The second group of the pattern of line 265, `\d*`. -/
def provisionalSuffix (isDigit : Char → Bool) : RegExp :=
  RegExp.many isDigit

/-- `MinorPlanet::renderProvisionalDesignationinHtml` (lines 263-285).  The two
`arg` calls of line 272 are written as a concatenation: the captures hold no
`%`. -/
def renderProvisionalDesignationinHtml (isDigit isSpace : Char → Bool)
    (plainTextName : String) : String :=
  match matchGroups (provisionalMain isDigit isSpace) (provisionalSuffix isDigit)
      plainTextName.data with
  | some (main, suffix) =>
    if !suffix.isEmpty then String.mk (main ++ "<sub>".data ++ suffix ++ "</sub>".data)
    else String.mk main
  | none => ""

/-- In the words of the description: the whole input is four digits, one
whitespace character, two capital letters from A to Z and then digits only. -/
def isProvisionalDesignation (isDigit isSpace : Char → Bool) (cs : List Char) : Bool :=
  decide (7 ≤ cs.length) && (cs.take 4).all isDigit && ((cs.drop 4).take 1).all isSpace
    && ((cs.drop 5).take 2).all isUpperAZ && (cs.drop 7).all isDigit

/-- A C++ `double` as `MinorPlanet.cpp` compares it: a number, one of the two
infinities, or NaN ("not a number"). -/
inductive Double (K : Type) where
  | num (x : K)
  | posInf
  | negInf
  | nan

namespace Double

/-- The comparison `a < b` of two doubles: it never holds when one of them is
NaN. -/
def lt : Double K → Double K → Bool
  | num a, num b => decide (a < b)
  | num _, posInf => true
  | negInf, num _ => true
  | negInf, posInf => true
  | _, _ => false

end Double

/-- The members of `class MinorPlanet` that `MinorPlanet.cpp` adds to those of
`Planet` (lines 69-72 and 109-122). -/
structure MinorPlanet (K : Type) where
  minorPlanetNumber : Int
  absoluteMagnitude : Double K
  slopeParameter : Double K
  properName : String
  nameIsProvisionalDesignation : Bool
  provisionalDesignationHtml : String

namespace MinorPlanet

/-- The constructor `MinorPlanet::MinorPlanet` (lines 69-72 and 109-122), as far
as the members above go. -/
def create (isDigit isSpace : Char → Bool) (englishName : String) : MinorPlanet K :=
  let properName :=
    if englishName.data.getLast? = some '*' then String.mk englishName.data.dropLast
    else englishName
  let provisionalDesignation := renderProvisionalDesignationinHtml isDigit isSpace englishName
  { minorPlanetNumber := 0
    absoluteMagnitude := Double.num 0
    slopeParameter := Double.num (-1)
    properName := properName
    nameIsProvisionalDesignation := !provisionalDesignation.data.isEmpty
    provisionalDesignationHtml :=
      if !provisionalDesignation.data.isEmpty then provisionalDesignation else "" }

/-- `MinorPlanet::setMinorPlanetNumber` (lines 134-140). -/
def setMinorPlanetNumber (number : Int) (mp : MinorPlanet K) : MinorPlanet K :=
  if mp.minorPlanetNumber ≠ 0 then mp
  else { mp with minorPlanetNumber := number }

/-- `MinorPlanet::setAbsoluteMagnitudeAndSlope` (lines 142-155); `slope > 1.0` is
`1.0 < slope`. -/
def setAbsoluteMagnitudeAndSlope (magnitude slope : Double K) (mp : MinorPlanet K) :
    MinorPlanet K :=
  if Double.lt slope (Double.num 0) || Double.lt (Double.num 1) slope then mp
  else { mp with absoluteMagnitude := magnitude, slopeParameter := slope }

/-- `MinorPlanet::setProvisionalDesignation` (lines 157-161). -/
def setProvisionalDesignation (isDigit isSpace : Char → Bool) (designation : String)
    (mp : MinorPlanet K) : MinorPlanet K :=
  { mp with
    provisionalDesignationHtml := renderProvisionalDesignationinHtml isDigit isSpace designation }

/-- The branch of `MinorPlanet::getVMagnitude` (lines 231-237): with a negative
slope parameter the magnitude is that of `Planet::getVMagnitude`, otherwise it
is computed from the absolute magnitude and the slope (lines 239-260); both
computations use functions that are not part of the sources and are
parameters. -/
def getVMagnitude (planetVMagnitude : Double K)
    (slopeVMagnitude : Double K → Double K → Double K) (mp : MinorPlanet K) : Double K :=
  if Double.lt mp.slopeParameter (Double.num 0) then planetVMagnitude
  else slopeVMagnitude mp.absoluteMagnitude mp.slopeParameter

/-- The states a minor planet can be in: the constructor's, and those the three
setters lead to. -/
inductive Reachable (isDigit isSpace : Char → Bool) : MinorPlanet K → Prop where
  | create (englishName : String) : Reachable isDigit isSpace (create isDigit isSpace englishName)
  | number (number : Int) (mp : MinorPlanet K) :
      Reachable isDigit isSpace mp → Reachable isDigit isSpace (setMinorPlanetNumber number mp)
  | magnitude (magnitude slope : Double K) (mp : MinorPlanet K) :
      Reachable isDigit isSpace mp →
        Reachable isDigit isSpace (setAbsoluteMagnitudeAndSlope magnitude slope mp)
  | designation (designation : String) (mp : MinorPlanet K) :
      Reachable isDigit isSpace mp →
        Reachable isDigit isSpace (setProvisionalDesignation isDigit isSpace designation mp)

end MinorPlanet

/-! ## The server challenge of the remote sync protocol (`SyncMessages.cpp`) -/

/-- The fields of `SyncProtocol::ServerChallenge`.  By the size check of line 70
the three versions take `9 = 1 + 4 + 4` bytes on the wire and the client id 16:
an 8-bit and two 32-bit unsigned integers and the 16 bytes of a `QUuid`. -/
structure ServerChallenge where
  protocolVersion : Nat
  remoteSyncVersion : Nat
  stellariumVersion : Nat
  clientId : List Nat

namespace ServerChallenge

/-- The values the C++ types of the fields can hold. -/
def WellFormed (m : ServerChallenge) : Prop :=
  m.protocolVersion < 256 ∧ m.remoteSyncVersion < 2 ^ 32 ∧ m.stellariumVersion < 2 ^ 32
    ∧ m.clientId.length = 16

/-- Modelled from the spec: `QDataStream << quint8` (Qt is not part of the
sources). -/
def writeUInt8 (v : Nat) (stream : List Nat) : List Nat :=
  stream ++ [v % 256]

/-- Modelled from the spec: `QDataStream << quint32` (Qt is not part of the
sources), four bytes, the most significant first. -/
def writeUInt32 (v : Nat) (stream : List Nat) : List Nat :=
  stream ++ [v / 2 ^ 24 % 256, v / 2 ^ 16 % 256, v / 2 ^ 8 % 256, v % 256]

/-- Modelled from the spec: `QDataStream::writeRawData` and `QDataStream << QUuid`
(Qt is not part of the sources) put the bytes on the stream as they are. -/
def writeRawData (bytes : List Nat) (stream : List Nat) : List Nat :=
  stream ++ bytes

/-- Modelled from the spec: `QDataStream::readRawData` (Qt is not part of the
sources) into a buffer of `n` zero bytes: the bytes that are there are copied,
the rest of the buffer stays zero. -/
def readRawData (n : Nat) (stream : List Nat) : List Nat × List Nat :=
  (stream.take n ++ List.replicate (n - stream.length) 0, stream.drop n)

/-- Modelled from the spec: `QDataStream >> quint8` (Qt is not part of the
sources); past the end of the stream the value read is `0`. -/
def readUInt8 (stream : List Nat) : Nat × List Nat :=
  match stream with
  | b :: rest => (b, rest)
  | [] => (0, [])

/-- Modelled from the spec: `QDataStream >> quint32` (Qt is not part of the
sources); past the end of the stream the value read is `0`. -/
def readUInt32 (stream : List Nat) : Nat × List Nat :=
  match stream with
  | a :: b :: c :: d :: rest => (((a * 256 + b) * 256 + c) * 256 + d, rest)
  | _ => (0, [])

/-- Modelled from the spec: `QDataStream >> QUuid` (Qt is not part of the
sources); past the end of the stream the id read is the null id. -/
def readUuid (stream : List Nat) : List Nat × List Nat :=
  if 16 ≤ stream.length then (stream.take 16, stream.drop 16)
  else (List.replicate 16 0, [])

/-- `ServerChallenge::serialize` (lines 54-65); `SYNC_MAGIC_VALUE` is a constant of
a header that is not part of the sources and is a parameter. -/
def serialize (SYNC_MAGIC_VALUE : List Nat) (m : ServerChallenge) (stream : List Nat) :
    List Nat :=
  let stream := writeRawData SYNC_MAGIC_VALUE stream
  let stream := writeUInt8 m.protocolVersion stream
  let stream := writeUInt32 m.remoteSyncVersion stream
  let stream := writeUInt32 m.stellariumVersion stream
  writeRawData m.clientId stream

/-- `ServerChallenge::deserialize` (lines 67-90): the answer, the message
afterwards and what is left of the stream. -/
def deserialize (SYNC_MAGIC_VALUE : List Nat) (stream : List Nat) (dataSize : Nat)
    (m : ServerChallenge) : Bool × ServerChallenge × List Nat :=
  if dataSize ≠ SYNC_MAGIC_VALUE.length + 9 + 16 then (false, m, stream)
  else
    let (data, stream) := readRawData SYNC_MAGIC_VALUE.length stream
    if data ≠ SYNC_MAGIC_VALUE then (false, m, stream)
    else
      let (protocolVersion, stream) := readUInt8 stream
      let (remoteSyncVersion, stream) := readUInt32 stream
      let (stellariumVersion, stream) := readUInt32 stream
      let (clientId, stream) := readUuid stream
      (true,
        { protocolVersion := protocolVersion, remoteSyncVersion := remoteSyncVersion
          stellariumVersion := stellariumVersion, clientId := clientId },
        stream)

end ServerChallenge

/-- A sample magic value of four bytes. -/
def magic0 : List Nat := [83, 84, 69, 76]

/-- A sample server challenge. -/
def challenge0 : ServerChallenge :=
  { protocolVersion := 2
    remoteSyncVersion := 66048
    stellariumVersion := 1044
    clientId := [1, 2, 3, 4, 5, 6, 7, 8, 9, 10, 11, 12, 13, 14, 15, 255] }

/-- The server challenge a default constructor could leave, all zero. -/
def challengeZero : ServerChallenge :=
  { protocolVersion := 0, remoteSyncVersion := 0, stellariumVersion := 0
    clientId := List.replicate 16 0 }

/-! ## The eye basis (`Navigator::updateModelViewMat`) -/

namespace Vec3d

/-- Modelled from the spec: `Vec3d::lengthSquared` (`VecMath.hpp` is not part of
the sources). -/
def lengthSquared (v : Vec3d K) : K :=
  v 0 * v 0 + v 1 * v 1 + v 2 * v 2

/-- Modelled from the spec: the dot product of two `Vec3d` (`VecMath.hpp` is not
part of the sources). -/
def dot (a b : Vec3d K) : K :=
  a 0 * b 0 + a 1 * b 1 + a 2 * b 2

/-- Modelled from the spec: `Vec3d::operator^`, the cross product (`VecMath.hpp` is
not part of the sources). -/
def cross (a b : Vec3d K) : Vec3d K :=
  ![a 1 * b 2 - a 2 * b 1, a 2 * b 0 - a 0 * b 2, a 0 * b 1 - a 1 * b 0]

/-- Modelled from the spec: `Vec3d::normalize` (`VecMath.hpp` is not part of the
sources): each coordinate is multiplied by the inverse of the length.  The square
root is a parameter; for a vector of length zero the code divides by zero, and
the value the model gives there (a quotient by zero is zero) stands for nothing
the code defines. -/
def normalize (sqrt : K → K) (v : Vec3d K) : Vec3d K :=
  let s := 1 / sqrt (lengthSquared v)
  ![v 0 * s, v 1 * s, v 2 * s]

end Vec3d

/-- The function `sqrt` is a square root at `x`: its value is not negative and
its square is `x`. -/
def IsSqrtAt (sqrt : K → K) (x : K) : Prop :=
  0 ≤ sqrt x ∧ sqrt x * sqrt x = x

/-- Modelled from the spec: `Mat4d::set` with its sixteen arguments (`VecMath.hpp`
is not part of the sources).  The matrix set at lines 364-367 is the rotation
from the horizon frame to the eye frame, and `Navigator.cpp` applies its matrices
to column vectors, the right factor of a product acting first (lines 320-321,
369-371, 380): the sixteen arguments are the matrix column by column, the first
four being the first column, so that the gaze goes to the axis `-z` of the
eye. -/
def Mat4d.set (a b c d e f g h i j k l m n o p : K) : Mat4d K :=
  !![a, e, i, m;
     b, f, j, n;
     c, g, k, o;
     d, h, l, p]

/-- The local vectors of `updateModelViewMat`: `f` as it stands at line 360, `s`
and `u` before lines 361-362 normalize them, and after. -/
structure EyeBasis (K : Type) where
  forward : Vec3d K
  sideRaw : Vec3d K
  upRaw : Vec3d K
  side : Vec3d K
  up : Vec3d K

namespace Navigator

/-- Lines 336-362 of `Navigator::updateModelViewMat`. -/
def eyeBasis (sqrt : K → K) (nav : Navigator K) : EyeBasis K :=
  let f := if nav.viewingMode = ViewingModeType.ViewEquator then nav.equVision
    else nav.localVision
  let f := Vec3d.normalize sqrt f
  let s : Vec3d K := ![f 1, -f 0, 0]
  let f := if nav.viewingMode = ViewingModeType.ViewEquator
    then Vec3d.normalize sqrt nav.localVision else f
  let s := if nav.viewingMode = ViewingModeType.ViewEquator
    then earthEquToAltAz nav s else s
  let u := Vec3d.cross s f
  { forward := f, sideRaw := s, upRaw := u
    side := Vec3d.normalize sqrt s, up := Vec3d.normalize sqrt u }

/-- `Navigator::updateModelViewMat` (lines 334-372). -/
def updateModelViewMat (sqrt : K → K) (nav : Navigator K) : Navigator K :=
  let b := eyeBasis sqrt nav
  let matAltAzToEye := Mat4d.set
    (b.side 0) (b.up 0) (-b.forward 0) 0
    (b.side 1) (b.up 1) (-b.forward 1) 0
    (b.side 2) (b.up 2) (-b.forward 2) 0
    0 0 0 1
  let matEarthEquToEye := matAltAzToEye * nav.matEarthEquToAltAz
  { nav with
    matAltAzToEye := matAltAzToEye
    matEarthEquToEye := matEarthEquToEye
    matHeliocentricEclipticToEye := matAltAzToEye * nav.matHeliocentricEclipticToAltAz
    matJ2000ToEye := matEarthEquToEye * nav.matJ2000ToEarthEqu }

end Navigator

/-- A square root on the rationals, exact on the squares of rationals. -/
def sqrtQ (x : ℚ) : ℚ :=
  (Nat.sqrt x.num.toNat : ℚ) / (Nat.sqrt x.den : ℚ)

/-- The state `nav0` looking along `(3, 4, 12)`, in both frames. -/
def navLooking : Navigator ℚ :=
  { nav0 with localVision := ![3, 4, 12], equVision := ![3, 4, 12] }

/-- The state `nav0` looking at the zenith, which is the celestial pole too, the
matrices being the identity. -/
def navZenith : Navigator ℚ :=
  { nav0 with localVision := ![0, 0, 1], equVision := ![0, 0, 1] }

/-- The state `navZenith` in `ViewEquator` mode: the gaze is at the celestial
pole. -/
def navPole : Navigator ℚ :=
  { navZenith with viewingMode := ViewingModeType.ViewEquator }

/-- A state in `ViewEquator` mode whose horizon frame is a quarter turn away from
the equatorial frame, looking along `(3, 4, 12)` in the horizon frame, which is
`(-4, 3, 12)` in the equatorial frame. -/
def navEquator : Navigator ℚ :=
  { nav0 with
    viewingMode := ViewingModeType.ViewEquator
    matAltAzToEarthEqu := rotZ90
    matEarthEquToAltAz := rotZ90.transpose
    localVision := ![3, 4, 12]
    equVision := ![-4, 3, 12] }

/-! ## Theorems: the time model -/

open Navigator

/-- C1: after `updateTime(deltaTime)` the instant `JDay` is the old `JDay` plus
`timeSpeed * deltaTime`, clamped to `[-34803211.500012, 38245309.499988]`, and so
lies in that interval whatever the old instant, the rate and `deltaTime` were. -/
theorem updateTime_JDay_clamped (deltaTime : K) (objmgr : StelObjectMgr) (nav : Navigator K) :
    (updateTime deltaTime objmgr nav).1.JDay
        = max (-34803211.500012) (min 38245309.499988 (nav.JDay + nav.timeSpeed * deltaTime))
      ∧ -34803211.500012 ≤ (updateTime deltaTime objmgr nav).1.JDay
      ∧ (updateTime deltaTime objmgr nav).1.JDay ≤ 38245309.499988 := by
  have hlo : (-34803211.500012 : K) < 38245309.499988 := by norm_num
  have hJ : (updateTime deltaTime objmgr nav).1.JDay
      = max (-34803211.500012) (min 38245309.499988 (nav.JDay + nav.timeSpeed * deltaTime)) := by
    unfold updateTime
    by_cases hover : nav.position.isObserverLifeOver = true
    · simp only [hover, if_true]
      by_cases h1 : nav.JDay + nav.timeSpeed * deltaTime > 38245309.499988
      · have h2 : ¬ ((38245309.499988 : K) < -34803211.500012) := not_lt.mpr hlo.le
        simp only [h1, if_true, h2, if_false]
        rw [min_eq_left h1.le, max_eq_right hlo.le]
      · simp only [h1, if_false]
        rw [min_eq_right (not_lt.mp h1)]
        by_cases h3 : nav.JDay + nav.timeSpeed * deltaTime < -34803211.500012
        · simp only [h3, if_true]
          rw [max_eq_left h3.le]
        · simp only [h3, if_false]
          rw [max_eq_right (not_lt.mp h3)]
    · simp only [hover]
      by_cases h1 : nav.JDay + nav.timeSpeed * deltaTime > 38245309.499988
      · have h2 : ¬ ((38245309.499988 : K) < -34803211.500012) := not_lt.mpr hlo.le
        simp only [h1, if_true, h2, if_false]
        rw [min_eq_left h1.le, max_eq_right hlo.le]
        simp
      · simp only [h1, if_false]
        rw [min_eq_right (not_lt.mp h1)]
        by_cases h3 : nav.JDay + nav.timeSpeed * deltaTime < -34803211.500012
        · simp only [h3, if_true]
          rw [max_eq_left h3.le]
          simp
        · simp only [h3, if_false]
          rw [max_eq_right (not_lt.mp h3)]
          simp
  refine ⟨hJ, ?_, ?_⟩
  · rw [hJ]
    exact le_max_left _ _
  · rw [hJ]
    exact max_le hlo.le (min_le_left _ _)

/-- The rate after `increaseTimeSpeed`, branch by branch. -/
lemma increaseTimeSpeed_timeSpeed (u : K) (nav : Navigator K) :
    (increaseTimeSpeed u nav).timeSpeed =
      if nav.timeSpeed ≥ u then nav.timeSpeed * 10
      else if nav.timeSpeed < -u then nav.timeSpeed / 10
      else if nav.timeSpeed ≥ 0 ∧ nav.timeSpeed < u then u
      else if nav.timeSpeed ≥ -u ∧ nav.timeSpeed < 0 then 0
      else nav.timeSpeed := rfl

/-- The rate after `decreaseTimeSpeed`, branch by branch. -/
lemma decreaseTimeSpeed_timeSpeed (u : K) (nav : Navigator K) :
    (decreaseTimeSpeed u nav).timeSpeed =
      if nav.timeSpeed > u then nav.timeSpeed / 10
      else if nav.timeSpeed ≤ -u then nav.timeSpeed * 10
      else if nav.timeSpeed > -u ∧ nav.timeSpeed ≤ 0 then -u
      else if nav.timeSpeed > 0 ∧ nav.timeSpeed ≤ u then 0
      else nav.timeSpeed := rfl

/-- `increaseTimeSpeed` writes the rate and nothing else. -/
lemma increaseTimeSpeed_eq (u : K) (nav : Navigator K) :
    increaseTimeSpeed u nav = { nav with timeSpeed := (increaseTimeSpeed u nav).timeSpeed } := rfl

/-- `decreaseTimeSpeed` writes the rate and nothing else. -/
lemma decreaseTimeSpeed_eq (u : K) (nav : Navigator K) :
    decreaseTimeSpeed u nav = { nav with timeSpeed := (decreaseTimeSpeed u nav).timeSpeed } := rfl

/-- C2: `increaseTimeSpeed` followed by `decreaseTimeSpeed` gives back the state
it started from when the rate is `0` and when the rate is `JD_SECOND`. -/
theorem increase_then_decrease_anchor (u : K) (nav : Navigator K) (hu : 0 < u)
    (h : nav.timeSpeed = 0 ∨ nav.timeSpeed = u) :
    decreaseTimeSpeed u (increaseTimeSpeed u nav) = nav
      ∧ (decreaseTimeSpeed u (increaseTimeSpeed u nav)).timeSpeed = nav.timeSpeed := by
  have key : (decreaseTimeSpeed u (increaseTimeSpeed u nav)).timeSpeed = nav.timeSpeed := by
    rcases h with h | h
    · have hi : (increaseTimeSpeed u nav).timeSpeed = u := by
        rw [increaseTimeSpeed_timeSpeed, h]
        rw [if_neg (by simpa using hu), if_neg (by simpa using hu.le),
          if_pos ⟨le_refl _, hu⟩]
      rw [decreaseTimeSpeed_timeSpeed, hi, h]
      rw [if_neg (lt_irrefl u), if_neg (by linarith), if_neg (by rintro ⟨-, h2⟩; linarith),
        if_pos ⟨hu, le_refl _⟩]
    · have hi : (increaseTimeSpeed u nav).timeSpeed = u * 10 := by
        rw [increaseTimeSpeed_timeSpeed, h, if_pos (le_refl u)]
      rw [decreaseTimeSpeed_timeSpeed, hi, h, if_pos (by linarith)]
      field_simp
  refine ⟨?_, key⟩
  rw [decreaseTimeSpeed_eq, key]
  rw [increaseTimeSpeed_eq]

/-- C2 at the state `nav0`, whose rate is one simulated second per second. -/
theorem increase_then_decrease_anchor_witness :
    decreaseTimeSpeed (1 / 86400) (increaseTimeSpeed (1 / 86400) nav0) = nav0
      ∧ (decreaseTimeSpeed (1 / 86400) (increaseTimeSpeed (1 / 86400) nav0)).timeSpeed
          = nav0.timeSpeed :=
  increase_then_decrease_anchor (1 / 86400) nav0 (by norm_num) (Or.inr rfl)

/-- C3: outside the snap zone the ladder is logarithmic.  For a rate above
`JD_SECOND`, `increaseTimeSpeed` sets the rate to ten times it and
`decreaseTimeSpeed` to a tenth of it; for a rate below `-JD_SECOND`,
`increaseTimeSpeed` sets it to a tenth and `decreaseTimeSpeed` to ten times
it.  Nothing but the rate changes. -/
theorem timeSpeed_ladder_outside_snap (u : K) (up down : Navigator K) (hu : 0 < u)
    (hup : u < up.timeSpeed) (hdown : down.timeSpeed < -u) :
    increaseTimeSpeed u up = { up with timeSpeed := 10 * up.timeSpeed }
      ∧ decreaseTimeSpeed u up = { up with timeSpeed := up.timeSpeed / 10 }
      ∧ increaseTimeSpeed u down = { down with timeSpeed := down.timeSpeed / 10 }
      ∧ decreaseTimeSpeed u down = { down with timeSpeed := 10 * down.timeSpeed } := by
  refine ⟨?_, ?_, ?_, ?_⟩
  · rw [increaseTimeSpeed_eq, increaseTimeSpeed_timeSpeed, if_pos hup.le, mul_comm]
  · rw [decreaseTimeSpeed_eq, decreaseTimeSpeed_timeSpeed, if_pos hup]
  · rw [increaseTimeSpeed_eq, increaseTimeSpeed_timeSpeed, if_neg (by intro h; linarith),
      if_pos hdown]
  · rw [decreaseTimeSpeed_eq, decreaseTimeSpeed_timeSpeed, if_neg (by intro h; linarith),
      if_pos hdown.le, mul_comm]

/-- C3 at the rates `1` and `-1` day per second. -/
theorem timeSpeed_ladder_outside_snap_witness :
    increaseTimeSpeed (1 / 86400) { nav0 with timeSpeed := 1 }
        = { nav0 with timeSpeed := 10 * 1 }
      ∧ decreaseTimeSpeed (1 / 86400) { nav0 with timeSpeed := 1 }
        = { nav0 with timeSpeed := 1 / 10 }
      ∧ increaseTimeSpeed (1 / 86400) { nav0 with timeSpeed := -1 }
        = { nav0 with timeSpeed := -1 / 10 }
      ∧ decreaseTimeSpeed (1 / 86400) { nav0 with timeSpeed := -1 }
        = { nav0 with timeSpeed := 10 * -1 } :=
  timeSpeed_ladder_outside_snap (1 / 86400) { nav0 with timeSpeed := 1 }
    { nav0 with timeSpeed := -1 } (by norm_num) (by norm_num) (by norm_num)

/-- C4, as stated, fails at the rate `0`: `decreaseTimeSpeed` does not set the
rate to `0` there, it sets `-JD_SECOND`. -/
theorem decreaseTimeSpeed_at_zero_not_zero :
    (0 : ℚ) ≤ 0 ∧ (0 : ℚ) < 1 / 86400
      ∧ (decreaseTimeSpeed (1 / 86400) { nav0 with timeSpeed := 0 }).timeSpeed = -(1 / 86400)
      ∧ (decreaseTimeSpeed (1 / 86400) { nav0 with timeSpeed := 0 }).timeSpeed ≠ 0 := by
  refine ⟨le_refl _, by norm_num, ?_, ?_⟩ <;>
    norm_num [decreaseTimeSpeed_timeSpeed]

/-- C4, amended: for a rate in `[0, JD_SECOND)` `increaseTimeSpeed` sets the rate
to exactly `JD_SECOND`; for a rate in `(0, JD_SECOND)` `decreaseTimeSpeed` sets
it to exactly `0`.  Nothing but the rate changes. -/
theorem timeSpeed_snap_nonneg (u : K) (nav pos : Navigator K)
    (h0 : 0 ≤ nav.timeSpeed) (h1 : nav.timeSpeed < u)
    (hp0 : 0 < pos.timeSpeed) (hp1 : pos.timeSpeed < u) :
    increaseTimeSpeed u nav = { nav with timeSpeed := u }
      ∧ decreaseTimeSpeed u pos = { pos with timeSpeed := 0 } := by
  have hu : 0 < u := lt_of_le_of_lt h0 h1
  constructor
  · rw [increaseTimeSpeed_eq, increaseTimeSpeed_timeSpeed, if_neg (not_le.mpr h1),
      if_neg (by intro h; linarith), if_pos ⟨h0, h1⟩]
  · rw [decreaseTimeSpeed_eq, decreaseTimeSpeed_timeSpeed, if_neg (by intro h; linarith),
      if_neg (by intro h; linarith), if_neg (by rintro ⟨-, h⟩; linarith), if_pos ⟨hp0, hp1.le⟩]

/-- C4, amended, at the rates `0` (stepping up) and half a second per second
(stepping down). -/
theorem timeSpeed_snap_nonneg_witness :
    increaseTimeSpeed (1 / 86400) { nav0 with timeSpeed := 0 }
        = { nav0 with timeSpeed := 1 / 86400 }
      ∧ decreaseTimeSpeed (1 / 86400) { nav0 with timeSpeed := 1 / 172800 }
        = { nav0 with timeSpeed := 0 } :=
  timeSpeed_snap_nonneg (1 / 86400) { nav0 with timeSpeed := 0 }
    { nav0 with timeSpeed := 1 / 172800 } (le_refl _) (by norm_num) (by norm_num)
    (by norm_num)

/-- C5, as stated, fails at the rate `0`: `increaseTimeSpeed` does not set the
rate to `0` there, it sets `JD_SECOND`. -/
theorem increaseTimeSpeed_at_zero_not_zero :
    -(1 / 86400) < (0 : ℚ) ∧ (0 : ℚ) ≤ 0
      ∧ (increaseTimeSpeed (1 / 86400) { nav0 with timeSpeed := 0 }).timeSpeed = 1 / 86400
      ∧ (increaseTimeSpeed (1 / 86400) { nav0 with timeSpeed := 0 }).timeSpeed ≠ 0 := by
  refine ⟨by norm_num, le_refl _, ?_, ?_⟩ <;>
    norm_num [increaseTimeSpeed_timeSpeed]

/-- C5, amended: for a rate in `(-JD_SECOND, 0]` `decreaseTimeSpeed` sets the rate
to exactly `-JD_SECOND`; for a rate in `(-JD_SECOND, 0)` `increaseTimeSpeed` sets
it to exactly `0`.  Nothing but the rate changes. -/
theorem timeSpeed_snap_nonpos (u : K) (nav neg : Navigator K)
    (h0 : -u < nav.timeSpeed) (h1 : nav.timeSpeed ≤ 0)
    (hn0 : -u < neg.timeSpeed) (hn1 : neg.timeSpeed < 0) :
    decreaseTimeSpeed u nav = { nav with timeSpeed := -u }
      ∧ increaseTimeSpeed u neg = { neg with timeSpeed := 0 } := by
  have hu : 0 < u := by linarith
  constructor
  · rw [decreaseTimeSpeed_eq, decreaseTimeSpeed_timeSpeed, if_neg (by intro h; linarith),
      if_neg (by intro h; linarith), if_pos ⟨h0, h1⟩]
  · rw [increaseTimeSpeed_eq, increaseTimeSpeed_timeSpeed, if_neg (by intro h; linarith),
      if_neg (by intro h; linarith), if_neg (by rintro ⟨h, -⟩; linarith), if_pos ⟨hn0.le, hn1⟩]

/-- C5, amended, at the rates `0` (stepping down) and minus half a second per
second (stepping up). -/
theorem timeSpeed_snap_nonpos_witness :
    decreaseTimeSpeed (1 / 86400) { nav0 with timeSpeed := 0 }
        = { nav0 with timeSpeed := -(1 / 86400) }
      ∧ increaseTimeSpeed (1 / 86400) { nav0 with timeSpeed := -(1 / 172800) }
        = { nav0 with timeSpeed := 0 } :=
  timeSpeed_snap_nonpos (1 / 86400) { nav0 with timeSpeed := 0 }
    { nav0 with timeSpeed := -(1 / 172800) } (by norm_num) (le_refl _) (by norm_num)
    (by norm_num)

/-! ## Theorems: gaze vectors -/

namespace Mat4d

/-- The transpose of a rotation is its inverse on the other side too. -/
lemma IsRotation.transpose_mul {M : Mat4d K} (h : IsRotation M) : M.transpose * M = 1 :=
  Matrix.mul_eq_one_comm.mp h.1

/-- The last column of a rotation is `(0, 0, 0, 1)`. -/
lemma IsRotation.transpose_row {M : Mat4d K} (h : IsRotation M) :
    M.transpose 3 = ![0, 0, 0, 1] := by
  have hrow := h.2
  have e : ∀ j : Fin 4, M 3 j = (![0, 0, 0, 1] : Fin 4 → K) j := fun j => by rw [hrow]
  have e0 := e 0
  have e1 := e 1
  have e2 := e 2
  have e3 := e 3
  simp at e0 e1 e2 e3
  have hm : ∀ i : Fin 4, (M * M.transpose) i 3 = (1 : Mat4d K) i 3 := fun i => by rw [h.1]
  funext i
  have hi := hm i
  rw [Matrix.mul_apply, Fin.sum_univ_four] at hi
  simp only [Matrix.transpose_apply, e0, e1, e2, e3, mul_zero, mul_one, zero_add] at hi
  rw [Matrix.transpose_apply, hi, Matrix.one_apply]
  fin_cases i <;> simp

/-- The transpose of a rotation is a rotation. -/
lemma IsRotation.transpose {M : Mat4d K} (h : IsRotation M) : IsRotation M.transpose :=
  ⟨by rw [Matrix.transpose_transpose]; exact h.transpose_mul, h.transpose_row⟩

/-- The product of two rotations is a rotation. -/
lemma IsRotation.mul {M N : Mat4d K} (hM : IsRotation M) (hN : IsRotation N) :
    IsRotation (M * N) := by
  constructor
  · rw [Matrix.transpose_mul, Matrix.mul_assoc, ← Matrix.mul_assoc N, hN.1, Matrix.one_mul, hM.1]
  · have hrow := hM.2
    have e : ∀ j : Fin 4, M 3 j = (![0, 0, 0, 1] : Fin 4 → K) j := fun j => by rw [hrow]
    have e0 := e 0
    have e1 := e 1
    have e2 := e 2
    have e3 := e 3
    simp at e0 e1 e2 e3
    funext j
    rw [Matrix.mul_apply, Fin.sum_univ_four, e0, e1, e2, e3]
    simp only [zero_mul, one_mul, zero_add]
    rw [hN.2]

/-- Applying a product to a point is applying the factors in turn, when the
right factor has last row `(0, 0, 0, 1)`. -/
lemma mulVec3_mul (M N : Mat4d K) (v : Vec3d K) (hN : N 3 = ![0, 0, 0, 1]) :
    mulVec3 (M * N) v = mulVec3 M (mulVec3 N v) := by
  have e : ∀ j : Fin 4, N 3 j = (![0, 0, 0, 1] : Fin 4 → K) j := fun j => by rw [hN]
  have e0 := e 0
  have e1 := e 1
  have e2 := e 2
  have e3 := e 3
  simp at e0 e1 e2 e3
  funext i
  fin_cases i <;>
    simp [mulVec3, Matrix.mul_apply, Fin.sum_univ_four, e0, e1, e2, e3] <;> ring

/-- The identity matrix fixes every point. -/
lemma mulVec3_one (v : Vec3d K) : mulVec3 (1 : Mat4d K) v = v := by
  funext i
  fin_cases i <;> simp [mulVec3]

/-- A rotation followed by its transpose fixes every point. -/
lemma IsRotation.transpose_mulVec3 {M : Mat4d K} (h : IsRotation M) (v : Vec3d K) :
    mulVec3 M.transpose (mulVec3 M v) = v := by
  rw [← mulVec3_mul _ _ _ h.2, h.transpose_mul, mulVec3_one]

/-- The transpose of a rotation followed by the rotation fixes every point. -/
lemma IsRotation.mulVec3_transpose {M : Mat4d K} (h : IsRotation M) (v : Vec3d K) :
    mulVec3 M (mulVec3 M.transpose v) = v := by
  rw [← mulVec3_mul _ _ _ h.transpose_row, h.1, mulVec3_one]

end Mat4d

/-- The quarter turn `rotZ90` is a rotation. -/
lemma rotZ90_isRotation : Mat4d.IsRotation rotZ90 := by
  constructor
  · ext i j
    fin_cases i <;> fin_cases j <;>
      norm_num [rotZ90, Matrix.mul_apply, Fin.sum_univ_four, Matrix.transpose_apply,
        Matrix.vecHead, Matrix.vecTail, Matrix.one_apply, Fin.ext_iff]
  · funext j
    fin_cases j <;> simp [rotZ90, Matrix.vecHead, Matrix.vecTail]

/-- The rational x-rotation `rotX345` is a rotation. -/
lemma rotX345_isRotation : Mat4d.IsRotation rotX345 := by
  constructor
  · ext i j
    fin_cases i <;> fin_cases j <;>
      norm_num [rotX345, Matrix.mul_apply, Fin.sum_univ_four, Matrix.transpose_apply,
        Matrix.vecHead, Matrix.vecTail, Matrix.one_apply, Fin.ext_iff]
  · funext j
    fin_cases j <;> simp [rotX345, Matrix.vecHead, Matrix.vecTail]

/-- The rational x-rotation `rotX51213` is a rotation. -/
lemma rotX51213_isRotation : Mat4d.IsRotation rotX51213 := by
  constructor
  · ext i j
    fin_cases i <;> fin_cases j <;>
      norm_num [rotX51213, Matrix.mul_apply, Fin.sum_univ_four, Matrix.transpose_apply,
        Matrix.vecHead, Matrix.vecTail, Matrix.one_apply, Fin.ext_iff]
  · funext j
    fin_cases j <;> simp [rotX51213, Matrix.vecHead, Matrix.vecTail]

/-- C6: gaze consistency.  When the pipeline matrices of a state are those
`updateTransformMatrices` wrote from orthonormal rotations (the provider's two
answers and the constant `matJ2000ToVsop87`), then for every vector `v`, after each
of `setLocalVision(v)`, `setEquVision(v)` and `setJ2000EquVision(v)` the stored
vectors satisfy `equVision = matAltAzToEarthEqu * localVision` and
`equVision = matJ2000ToEarthEqu * J2000EquVision`. -/
theorem setVision_gaze_consistent (matJ2000ToVsop87 : Mat4d K) (P : Provider K)
    (src nav : Navigator K) (v : Vec3d K)
    (hJ : Mat4d.IsRotation matJ2000ToVsop87)
    (hA : Mat4d.IsRotation (P.getRotAltAzToEquatorial src.position src.JDay))
    (hE : Mat4d.IsRotation (P.getRotEquatorialToVsop87 src.position))
    (hp : PipelineFrom matJ2000ToVsop87 P src nav) :
    GazeConsistent (setLocalVision v nav) ∧ GazeConsistent (setEquVision v nav)
      ∧ GazeConsistent (setJ2000EquVision v nav) := by
  obtain ⟨h1, h2, h3, h4, -⟩ := hp
  have hEJ : Mat4d.IsRotation
      (matVsop87ToJ2000 matJ2000ToVsop87 * P.getRotEquatorialToVsop87 src.position) :=
    hJ.transpose.mul hE
  have e1 : nav.matAltAzToEarthEqu = P.getRotAltAzToEquatorial src.position src.JDay := h1
  have e2 : nav.matEarthEquToAltAz
      = (P.getRotAltAzToEquatorial src.position src.JDay).transpose := h2
  have e3 : nav.matEarthEquToJ2000
      = matVsop87ToJ2000 matJ2000ToVsop87 * P.getRotEquatorialToVsop87 src.position := h3
  have e4 : nav.matJ2000ToEarthEqu
      = (matVsop87ToJ2000 matJ2000ToVsop87 * P.getRotEquatorialToVsop87 src.position).transpose :=
    h4
  refine ⟨⟨?_, ?_⟩, ⟨?_, ?_⟩, ⟨?_, ?_⟩⟩
  · rfl
  · show Mat4d.mulVec3 nav.matAltAzToEarthEqu v
      = Mat4d.mulVec3 nav.matJ2000ToEarthEqu
          (Mat4d.mulVec3 nav.matEarthEquToJ2000 (Mat4d.mulVec3 nav.matAltAzToEarthEqu v))
    rw [e4, e3, hEJ.transpose_mulVec3]
  · show v = Mat4d.mulVec3 nav.matAltAzToEarthEqu (Mat4d.mulVec3 nav.matEarthEquToAltAz v)
    rw [e1, e2, hA.mulVec3_transpose]
  · show v = Mat4d.mulVec3 nav.matJ2000ToEarthEqu (Mat4d.mulVec3 nav.matEarthEquToJ2000 v)
    rw [e4, e3, hEJ.transpose_mulVec3]
  · show Mat4d.mulVec3 nav.matJ2000ToEarthEqu v
      = Mat4d.mulVec3 nav.matAltAzToEarthEqu
          (Mat4d.mulVec3 nav.matEarthEquToAltAz (Mat4d.mulVec3 nav.matJ2000ToEarthEqu v))
    rw [e1, e2, hA.mulVec3_transpose]
  · rfl

/-- C6 at the state `nav0` after `updateTransformMatrices` with the rational
rotations of `provider0`, for the vector `(1, 2, 3)`. -/
theorem setVision_gaze_consistent_witness :
    GazeConsistent (setLocalVision ![1, 2, 3] (updateTransformMatrices rotX51213 provider0 nav0))
      ∧ GazeConsistent
          (setEquVision ![1, 2, 3] (updateTransformMatrices rotX51213 provider0 nav0))
      ∧ GazeConsistent
          (setJ2000EquVision ![1, 2, 3] (updateTransformMatrices rotX51213 provider0 nav0)) :=
  setVision_gaze_consistent rotX51213 provider0 nav0
    (updateTransformMatrices rotX51213 provider0 nav0) ![1, 2, 3]
    rotX51213_isRotation rotZ90_isRotation rotX345_isRotation
    ⟨rfl, rfl, rfl, rfl, rfl, rfl, rfl, rfl⟩

/-! ## Theorems: relocation and the observer lifecycle -/

/-- The duration `moveObserverTo` works with (line 201): `durationIfPlanetChange`
when the target's body differs from the current one, `duration` otherwise. -/
lemma moveObserverTo_eq (target : Location K) (duration durationIfPlanetChange d : K)
    (nav : Navigator K)
    (hd : ((getCurrentLocation nav).planetName ≠ target.planetName ∧ d = durationIfPlanetChange)
      ∨ ((getCurrentLocation nav).planetName = target.planetName ∧ d = duration)) :
    moveObserverTo target duration durationIfPlanetChange nav
      = if d > 0 then
          { nav with position := Observer.SpaceShipObserver (getCurrentLocation nav) target d }
        else { nav with position := Observer.stationary target } := by
  unfold moveObserverTo
  rcases hd with ⟨hne, rfl⟩ | ⟨heq, rfl⟩
  · simp only [if_neg hne]
  · simp only [if_pos heq]

/-- C7: instantaneous relocation.  When the duration `d` chosen by
`moveObserverTo` is `<= 0`, the observer state becomes `Stationary(target)` and
nothing else changes, so `getCurrentLocation()` is `target` right away; this is
so in particular for `moveObserverTo(target, 0, 0)`, from every state. -/
theorem moveObserverTo_instantaneous (target : Location K)
    (duration durationIfPlanetChange d : K) (nav : Navigator K)
    (hd : ((getCurrentLocation nav).planetName ≠ target.planetName ∧ d = durationIfPlanetChange)
      ∨ ((getCurrentLocation nav).planetName = target.planetName ∧ d = duration))
    (hle : d ≤ 0) :
    moveObserverTo target duration durationIfPlanetChange nav
        = { nav with position := Observer.stationary target }
      ∧ getCurrentLocation (moveObserverTo target duration durationIfPlanetChange nav) = target
      ∧ (moveObserverTo target 0 0 nav).position = Observer.stationary target
      ∧ getCurrentLocation (moveObserverTo target 0 0 nav) = target := by
  have h1 : moveObserverTo target duration durationIfPlanetChange nav
      = { nav with position := Observer.stationary target } := by
    rw [moveObserverTo_eq target duration durationIfPlanetChange d nav hd, if_neg (not_lt.mpr hle)]
  have h0 : moveObserverTo target 0 0 nav = { nav with position := Observer.stationary target } := by
    unfold moveObserverTo
    simp
  refine ⟨h1, ?_, ?_, ?_⟩
  · rw [h1]
    rfl
  · rw [h0]
  · rw [h0]
    rfl

/-- C7 for a jump from Paris to Olympus Mons with durations `5` (same body) and
`0` (other body): the body changes, so the chosen duration is `0`. -/
theorem moveObserverTo_instantaneous_witness :
    moveObserverTo olympus 5 0 nav0 = { nav0 with position := Observer.stationary olympus }
      ∧ getCurrentLocation (moveObserverTo olympus 5 0 nav0) = olympus
      ∧ (moveObserverTo olympus 0 0 nav0).position = Observer.stationary olympus
      ∧ getCurrentLocation (moveObserverTo olympus 0 0 nav0) = olympus :=
  moveObserverTo_instantaneous olympus 5 0 0 nav0 (Or.inl ⟨by decide, rfl⟩) (le_refl _)

/-- C8: the duration choice.  With `d` the value `durationIfPlanetChange` when
the target's body differs from the body of the current location and `duration`
otherwise, and `d > 0`, `moveObserverTo` replaces the observer state, whatever it
was, by a transition from the location resolved at the call to `target`, of
duration `d`, and changes nothing else. -/
theorem moveObserverTo_duration_choice (target : Location K)
    (duration durationIfPlanetChange d : K) (nav : Navigator K)
    (hd : ((getCurrentLocation nav).planetName ≠ target.planetName ∧ d = durationIfPlanetChange)
      ∨ ((getCurrentLocation nav).planetName = target.planetName ∧ d = duration))
    (hpos : 0 < d) :
    moveObserverTo target duration durationIfPlanetChange nav
      = { nav with
          position := Observer.transitioning (getCurrentLocation nav) target 0 d 0 } := by
  rw [moveObserverTo_eq target duration durationIfPlanetChange d nav hd, if_pos hpos]
  rfl

/-- C8 for a move from Paris to Olympus Mons with durations `5` (same body) and
`7` (other body): the body changes, so the transition lasts `7`. -/
theorem moveObserverTo_duration_choice_witness :
    moveObserverTo olympus 5 7 nav0
      = { nav0 with position := Observer.transitioning (getCurrentLocation nav0) olympus 0 7 0 } :=
  moveObserverTo_duration_choice olympus 5 7 7 nav0 (Or.inl ⟨by decide, rfl⟩) (by norm_num)

/-- The observer state `updateTime` leaves behind: the lifecycle check comes
first (line 284), `position->update(deltaTime)` last (line 296). -/
lemma updateTime_position (deltaTime : K) (objmgr : StelObjectMgr) (nav : Navigator K) :
    (updateTime deltaTime objmgr nav).1.position
      = (if nav.position.isObserverLifeOver then nav.position.getNextObserver
          else nav.position).update deltaTime := by
  unfold updateTime
  by_cases h : nav.position.isObserverLifeOver = true <;> simp [h]

/-- A stationary observer is left alone by `updateTime`. -/
lemma updateTime_position_stationary (deltaTime : K) (objmgr : StelObjectMgr)
    (nav : Navigator K) (loc : Location K) (h : nav.position = Observer.stationary loc) :
    (updateTime deltaTime objmgr nav).1.position = Observer.stationary loc := by
  rw [updateTime_position, h]
  rfl

/-- A transition in progress is either finished at the check, and replaced by
the stationary observer at its destination, or has its clock advanced. -/
lemma updateTime_position_transitioning (deltaTime : K) (objmgr : StelObjectMgr)
    (nav : Navigator K) (source destination : Location K) (startTime duration now : K)
    (h : nav.position = Observer.transitioning source destination startTime duration now) :
    (updateTime deltaTime objmgr nav).1.position
      = if 1 ≤ max 0 (min 1 ((now - startTime) / duration))
        then Observer.stationary destination
        else Observer.transitioning source destination startTime duration (now + deltaTime) := by
  rw [updateTime_position, h]
  by_cases hr : 1 ≤ max 0 (min 1 ((now - startTime) / duration))
  · have : (Observer.transitioning source destination startTime duration now).isObserverLifeOver
        = true := by
      simp only [Observer.isObserverLifeOver, Observer.transitRatio, decide_eq_true_eq]
      exact hr
    rw [this, if_pos hr]
    rfl
  · have : (Observer.transitioning source destination startTime duration now).isObserverLifeOver
        = false := by
      simp only [Observer.isObserverLifeOver, Observer.transitRatio, decide_eq_false_iff_not]
      exact hr
    rw [this, if_neg hr]
    rfl

/-- The location of a transition whose ratio is `1` is its destination. -/
lemma getCurrentLocation_transitioning_done (source destination : Location K)
    (startTime duration now : K)
    (hr : max 0 (min 1 ((now - startTime) / duration)) = 1) :
    (Observer.transitioning source destination startTime duration now).getCurrentLocation
      = destination := by
  cases destination
  simp [Observer.getCurrentLocation, Observer.transitRatio, hr]

/-- The location of a transition whose ratio is `0` is its source. -/
lemma getCurrentLocation_transitioning_start (source destination : Location K)
    (startTime duration now : K)
    (hr : max 0 (min 1 ((now - startTime) / duration)) = 0) :
    (Observer.transitioning source destination startTime duration now).getCurrentLocation
      = source := by
  cases source
  simp [Observer.getCurrentLocation, Observer.transitRatio, hr]

/-- Stepping a transition started by the constructor: after the steps `deltas`
the observer is still that transition, its clock at the sum of the steps, or it
is the stationary observer at the destination. -/
lemma updateTimes_position (source destination : Location K) (duration : K) (deltas : List K) :
    ∀ (now : K) (s : Navigator K × StelObjectMgr),
      (s.1.position = Observer.transitioning source destination 0 duration now
        ∨ s.1.position = Observer.stationary destination) →
      ((updateTimes deltas s).1.position
          = Observer.transitioning source destination 0 duration (now + deltas.sum)
        ∨ (updateTimes deltas s).1.position = Observer.stationary destination) := by
  induction deltas with
  | nil =>
    intro now s h
    simpa [updateTimes] using h
  | cons dt rest ih =>
    intro now s h
    have hstep : updateTimes (dt :: rest) s = updateTimes rest (updateTime dt s.2 s.1) := rfl
    rw [hstep, List.sum_cons, ← add_assoc]
    apply ih (now + dt)
    rcases h with h | h
    · rw [updateTime_position_transitioning dt s.2 s.1 _ _ _ _ _ h]
      by_cases hr : 1 ≤ max 0 (min 1 ((now - 0) / duration))
      · right
        rw [if_pos hr]
      · left
        rw [if_neg hr]
    · right
      exact updateTime_position_stationary dt s.2 s.1 destination h

/-- C9, as stated, fails: after `moveObserverTo(greenwich, 10, 0)` from Paris (same
body) and one `updateTime(10)`, ten time units have elapsed and the observer
state held by the engine is still the transition, not a stationary observer. -/
theorem relocate_ten_still_transitioning :
    (getCurrentLocation nav0).planetName = greenwich.planetName
      ∧ (updateTime 10 { selected := [] } (moveObserverTo greenwich 10 0 nav0)).1.position
          = Observer.transitioning paris greenwich 0 10 10
      ∧ ¬ ∃ loc, (updateTime 10 { selected := [] } (moveObserverTo greenwich 10 0 nav0)).1.position
          = Observer.stationary loc := by
  have hm : moveObserverTo greenwich 10 0 nav0
      = { nav0 with position := Observer.transitioning paris greenwich 0 10 0 } := by
    rw [moveObserverTo_eq greenwich 10 0 10 nav0 (Or.inr ⟨rfl, rfl⟩), if_pos (by norm_num)]
    rfl
  have hp : (updateTime 10 { selected := [] } (moveObserverTo greenwich 10 0 nav0)).1.position
      = Observer.transitioning paris greenwich 0 10 10 := by
    rw [hm, updateTime_position_transitioning 10 _ _ paris greenwich 0 10 0 rfl]
    norm_num
  refine ⟨rfl, hp, ?_⟩
  rw [hp]
  rintro ⟨loc, h⟩
  cases h

/-- C9, amended: timed relocation.  After `moveObserverTo(target, 10, 0)` towards a
target on the same body, `getCurrentLocation()` is the source location; once
`updateTime` steps whose `deltaTime`s sum to 10 or more have been made,
`getCurrentLocation()` is `target`, and after one further `updateTime` call, with
any `deltaTime`, the observer state held by the engine is `Stationary(target)`. -/
theorem relocate_timed (target : Location K) (nav : Navigator K) (objmgr : StelObjectMgr)
    (deltas : List K) (deltaTime : K)
    (hbody : (getCurrentLocation nav).planetName = target.planetName)
    (hsum : 10 ≤ deltas.sum) :
    getCurrentLocation (moveObserverTo target 10 0 nav) = getCurrentLocation nav
      ∧ getCurrentLocation (updateTimes deltas (moveObserverTo target 10 0 nav, objmgr)).1 = target
      ∧ (updateTime deltaTime (updateTimes deltas (moveObserverTo target 10 0 nav, objmgr)).2
            (updateTimes deltas (moveObserverTo target 10 0 nav, objmgr)).1).1.position
          = Observer.stationary target := by
  have hm : moveObserverTo target 10 0 nav
      = { nav with position := Observer.transitioning (getCurrentLocation nav) target 0 10 0 } := by
    rw [moveObserverTo_eq target 10 0 10 nav (Or.inr ⟨hbody, rfl⟩), if_pos (by norm_num)]
    rfl
  have hdone : max (0 : K) (min 1 ((0 + deltas.sum - 0) / 10)) = 1 := by
    have h1 : (1 : K) ≤ (0 + deltas.sum - 0) / 10 := by
      rw [le_div_iff₀ (by norm_num)]
      linarith
    rw [min_eq_left h1, max_eq_right zero_le_one]
  have hinv := updateTimes_position (getCurrentLocation nav) target 10 deltas 0
    (moveObserverTo target 10 0 nav, objmgr) (Or.inl (by rw [hm]))
  refine ⟨?_, ?_, ?_⟩
  · rw [hm]
    exact getCurrentLocation_transitioning_start _ _ _ _ _ (by norm_num)
  · rcases hinv with h | h
    · unfold getCurrentLocation
      rw [h]
      exact getCurrentLocation_transitioning_done _ _ _ _ _ hdone
    · unfold getCurrentLocation
      rw [h]
      rfl
  · rcases hinv with h | h
    · rw [updateTime_position_transitioning deltaTime _ _ _ _ _ _ _ h, if_pos hdone.ge]
    · exact updateTime_position_stationary deltaTime _ _ target h

/-- C9, amended, for a move from Paris to Greenwich stepped by `4` and then `6`
time units, with one further step of `0`. -/
theorem relocate_timed_witness :
    getCurrentLocation (moveObserverTo greenwich 10 0 nav0) = getCurrentLocation nav0
      ∧ getCurrentLocation
          (updateTimes [4, 6] (moveObserverTo greenwich 10 0 nav0, { selected := [] })).1
          = greenwich
      ∧ (updateTime 0
            (updateTimes [4, 6] (moveObserverTo greenwich 10 0 nav0, { selected := [] })).2
            (updateTimes [4, 6] (moveObserverTo greenwich 10 0 nav0, { selected := [] })).1
          ).1.position
          = Observer.stationary greenwich :=
  relocate_timed greenwich nav0 { selected := [] } [4, 6] 0 rfl (by norm_num)

/-- C10, as stated, fails: a transition half way through, stepped by the other
half, has ratio `1` when `updateTime` returns and is still the state held by the
engine. -/
theorem updateTime_leaves_finished_transition :
    (updateTime 5 { selected := [] }
        { nav0 with position := Observer.transitioning paris olympus 0 10 5 }).1.position
        = Observer.transitioning paris olympus 0 10 10
      ∧ (updateTime 5 { selected := [] }
          { nav0 with position := Observer.transitioning paris olympus 0 10 5 }
          ).1.position.transitRatio = 1
      ∧ (updateTime 5 { selected := [] }
          { nav0 with position := Observer.transitioning paris olympus 0 10 5 }
          ).1.position.isObserverLifeOver = true := by
  have hp : (updateTime 5 { selected := [] }
        { nav0 with position := Observer.transitioning paris olympus 0 10 5 }).1.position
        = Observer.transitioning paris olympus 0 10 10 := by
    rw [updateTime_position_transitioning 5 _ _ paris olympus 0 10 5 rfl]
    norm_num
  refine ⟨hp, ?_, ?_⟩
  · rw [hp]
    norm_num [Observer.transitRatio]
  · rw [hp]
    norm_num [Observer.isObserverLifeOver, Observer.transitRatio]

/-- C10, amended: the lifecycle check of `updateTime` is made on the observer
state as it is when `updateTime` is called, before `position->update(deltaTime)`.
The state is replaced by its next observer exactly when it reports at that check
that its life is over; a stationary observer stays; a transition whose ratio had
reached `1` before the call is replaced by the stationary observer at its
destination; a transition whose ratio was below `1` stays, with its clock
advanced by `deltaTime`. -/
theorem updateTime_lifecycle (deltaTime : K) (objmgr : StelObjectMgr) (nav : Navigator K) :
    (updateTime deltaTime objmgr nav).1.position
        = (if nav.position.isObserverLifeOver then nav.position.getNextObserver
            else nav.position).update deltaTime
      ∧ (updateTime deltaTime objmgr nav).1.position
        = match nav.position with
          | Observer.stationary loc => Observer.stationary loc
          | Observer.transitioning source destination startTime duration now =>
              if 1 ≤ (Observer.transitioning source destination startTime duration now).transitRatio
              then Observer.stationary destination
              else Observer.transitioning source destination startTime duration
                (now + deltaTime) := by
  refine ⟨updateTime_position deltaTime objmgr nav, ?_⟩
  cases hpos : nav.position with
  | stationary loc => exact updateTime_position_stationary deltaTime objmgr nav loc hpos
  | transitioning source destination startTime duration now =>
    exact updateTime_position_transitioning deltaTime objmgr nav _ _ _ _ _ hpos

/-! ## Theorems: selection and failed relocation -/

/-- The selection `updateTime` leaves behind: it is cleared when the observer's
life is over at the check and the first selected object is the home planet the
observer reports at that moment (lines 284-291). -/
lemma updateTime_objmgr (deltaTime : K) (objmgr : StelObjectMgr) (nav : Navigator K) :
    (updateTime deltaTime objmgr nav).2
      = if nav.position.isObserverLifeOver = true
          ∧ (objmgr.getWasSelected && objmgr.selected.head? == some nav.position.getHomePlanet)
            = true
        then objmgr.unSelect else objmgr := by
  unfold updateTime
  by_cases h : nav.position.isObserverLifeOver = true
  · by_cases h2 : (objmgr.getWasSelected
        && objmgr.selected.head? == some nav.position.getHomePlanet) = true
    · simp only [h, h2, if_true, and_self]
    · simp only [h, h2, if_true, and_false, if_false]
      simp
  · simp only [h, false_and, if_false]
    simp

/-- A transition whose ratio has reached `1` reports the destination's body as
its home planet. -/
lemma getHomePlanet_transitioning_done (source destination : Location K)
    (startTime duration now : K)
    (hr : 1 ≤ (Observer.transitioning source destination startTime duration now).transitRatio) :
    (Observer.transitioning source destination startTime duration now).getHomePlanet
      = destination.planetName := by
  simp only [Observer.getHomePlanet, Observer.getCurrentLocation]
  rw [if_neg (not_lt.mpr hr)]

/-- C11, as stated, fails: a finished transition from Paris (Earth) to Olympus
Mons (Mars) is replaced by `updateTime`, the home body has changed, the selected
object is the old home body, and the selection is still there afterwards. -/
theorem updateTime_keeps_selection_of_old_body :
    (Observer.transitioning paris olympus 0 10 10).isObserverLifeOver = true
      ∧ paris.planetName = "Earth" ∧ olympus.planetName = "Mars"
      ∧ (updateTime 0 { selected := ["Earth"] }
          { nav0 with position := Observer.transitioning paris olympus 0 10 10 }).1.position
          = Observer.stationary olympus
      ∧ (updateTime 0 { selected := ["Earth"] }
          { nav0 with position := Observer.transitioning paris olympus 0 10 10 }).2.selected
          = ["Earth"] := by
  have hover : (Observer.transitioning paris olympus 0 10 10).isObserverLifeOver = true := by
    norm_num [Observer.isObserverLifeOver, Observer.transitRatio]
  have hr : (1 : ℚ) ≤ (Observer.transitioning paris olympus 0 10 10).transitRatio := by
    norm_num [Observer.transitRatio]
  refine ⟨hover, rfl, rfl, ?_, ?_⟩
  · rw [updateTime_position_transitioning 0 _ _ paris olympus 0 10 10 rfl]
    norm_num
  · rw [updateTime_objmgr]
    have hhome : (Observer.transitioning paris olympus 0 10 10).getHomePlanet = "Mars" :=
      getHomePlanet_transitioning_done paris olympus 0 10 10 hr
    simp only [hhome, hover]
    decide

/-- C11, amended: when `updateTime` replaces a finished transition, and the home
body changed (the destination's body is not the source's), and the first
selected object is exactly the new home body, the one the finished transition
reports as its home planet, the selection is cleared; a selection whose first
object is the old home body is left as it is. -/
theorem updateTime_unselects_new_home (deltaTime : K) (objmgr kept : StelObjectMgr)
    (nav : Navigator K) (source destination : Location K) (startTime duration now : K)
    (hpos : nav.position = Observer.transitioning source destination startTime duration now)
    (hover : 1 ≤ (Observer.transitioning source destination startTime duration now).transitRatio)
    (hbody : source.planetName ≠ destination.planetName)
    (hsel : objmgr.selected.head? = some destination.planetName)
    (hkept : kept.selected.head? = some source.planetName) :
    (updateTime deltaTime objmgr nav).1.position = Observer.stationary destination
      ∧ (updateTime deltaTime objmgr nav).2.selected = []
      ∧ (updateTime deltaTime kept nav).2 = kept := by
  have hhome : nav.position.getHomePlanet = destination.planetName := by
    rw [hpos]
    exact getHomePlanet_transitioning_done _ _ _ _ _ hover
  have hlife : nav.position.isObserverLifeOver = true := by
    rw [hpos]
    simp only [Observer.isObserverLifeOver, decide_eq_true_eq]
    exact hover
  refine ⟨?_, ?_, ?_⟩
  · rw [updateTime_position_transitioning deltaTime objmgr nav _ _ _ _ _ hpos]
    exact if_pos hover
  · rw [updateTime_objmgr, hhome, hsel]
    have hw : objmgr.getWasSelected = true := by
      unfold StelObjectMgr.getWasSelected
      cases hl : objmgr.selected with
      | nil => rw [hl] at hsel; cases hsel
      | cons a l => rfl
    simp only [hlife, hw, Bool.true_and, beq_self_eq_true, and_self, if_true]
    rfl
  · rw [updateTime_objmgr, hhome, hkept]
    have hne : (some source.planetName == some destination.planetName) = false := by
      simp only [beq_eq_false_iff_ne, ne_eq, Option.some.injEq]
      exact hbody
    simp only [hne, Bool.and_false, Bool.false_eq_true, and_false, if_false]

/-- C11, amended, for a finished transition from Paris to Olympus Mons: a
selection of Mars is cleared, a selection of Earth is kept. -/
theorem updateTime_unselects_new_home_witness :
    (updateTime 0 { selected := ["Mars"] }
        { nav0 with position := Observer.transitioning paris olympus 0 10 10 }).1.position
        = Observer.stationary olympus
      ∧ (updateTime 0 { selected := ["Mars"] }
          { nav0 with position := Observer.transitioning paris olympus 0 10 10 }).2.selected = []
      ∧ (updateTime 0 { selected := ["Earth"] }
          { nav0 with position := Observer.transitioning paris olympus 0 10 10 }).2
          = { selected := ["Earth"] } :=
  updateTime_unselects_new_home 0 { selected := ["Mars"] } { selected := ["Earth"] }
    { nav0 with position := Observer.transitioning paris olympus 0 10 10 }
    paris olympus 0 10 10 rfl (by norm_num [Observer.transitRatio]) (by decide) rfl rfl

/-- C12 (counterexample): `moveObserverTo(vulcan, 0, 0)` from Paris, for a target on
a body named `Vulcan`.  The call makes no lookup and has nothing to report a
failure with: the previous observer state `Stationary(paris)` is deleted (line
210) and replaced by `Stationary(vulcan)`, so the state is not the one before the
call. -/
theorem moveObserverTo_unknown_body_replaces :
    vulcan.planetName = "Vulcan"
      ∧ nav0.position = Observer.stationary paris
      ∧ (moveObserverTo vulcan 0 0 nav0).position = Observer.stationary vulcan
      ∧ (moveObserverTo vulcan 0 0 nav0).position ≠ nav0.position
      ∧ moveObserverTo vulcan 0 0 nav0 ≠ nav0 := by
  have h0 : (moveObserverTo vulcan 0 0 nav0).position = Observer.stationary vulcan := by
    rw [moveObserverTo_eq vulcan 0 0 0 nav0 (Or.inl ⟨by decide, rfl⟩), if_neg (by norm_num)]
  have hne : (moveObserverTo vulcan 0 0 nav0).position ≠ nav0.position := by
    rw [h0]
    intro h
    have hloc : vulcan = paris := Observer.stationary.inj h
    have hname : vulcan.planetName = paris.planetName := by rw [hloc]
    revert hname
    decide
  refine ⟨rfl, rfl, h0, hne, ?_⟩
  intro h
  apply hne
  rw [h]

/-- C12 (amended): `moveObserverTo` makes no lookup and reports nothing.  For every
target location, whatever body it names, when the duration `d` chosen at line 201
is `<= 0` the previous observer state is deleted and `Stationary(target)` takes
its place: the state after the call is the state before it only if that was
`Stationary(target)` already, and nothing but the observer state changes. -/
theorem moveObserverTo_instant_replaces (target : Location K)
    (duration durationIfPlanetChange d : K) (nav : Navigator K)
    (hd : ((getCurrentLocation nav).planetName ≠ target.planetName ∧ d = durationIfPlanetChange)
      ∨ ((getCurrentLocation nav).planetName = target.planetName ∧ d = duration))
    (hle : d ≤ 0) :
    (moveObserverTo target duration durationIfPlanetChange nav).position
        = Observer.stationary target
      ∧ moveObserverTo target duration durationIfPlanetChange nav
        = { nav with position := Observer.stationary target }
      ∧ ((moveObserverTo target duration durationIfPlanetChange nav).position = nav.position
        ↔ nav.position = Observer.stationary target)
      ∧ (moveObserverTo target duration durationIfPlanetChange nav = nav
        ↔ nav.position = Observer.stationary target) := by
  have h1 : moveObserverTo target duration durationIfPlanetChange nav
      = { nav with position := Observer.stationary target } := by
    rw [moveObserverTo_eq target duration durationIfPlanetChange d nav hd, if_neg (not_lt.mpr hle)]
  have hp : (moveObserverTo target duration durationIfPlanetChange nav).position
      = Observer.stationary target := by
    rw [h1]
  refine ⟨hp, h1, ?_, ?_⟩
  · rw [hp]
    exact eq_comm
  · constructor
    · intro h
      rw [← hp, h]
    · intro h
      rw [h1, ← h]

/-- C12 (amended) for `moveObserverTo(vulcan, 5, 0)` from Paris: the body changes,
so the chosen duration is `0`, and the state `Stationary(paris)` is replaced. -/
theorem moveObserverTo_instant_replaces_witness :
    (moveObserverTo vulcan 5 0 nav0).position = Observer.stationary vulcan
      ∧ moveObserverTo vulcan 5 0 nav0 = { nav0 with position := Observer.stationary vulcan }
      ∧ ((moveObserverTo vulcan 5 0 nav0).position = nav0.position
        ↔ nav0.position = Observer.stationary vulcan)
      ∧ (moveObserverTo vulcan 5 0 nav0 = nav0
        ↔ nav0.position = Observer.stationary vulcan) :=
  moveObserverTo_instant_replaces vulcan 5 0 0 nav0 (Or.inl ⟨by decide, rfl⟩) (le_refl _)

/-! ## Theorems: the transform pipeline -/

namespace Mat4d

/-- The last row of a translation is `(0, 0, 0, 1)`. -/
lemma translation_row (v : Vec3d K) : translation v 3 = ![0, 0, 0, 1] := by
  funext j
  fin_cases j <;> simp [translation, Matrix.vecHead, Matrix.vecTail]

/-- Translations compose by adding their vectors. -/
lemma translation_mul (u v : Vec3d K) : translation u * translation v = translation (u + v) := by
  ext i j
  fin_cases i <;> fin_cases j <;>
    simp [translation, Matrix.mul_apply, Fin.sum_univ_four, Matrix.vecHead, Matrix.vecTail,
      add_comm]

/-- The translation by the zero vector is the identity. -/
lemma translation_zero : translation (0 : Vec3d K) = 1 := by
  ext i j
  fin_cases i <;> fin_cases j <;> rfl

/-- A translation followed by the opposite translation is the identity. -/
lemma translation_neg_mul (v : Vec3d K) : translation (-v) * translation v = 1 := by
  rw [translation_mul, neg_add_cancel, translation_zero]

/-- The opposite translation followed by the translation is the identity. -/
lemma translation_mul_neg (v : Vec3d K) : translation v * translation (-v) = 1 := by
  rw [translation_mul, add_neg_cancel, translation_zero]

/-- A translation moves a point by its vector. -/
lemma mulVec3_translation (u v : Vec3d K) : mulVec3 (translation u) v = v + u := by
  funext i
  fin_cases i <;> simp [mulVec3, translation, Matrix.vecHead, Matrix.vecTail]

end Mat4d

/-- The chain of rotations of line 318 is a rotation when its factors are. -/
lemma rotAltAzToVsop87_isRotation (matJ2000ToVsop87 : Mat4d K) (P : Provider K)
    (nav : Navigator K)
    (hJ : Mat4d.IsRotation matJ2000ToVsop87)
    (hA : Mat4d.IsRotation (P.getRotAltAzToEquatorial nav.position nav.JDay))
    (hE : Mat4d.IsRotation (P.getRotEquatorialToVsop87 nav.position)) :
    Mat4d.IsRotation (rotAltAzToVsop87 matJ2000ToVsop87 P nav) :=
  (hJ.mul (hJ.transpose.mul hE)).mul hA

/-- C13: inverse pairs of the pipeline.  After `updateTransformMatrices`,
`matEarthEquToAltAz` is the transpose of `matAltAzToEarthEqu` and
`matJ2000ToEarthEqu` is the transpose of `matEarthEquToJ2000`; when the provider's
two rotations (and the constant `matJ2000ToVsop87`) are orthonormal, the products
`matEarthEquToAltAz * matAltAzToEarthEqu` and `matJ2000ToEarthEqu * matEarthEquToJ2000`
are the identity, at whatever `JDay` the state holds. -/
theorem pipeline_inverse_pairs (matJ2000ToVsop87 : Mat4d K) (P : Provider K)
    (nav : Navigator K)
    (hJ : Mat4d.IsRotation matJ2000ToVsop87)
    (hA : Mat4d.IsRotation (P.getRotAltAzToEquatorial nav.position nav.JDay))
    (hE : Mat4d.IsRotation (P.getRotEquatorialToVsop87 nav.position)) :
    (updateTransformMatrices matJ2000ToVsop87 P nav).matEarthEquToAltAz
        = (updateTransformMatrices matJ2000ToVsop87 P nav).matAltAzToEarthEqu.transpose
      ∧ (updateTransformMatrices matJ2000ToVsop87 P nav).matJ2000ToEarthEqu
        = (updateTransformMatrices matJ2000ToVsop87 P nav).matEarthEquToJ2000.transpose
      ∧ (updateTransformMatrices matJ2000ToVsop87 P nav).matEarthEquToAltAz
          * (updateTransformMatrices matJ2000ToVsop87 P nav).matAltAzToEarthEqu = 1
      ∧ (updateTransformMatrices matJ2000ToVsop87 P nav).matJ2000ToEarthEqu
          * (updateTransformMatrices matJ2000ToVsop87 P nav).matEarthEquToJ2000 = 1 := by
  refine ⟨rfl, rfl, ?_, ?_⟩
  · exact hA.transpose_mul
  · exact (hJ.transpose.mul hE).transpose_mul

/-- C13 at the state `nav0` with the rational rotations of `provider0`. -/
theorem pipeline_inverse_pairs_witness :
    (updateTransformMatrices rotX51213 provider0 nav0).matEarthEquToAltAz
        = (updateTransformMatrices rotX51213 provider0 nav0).matAltAzToEarthEqu.transpose
      ∧ (updateTransformMatrices rotX51213 provider0 nav0).matJ2000ToEarthEqu
        = (updateTransformMatrices rotX51213 provider0 nav0).matEarthEquToJ2000.transpose
      ∧ (updateTransformMatrices rotX51213 provider0 nav0).matEarthEquToAltAz
          * (updateTransformMatrices rotX51213 provider0 nav0).matAltAzToEarthEqu = 1
      ∧ (updateTransformMatrices rotX51213 provider0 nav0).matJ2000ToEarthEqu
          * (updateTransformMatrices rotX51213 provider0 nav0).matEarthEquToJ2000 = 1 :=
  pipeline_inverse_pairs rotX51213 provider0 nav0 rotX51213_isRotation rotZ90_isRotation
    rotX345_isRotation

/-- A matrix without translation has `(0, 0, 0, 1)` as its last row, entry by
entry. -/
lemma Mat4d.NoTranslation.row_apply {M : Mat4d K} (h : Mat4d.NoTranslation M) :
    M 3 0 = 0 ∧ M 3 1 = 0 ∧ M 3 2 = 0 ∧ M 3 3 = 1 := by
  have e : ∀ j : Fin 4, M 3 j = (![0, 0, 0, 1] : Fin 4 → K) j := fun j => by rw [h.1]
  have e0 := e 0
  have e1 := e 1
  have e2 := e 2
  have e3 := e 3
  simp at e0 e1 e2 e3
  exact ⟨e0, e1, e2, e3⟩

/-- A matrix without translation has `(0, 0, 0, 1)` as its last column, entry by
entry. -/
lemma Mat4d.NoTranslation.col_apply {M : Mat4d K} (h : Mat4d.NoTranslation M) :
    M 0 3 = 0 ∧ M 1 3 = 0 ∧ M 2 3 = 0 ∧ M 3 3 = 1 := by
  have e : ∀ i : Fin 4, M.transpose 3 i = (![0, 0, 0, 1] : Fin 4 → K) i := fun i => by rw [h.2]
  have e0 := e 0
  have e1 := e 1
  have e2 := e 2
  have e3 := e 3
  simp [Matrix.transpose_apply] at e0 e1 e2 e3
  exact ⟨e0, e1, e2, e3⟩

/-- A rotation has no translation. -/
lemma Mat4d.IsRotation.noTranslation {M : Mat4d K} (h : Mat4d.IsRotation M) :
    Mat4d.NoTranslation M :=
  ⟨h.2, h.transpose_row⟩

/-- The transpose of a matrix without translation has no translation. -/
lemma Mat4d.noTranslation_transpose {M : Mat4d K} (h : Mat4d.NoTranslation M) :
    Mat4d.NoTranslation M.transpose :=
  ⟨h.2, by rw [Matrix.transpose_transpose]; exact h.1⟩

/-- The product of two matrices without translation has no translation. -/
lemma Mat4d.noTranslation_mul {M N : Mat4d K} (hM : Mat4d.NoTranslation M)
    (hN : Mat4d.NoTranslation N) : Mat4d.NoTranslation (M * N) := by
  obtain ⟨m0, m1, m2, m3⟩ := hM.row_apply
  obtain ⟨n0, n1, n2, n3⟩ := hN.col_apply
  constructor
  · funext j
    rw [Matrix.mul_apply, Fin.sum_univ_four, m0, m1, m2, m3]
    simp only [zero_mul, one_mul, zero_add]
    rw [hN.1]
  · funext i
    rw [Matrix.transpose_apply, Matrix.mul_apply, Fin.sum_univ_four, n0, n1, n2, n3]
    simp only [mul_zero, mul_one, zero_add]
    have := congrFun hM.2 i
    rw [Matrix.transpose_apply] at this
    exact this

/-- A matrix without translation fixes the origin. -/
lemma Mat4d.noTranslation_mulVec3_zero {M : Mat4d K} (h : Mat4d.NoTranslation M) :
    Mat4d.mulVec3 M ![0, 0, 0] = ![0, 0, 0] := by
  obtain ⟨e0, e1, e2, -⟩ := h.col_apply
  funext i
  fin_cases i <;> simp [Mat4d.mulVec3, e0, e1, e2]

/-- C14: after `updateTransformMatrices`, `matHeliocentricEclipticToEarthEqu` is
`matJ2000ToEarthEqu * matVsop87ToJ2000 * Translate(-centerVsop87Pos)`; the provider's
equatorial-to-ecliptic rotation and the constant `matJ2000ToVsop87` carrying no
translation, it sends the home body's own heliocentric position to the zero
vector. -/
theorem helio_to_equ_centres_body (matJ2000ToVsop87 : Mat4d K) (P : Provider K)
    (nav : Navigator K)
    (hJ : Mat4d.NoTranslation matJ2000ToVsop87)
    (hE : Mat4d.NoTranslation (P.getRotEquatorialToVsop87 nav.position)) :
    (updateTransformMatrices matJ2000ToVsop87 P nav).matHeliocentricEclipticToEarthEqu
        = (updateTransformMatrices matJ2000ToVsop87 P nav).matJ2000ToEarthEqu
          * matVsop87ToJ2000 matJ2000ToVsop87
          * Mat4d.translation (-P.getCenterVsop87Pos nav.position)
      ∧ Mat4d.mulVec3
          (updateTransformMatrices matJ2000ToVsop87 P nav).matHeliocentricEclipticToEarthEqu
          (P.getCenterVsop87Pos nav.position) = ![0, 0, 0] := by
  refine ⟨rfl, ?_⟩
  have hR : Mat4d.NoTranslation
      ((matVsop87ToJ2000 matJ2000ToVsop87 * P.getRotEquatorialToVsop87 nav.position).transpose
        * matVsop87ToJ2000 matJ2000ToVsop87) :=
    Mat4d.noTranslation_mul
      (Mat4d.noTranslation_transpose
        (Mat4d.noTranslation_mul (Mat4d.noTranslation_transpose hJ) hE))
      (Mat4d.noTranslation_transpose hJ)
  show Mat4d.mulVec3
      ((matVsop87ToJ2000 matJ2000ToVsop87 * P.getRotEquatorialToVsop87 nav.position).transpose
        * matVsop87ToJ2000 matJ2000ToVsop87
        * Mat4d.translation (-P.getCenterVsop87Pos nav.position))
      (P.getCenterVsop87Pos nav.position) = ![0, 0, 0]
  rw [Mat4d.mulVec3_mul _ _ _ (Mat4d.translation_row _), Mat4d.mulVec3_translation,
    add_neg_cancel]
  have hz : (0 : Vec3d K) = ![0, 0, 0] := by
    funext i
    fin_cases i <;> rfl
  rw [hz]
  exact Mat4d.noTranslation_mulVec3_zero hR

/-- C14 at the state `nav0` with the rational rotations of `provider0`, whose body
is at `(1, 2, 3)`. -/
theorem helio_to_equ_centres_body_witness :
    (updateTransformMatrices rotX51213 provider0 nav0).matHeliocentricEclipticToEarthEqu
        = (updateTransformMatrices rotX51213 provider0 nav0).matJ2000ToEarthEqu
          * matVsop87ToJ2000 rotX51213
          * Mat4d.translation (-provider0.getCenterVsop87Pos nav0.position)
      ∧ Mat4d.mulVec3
          (updateTransformMatrices rotX51213 provider0 nav0).matHeliocentricEclipticToEarthEqu
          (provider0.getCenterVsop87Pos nav0.position) = ![0, 0, 0] :=
  helio_to_equ_centres_body rotX51213 provider0 nav0 rotX51213_isRotation.noTranslation
    rotX345_isRotation.noTranslation

/-- A rotation keeps the squared length of a vector along the third axis. -/
lemma IsRotation_normSq_zAxis {M : Mat4d K} (h : Mat4d.IsRotation M) (d : K) :
    (Mat4d.mulVec3 M ![0, 0, d] 0) ^ 2 + (Mat4d.mulVec3 M ![0, 0, d] 1) ^ 2
      + (Mat4d.mulVec3 M ![0, 0, d] 2) ^ 2 = d ^ 2 := by
  have hcol := h.transpose_row
  have e : ∀ i : Fin 4, M.transpose 3 i = (![0, 0, 0, 1] : Fin 4 → K) i := fun i => by rw [hcol]
  have e0 := e 0
  have e1 := e 1
  have e2 := e 2
  simp [Matrix.transpose_apply] at e0 e1 e2
  have hrow := h.2
  have r : ∀ j : Fin 4, M 3 j = (![0, 0, 0, 1] : Fin 4 → K) j := fun j => by rw [hrow]
  have r2 := r 2
  simp at r2
  have hunit : (M.transpose * M) 2 2 = (1 : Mat4d K) 2 2 := by rw [h.transpose_mul]
  rw [Matrix.mul_apply, Fin.sum_univ_four] at hunit
  simp only [Matrix.transpose_apply, r2, mul_zero, add_zero, Matrix.one_apply_eq] at hunit
  simp only [Mat4d.mulVec3, e0, e1, e2, Matrix.cons_val_zero, Matrix.cons_val_one,
    Matrix.head_cons, Matrix.cons_val_two, Matrix.tail_cons, mul_zero, zero_add, add_zero]
  linear_combination d ^ 2 * hunit

/-- C15: after `updateTransformMatrices` with rotations from the provider (and for
the constant `matJ2000ToVsop87`), `getObserverHelioPos()` is the body's heliocentric
position plus the offset `(0, 0, distanceFromCenter)` taken through the rotation
from horizon to heliocentric ecliptic axes, and the square of its distance from
the body's heliocentric position is `distanceFromCenter` squared, that is, the
distance is `|distanceFromCenter|`. -/
theorem observer_helio_pos (matJ2000ToVsop87 : Mat4d K) (P : Provider K)
    (nav : Navigator K)
    (hJ : Mat4d.IsRotation matJ2000ToVsop87)
    (hA : Mat4d.IsRotation (P.getRotAltAzToEquatorial nav.position nav.JDay))
    (hE : Mat4d.IsRotation (P.getRotEquatorialToVsop87 nav.position)) :
    getObserverHelioPos (updateTransformMatrices matJ2000ToVsop87 P nav)
        = P.getCenterVsop87Pos nav.position
          + Mat4d.mulVec3 (rotAltAzToVsop87 matJ2000ToVsop87 P nav)
              ![0, 0, P.getDistanceFromCenter nav.position]
      ∧ (getObserverHelioPos (updateTransformMatrices matJ2000ToVsop87 P nav) 0
            - P.getCenterVsop87Pos nav.position 0) ^ 2
          + (getObserverHelioPos (updateTransformMatrices matJ2000ToVsop87 P nav) 1
            - P.getCenterVsop87Pos nav.position 1) ^ 2
          + (getObserverHelioPos (updateTransformMatrices matJ2000ToVsop87 P nav) 2
            - P.getCenterVsop87Pos nav.position 2) ^ 2
        = P.getDistanceFromCenter nav.position ^ 2 := by
  have hT := rotAltAzToVsop87_isRotation matJ2000ToVsop87 P nav hJ hA hE
  have hpos : getObserverHelioPos (updateTransformMatrices matJ2000ToVsop87 P nav)
      = P.getCenterVsop87Pos nav.position
        + Mat4d.mulVec3 (rotAltAzToVsop87 matJ2000ToVsop87 P nav)
            ![0, 0, P.getDistanceFromCenter nav.position] := by
    show Mat4d.mulVec3 (Mat4d.translation (P.getCenterVsop87Pos nav.position)
        * rotAltAzToVsop87 matJ2000ToVsop87 P nav
        * Mat4d.translation ![0, 0, P.getDistanceFromCenter nav.position]) ![0, 0, 0] = _
    rw [Mat4d.mulVec3_mul _ _ _ (Mat4d.translation_row _), Mat4d.mulVec3_mul _ _ _ hT.2,
      Mat4d.mulVec3_translation, Mat4d.mulVec3_translation, add_comm]
    congr 2
    funext i
    fin_cases i <;> simp
  refine ⟨hpos, ?_⟩
  rw [hpos]
  simp only [Pi.add_apply, add_sub_cancel_left]
  exact IsRotation_normSq_zAxis hT _

/-- C15 at the state `nav0` with the rational rotations of `provider0`: the body
is at `(1, 2, 3)` and the observer a quarter of a unit from its centre. -/
theorem observer_helio_pos_witness :
    getObserverHelioPos (updateTransformMatrices rotX51213 provider0 nav0)
        = provider0.getCenterVsop87Pos nav0.position
          + Mat4d.mulVec3 (rotAltAzToVsop87 rotX51213 provider0 nav0)
              ![0, 0, provider0.getDistanceFromCenter nav0.position]
      ∧ (getObserverHelioPos (updateTransformMatrices rotX51213 provider0 nav0) 0
            - provider0.getCenterVsop87Pos nav0.position 0) ^ 2
          + (getObserverHelioPos (updateTransformMatrices rotX51213 provider0 nav0) 1
            - provider0.getCenterVsop87Pos nav0.position 1) ^ 2
          + (getObserverHelioPos (updateTransformMatrices rotX51213 provider0 nav0) 2
            - provider0.getCenterVsop87Pos nav0.position 2) ^ 2
        = provider0.getDistanceFromCenter nav0.position ^ 2 :=
  observer_helio_pos rotX51213 provider0 nav0 rotX51213_isRotation rotZ90_isRotation
    rotX345_isRotation

/-- C16: after `updateTransformMatrices` with rotations from the provider (and for
the constant `matJ2000ToVsop87`), `matHeliocentricEclipticToAltAz` is the two-sided
inverse of `matAltAzToHeliocentricEcliptic`: both products are the identity,
whatever the body position and `distanceFromCenter` are. -/
theorem helio_altAz_inverse (matJ2000ToVsop87 : Mat4d K) (P : Provider K)
    (nav : Navigator K)
    (hJ : Mat4d.IsRotation matJ2000ToVsop87)
    (hA : Mat4d.IsRotation (P.getRotAltAzToEquatorial nav.position nav.JDay))
    (hE : Mat4d.IsRotation (P.getRotEquatorialToVsop87 nav.position)) :
    (updateTransformMatrices matJ2000ToVsop87 P nav).matHeliocentricEclipticToAltAz
        * (updateTransformMatrices matJ2000ToVsop87 P nav).matAltAzToHeliocentricEcliptic = 1
      ∧ (updateTransformMatrices matJ2000ToVsop87 P nav).matAltAzToHeliocentricEcliptic
        * (updateTransformMatrices matJ2000ToVsop87 P nav).matHeliocentricEclipticToAltAz
          = 1 := by
  have hT := rotAltAzToVsop87_isRotation matJ2000ToVsop87 P nav hJ hA hE
  have hneg : (![0, 0, -P.getDistanceFromCenter nav.position] : Vec3d K)
      = -![0, 0, P.getDistanceFromCenter nav.position] := by
    funext i
    fin_cases i <;> simp
  constructor
  · show Mat4d.translation ![0, 0, -P.getDistanceFromCenter nav.position]
        * (rotAltAzToVsop87 matJ2000ToVsop87 P nav).transpose
        * Mat4d.translation (-P.getCenterVsop87Pos nav.position)
        * (Mat4d.translation (P.getCenterVsop87Pos nav.position)
          * rotAltAzToVsop87 matJ2000ToVsop87 P nav
          * Mat4d.translation ![0, 0, P.getDistanceFromCenter nav.position]) = 1
    rw [hneg]
    calc Mat4d.translation (-![0, 0, P.getDistanceFromCenter nav.position])
          * (rotAltAzToVsop87 matJ2000ToVsop87 P nav).transpose
          * Mat4d.translation (-P.getCenterVsop87Pos nav.position)
          * (Mat4d.translation (P.getCenterVsop87Pos nav.position)
            * rotAltAzToVsop87 matJ2000ToVsop87 P nav
            * Mat4d.translation ![0, 0, P.getDistanceFromCenter nav.position])
        = Mat4d.translation (-![0, 0, P.getDistanceFromCenter nav.position])
          * ((rotAltAzToVsop87 matJ2000ToVsop87 P nav).transpose
            * (Mat4d.translation (-P.getCenterVsop87Pos nav.position)
              * Mat4d.translation (P.getCenterVsop87Pos nav.position))
            * rotAltAzToVsop87 matJ2000ToVsop87 P nav)
          * Mat4d.translation ![0, 0, P.getDistanceFromCenter nav.position] := by
          simp only [Matrix.mul_assoc]
      _ = 1 := by
          rw [Mat4d.translation_neg_mul, Matrix.mul_one, hT.transpose_mul, Matrix.mul_one,
            Mat4d.translation_neg_mul]
  · show Mat4d.translation (P.getCenterVsop87Pos nav.position)
          * rotAltAzToVsop87 matJ2000ToVsop87 P nav
          * Mat4d.translation ![0, 0, P.getDistanceFromCenter nav.position]
        * (Mat4d.translation ![0, 0, -P.getDistanceFromCenter nav.position]
          * (rotAltAzToVsop87 matJ2000ToVsop87 P nav).transpose
          * Mat4d.translation (-P.getCenterVsop87Pos nav.position)) = 1
    rw [hneg]
    calc Mat4d.translation (P.getCenterVsop87Pos nav.position)
            * rotAltAzToVsop87 matJ2000ToVsop87 P nav
            * Mat4d.translation ![0, 0, P.getDistanceFromCenter nav.position]
          * (Mat4d.translation (-![0, 0, P.getDistanceFromCenter nav.position])
            * (rotAltAzToVsop87 matJ2000ToVsop87 P nav).transpose
            * Mat4d.translation (-P.getCenterVsop87Pos nav.position))
        = Mat4d.translation (P.getCenterVsop87Pos nav.position)
          * (rotAltAzToVsop87 matJ2000ToVsop87 P nav
            * (Mat4d.translation ![0, 0, P.getDistanceFromCenter nav.position]
              * Mat4d.translation (-![0, 0, P.getDistanceFromCenter nav.position]))
            * (rotAltAzToVsop87 matJ2000ToVsop87 P nav).transpose)
          * Mat4d.translation (-P.getCenterVsop87Pos nav.position) := by
          simp only [Matrix.mul_assoc]
      _ = 1 := by
          rw [Mat4d.translation_mul_neg, Matrix.mul_one, hT.1, Matrix.mul_one,
            Mat4d.translation_mul_neg]

/-- C16 at the state `nav0` with the rational rotations of `provider0`. -/
theorem helio_altAz_inverse_witness :
    (updateTransformMatrices rotX51213 provider0 nav0).matHeliocentricEclipticToAltAz
        * (updateTransformMatrices rotX51213 provider0 nav0).matAltAzToHeliocentricEcliptic = 1
      ∧ (updateTransformMatrices rotX51213 provider0 nav0).matAltAzToHeliocentricEcliptic
        * (updateTransformMatrices rotX51213 provider0 nav0).matHeliocentricEclipticToAltAz
          = 1 :=
  helio_altAz_inverse rotX51213 provider0 nav0 rotX51213_isRotation rotZ90_isRotation
    rotX345_isRotation

/-! ## Theorems: a step and the pipeline -/

/-- The instant after `updateTime`: the sum, then the two bound checks of lines
281-282. -/
lemma updateTime_JDay_step (deltaTime : K) (objmgr : StelObjectMgr) (nav : Navigator K) :
    (updateTime deltaTime objmgr nav).1.JDay
      = if (if nav.JDay + nav.timeSpeed * deltaTime > 38245309.499988 then 38245309.499988
            else nav.JDay + nav.timeSpeed * deltaTime) < -34803211.500012
        then -34803211.500012
        else (if nav.JDay + nav.timeSpeed * deltaTime > 38245309.499988 then 38245309.499988
            else nav.JDay + nav.timeSpeed * deltaTime) := by
  unfold updateTime
  simp only
  split_ifs <;> rfl

/-- `updateTime` writes `JDay` and the observer state and nothing else. -/
lemma updateTime_eq (deltaTime : K) (objmgr : StelObjectMgr) (nav : Navigator K) :
    (updateTime deltaTime objmgr nav).1
      = { nav with
          JDay := (updateTime deltaTime objmgr nav).1.JDay
          position := (updateTime deltaTime objmgr nav).1.position } := by
  unfold updateTime
  simp only
  split_ifs <;> rfl

/-- Gaze consistency after each setter, for a state holding the matrices
`updateTransformMatrices` wrote from rotations. -/
lemma gazeConsistent_setters (matJ2000ToVsop87 : Mat4d K) (P : Provider K)
    (src nav : Navigator K) (v : Vec3d K)
    (hJ : Mat4d.IsRotation matJ2000ToVsop87)
    (hA : Mat4d.IsRotation (P.getRotAltAzToEquatorial src.position src.JDay))
    (hE : Mat4d.IsRotation (P.getRotEquatorialToVsop87 src.position))
    (hp : PipelineFrom matJ2000ToVsop87 P src nav) :
    GazeConsistent (setLocalVision v nav) ∧ GazeConsistent (setEquVision v nav)
      ∧ GazeConsistent (setJ2000EquVision v nav) := by
  obtain ⟨h1, h2, h3, h4, -⟩ := hp
  have hEJ : Mat4d.IsRotation
      (matVsop87ToJ2000 matJ2000ToVsop87 * P.getRotEquatorialToVsop87 src.position) :=
    hJ.transpose.mul hE
  have e1 : nav.matAltAzToEarthEqu = P.getRotAltAzToEquatorial src.position src.JDay := h1
  have e2 : nav.matEarthEquToAltAz
      = (P.getRotAltAzToEquatorial src.position src.JDay).transpose := h2
  have e3 : nav.matEarthEquToJ2000
      = matVsop87ToJ2000 matJ2000ToVsop87 * P.getRotEquatorialToVsop87 src.position := h3
  have e4 : nav.matJ2000ToEarthEqu
      = (matVsop87ToJ2000 matJ2000ToVsop87 * P.getRotEquatorialToVsop87 src.position).transpose :=
    h4
  have a1 : ∀ w : Vec3d K,
      Mat4d.mulVec3 nav.matJ2000ToEarthEqu (Mat4d.mulVec3 nav.matEarthEquToJ2000 w) = w := by
    intro w
    rw [e4, e3, hEJ.transpose_mulVec3]
  have a2 : ∀ w : Vec3d K,
      Mat4d.mulVec3 nav.matAltAzToEarthEqu (Mat4d.mulVec3 nav.matEarthEquToAltAz w) = w := by
    intro w
    rw [e1, e2, hA.mulVec3_transpose]
  exact ⟨⟨rfl, (a1 _).symm⟩, ⟨(a2 _).symm, (a1 _).symm⟩, ⟨(a2 _).symm, rfl⟩⟩

/-- C17, as stated, fails: from a state whose matrices `updateTransformMatrices`
has just computed at `JDay = 0`, one `updateTime` step moves `JDay` to `1` and
leaves `matAltAzToEarthEqu` at the old value, the identity, while
`updateTransformMatrices` computes a quarter turn from the new `JDay`. -/
theorem updateTime_leaves_stale_matrices :
    (updateTime 86400 { selected := [] }
        (updateTransformMatrices rotX51213 provider1 nav0)).1.JDay = 1
      ∧ (updateTime 86400 { selected := [] }
          (updateTransformMatrices rotX51213 provider1 nav0)).1.matAltAzToEarthEqu = 1
      ∧ (updateTransformMatrices rotX51213 provider1
          (updateTime 86400 { selected := [] }
            (updateTransformMatrices rotX51213 provider1 nav0)).1).matAltAzToEarthEqu = rotZ90
      ∧ (updateTime 86400 { selected := [] }
          (updateTransformMatrices rotX51213 provider1 nav0)).1.matAltAzToEarthEqu
        ≠ (updateTransformMatrices rotX51213 provider1
          (updateTime 86400 { selected := [] }
            (updateTransformMatrices rotX51213 provider1 nav0)).1).matAltAzToEarthEqu := by
  have hJ : (updateTime 86400 { selected := [] }
      (updateTransformMatrices rotX51213 provider1 nav0)).1.JDay = 1 := by
    rw [(updateTime_JDay_step 86400 _ _)]
    norm_num [updateTransformMatrices, nav0]
  have hM : (updateTime 86400 { selected := [] }
      (updateTransformMatrices rotX51213 provider1 nav0)).1.matAltAzToEarthEqu = 1 := by
    rw [updateTime_eq]
    simp [updateTransformMatrices, provider1, nav0]
  have hN : (updateTransformMatrices rotX51213 provider1
      (updateTime 86400 { selected := [] }
        (updateTransformMatrices rotX51213 provider1 nav0)).1).matAltAzToEarthEqu = rotZ90 := by
    show provider1.getRotAltAzToEquatorial
      (updateTime 86400 { selected := [] }
        (updateTransformMatrices rotX51213 provider1 nav0)).1.position
      (updateTime 86400 { selected := [] }
        (updateTransformMatrices rotX51213 provider1 nav0)).1.JDay = rotZ90
    rw [hJ]
    simp [provider1]
  refine ⟨hJ, hM, hN, ?_⟩
  rw [hM, hN]
  intro h
  have h00 : (1 : Mat4d ℚ) 0 0 = rotZ90 0 0 := by rw [h]
  simp [rotZ90] at h00

/-- C17, amended: `updateTime` writes `JDay` and the observer state only; every
pipeline matrix and the three gaze vectors are as they were before the call.
Once `updateTransformMatrices` has been called on the stepped state, every
pipeline matrix is the value computed from the new `JDay` and the new observer
state (`matAltAzToEarthEqu` is the provider's rotation at the new `JDay`), and
after any of the three gaze setters the gaze vectors are consistent with those
matrices, the rotations being orthonormal. -/
theorem updateTime_then_updateTransformMatrices (matJ2000ToVsop87 : Mat4d K)
    (P : Provider K) (deltaTime : K) (objmgr : StelObjectMgr) (nav : Navigator K)
    (v : Vec3d K)
    (hJ : Mat4d.IsRotation matJ2000ToVsop87)
    (hA : Mat4d.IsRotation (P.getRotAltAzToEquatorial
      (updateTime deltaTime objmgr nav).1.position (updateTime deltaTime objmgr nav).1.JDay))
    (hE : Mat4d.IsRotation
      (P.getRotEquatorialToVsop87 (updateTime deltaTime objmgr nav).1.position)) :
    (updateTime deltaTime objmgr nav).1
        = { nav with
            JDay := (updateTime deltaTime objmgr nav).1.JDay
            position := (updateTime deltaTime objmgr nav).1.position }
      ∧ PipelineFrom matJ2000ToVsop87 P (updateTime deltaTime objmgr nav).1
          (updateTransformMatrices matJ2000ToVsop87 P (updateTime deltaTime objmgr nav).1)
      ∧ (updateTransformMatrices matJ2000ToVsop87 P
            (updateTime deltaTime objmgr nav).1).matAltAzToEarthEqu
          = P.getRotAltAzToEquatorial (updateTime deltaTime objmgr nav).1.position
              (updateTime deltaTime objmgr nav).1.JDay
      ∧ GazeConsistent (setLocalVision v
          (updateTransformMatrices matJ2000ToVsop87 P (updateTime deltaTime objmgr nav).1))
      ∧ GazeConsistent (setEquVision v
          (updateTransformMatrices matJ2000ToVsop87 P (updateTime deltaTime objmgr nav).1))
      ∧ GazeConsistent (setJ2000EquVision v
          (updateTransformMatrices matJ2000ToVsop87 P (updateTime deltaTime objmgr nav).1)) := by
  have hp : PipelineFrom matJ2000ToVsop87 P (updateTime deltaTime objmgr nav).1
      (updateTransformMatrices matJ2000ToVsop87 P (updateTime deltaTime objmgr nav).1) :=
    ⟨rfl, rfl, rfl, rfl, rfl, rfl, rfl, rfl⟩
  exact ⟨updateTime_eq deltaTime objmgr nav, hp, rfl,
    gazeConsistent_setters matJ2000ToVsop87 P _ _ v hJ hA hE hp⟩

/-- C17, amended, for one step of a second from `nav0` with the rational rotations
of `provider0` and the gaze vector `(1, 2, 3)`. -/
theorem updateTime_then_updateTransformMatrices_witness :
    (updateTime 1 { selected := [] } nav0).1
        = { nav0 with
            JDay := (updateTime 1 { selected := [] } nav0).1.JDay
            position := (updateTime 1 { selected := [] } nav0).1.position }
      ∧ PipelineFrom rotX51213 provider0 (updateTime 1 { selected := [] } nav0).1
          (updateTransformMatrices rotX51213 provider0 (updateTime 1 { selected := [] } nav0).1)
      ∧ (updateTransformMatrices rotX51213 provider0
            (updateTime 1 { selected := [] } nav0).1).matAltAzToEarthEqu
          = provider0.getRotAltAzToEquatorial (updateTime 1 { selected := [] } nav0).1.position
              (updateTime 1 { selected := [] } nav0).1.JDay
      ∧ GazeConsistent (setLocalVision ![1, 2, 3]
          (updateTransformMatrices rotX51213 provider0 (updateTime 1 { selected := [] } nav0).1))
      ∧ GazeConsistent (setEquVision ![1, 2, 3]
          (updateTransformMatrices rotX51213 provider0 (updateTime 1 { selected := [] } nav0).1))
      ∧ GazeConsistent (setJ2000EquVision ![1, 2, 3]
          (updateTransformMatrices rotX51213 provider0
            (updateTime 1 { selected := [] } nav0).1)) :=
  updateTime_then_updateTransformMatrices rotX51213 provider0 1 { selected := [] } nav0
    ![1, 2, 3] rotX51213_isRotation rotZ90_isRotation rotX345_isRotation

/-! ## Theorems: the cached real-time check -/

/-- C18, as stated, fails: the answer is cached at `JDay = 0` while the system
clock reads `0`; a day later on the system clock, with `JDay` still `0`, the call
answers from the cache, `true`, although `JDay` is a day away from the
real-world instant: the real-world instant has moved by far more than a quarter
second and the cached answer was not refreshed. -/
theorem getIsTimeNow_not_refreshed_by_clock :
    (getIsTimeNow (1 / 86400) 0 none nav0).1 = true
      ∧ (getIsTimeNow (1 / 86400) 1
          (some (getIsTimeNow (1 / 86400) 0 none nav0).2) nav0).1 = true
      ∧ ¬ (|nav0.JDay - 1| < (1 / 86400 : ℚ))
      ∧ (1 / 86400 : ℚ) / 4 < |1 - 0| := by
  refine ⟨?_, ?_, ?_, ?_⟩
  · norm_num [getIsTimeNow, nav0]
  · norm_num [getIsTimeNow, nav0]
  · norm_num [nav0]
  · norm_num

/-- C18, amended: `getIsTimeNow` compares the instant with the real-world instant
within one simulated second and caches the answer.  On its first call, and
whenever `|lastJD - JDay| > JD_SECOND/4`, it sets `lastJD` to `JDay` and returns,
and caches, whether `|JDay - systemJD| < JD_SECOND`; otherwise it returns the
cached answer and leaves the statics alone, whatever the system clock reads.  So
the cached answer is refreshed when the simulated instant `JDay` has moved by
more than a quarter second since the last refresh, not when the real-world
instant has. -/
theorem getIsTimeNow_cache (u systemJD otherJD : K) (st : IsTimeNowStatics K)
    (first far near : Navigator K)
    (hfar : |st.lastJD - far.JDay| > u / 4) (hnear : ¬ |st.lastJD - near.JDay| > u / 4) :
    getIsTimeNow u systemJD none first
        = (decide (|first.JDay - systemJD| < u),
            { lastJD := first.JDay, previousResult := decide (|first.JDay - systemJD| < u) })
      ∧ getIsTimeNow u systemJD (some st) far
        = (decide (|far.JDay - systemJD| < u),
            { lastJD := far.JDay, previousResult := decide (|far.JDay - systemJD| < u) })
      ∧ getIsTimeNow u systemJD (some st) near = (st.previousResult, st)
      ∧ getIsTimeNow u systemJD (some st) near = getIsTimeNow u otherJD (some st) near := by
  have hn : ∀ sys : K, getIsTimeNow u sys (some st) near = (st.previousResult, st) := by
    intro sys
    unfold getIsTimeNow
    simp only [if_neg hnear]
  refine ⟨?_, ?_, hn systemJD, ?_⟩
  · unfold getIsTimeNow
    simp only
    split_ifs <;> rfl
  · unfold getIsTimeNow
    simp only [if_pos hfar]
  · rw [hn systemJD, hn otherJD]

/-- C18, amended, with the answer `true` cached at `JDay = 0`: at `JDay = 1` the
answer is computed afresh, at `JDay = 0` it comes from the cache. -/
theorem getIsTimeNow_cache_witness :
    getIsTimeNow (1 / 86400 : ℚ) 5 none nav0
        = (decide (|nav0.JDay - 5| < (1 / 86400 : ℚ)),
            { lastJD := nav0.JDay
              previousResult := decide (|nav0.JDay - 5| < (1 / 86400 : ℚ)) })
      ∧ getIsTimeNow (1 / 86400 : ℚ) 5 (some staticsTrueAt0) ({ nav0 with JDay := 1 } : Navigator ℚ)
        = (decide (|(1 : ℚ) - 5| < 1 / 86400),
            { lastJD := 1, previousResult := decide (|(1 : ℚ) - 5| < 1 / 86400) })
      ∧ getIsTimeNow (1 / 86400 : ℚ) 5 (some staticsTrueAt0) nav0
        = (staticsTrueAt0.previousResult, staticsTrueAt0)
      ∧ getIsTimeNow (1 / 86400 : ℚ) 5 (some staticsTrueAt0) nav0
        = getIsTimeNow (1 / 86400 : ℚ) 7 (some staticsTrueAt0) nav0 :=
  getIsTimeNow_cache (1 / 86400 : ℚ) 5 7 staticsTrueAt0 nav0
    ({ nav0 with JDay := 1 } : Navigator ℚ) nav0 (by norm_num [staticsTrueAt0])
    (by norm_num [nav0, staticsTrueAt0])

/-! ## Theorems: start-up configuration -/

/-- C19, as stated, fails: on the configured viewing mode `"polar"`, with
assertions compiled in, `init` does not hand a failure back to its caller, it is
aborted. -/
theorem initViewingMode_unknown_aborts :
    confPolar "navigation/viewing_mode" = some "polar"
      ∧ initViewingMode false confPolar nav0 = Outcome.aborted := by
  constructor
  · rfl
  · unfold initViewingMode Settings.value
    rw [if_neg (by decide), if_neg (by decide)]
    rfl

/-- C19, amended: `init` maps the configured string `"equator"` to `ViewEquator`
and `"horizon"`, also the default when the key is absent, to `ViewHorizon`.  For
every other string it runs `assert(0)`: with assertions compiled in the process
is aborted, with assertions compiled out `init` goes on and the state is
untouched; in neither case is a failure handed back to the caller.  The viewing
mode of a state is always one of the two defined modes. -/
theorem initViewingMode_cases {F : Type} (ndebug : Bool)
    (equator horizon absent other : Settings) (s : String) (nav : Navigator F)
    (hequator : equator "navigation/viewing_mode" = some "equator")
    (hhorizon : horizon "navigation/viewing_mode" = some "horizon")
    (habsent : absent "navigation/viewing_mode" = none)
    (hother : other "navigation/viewing_mode" = some s)
    (hs1 : s ≠ "equator") (hs2 : s ≠ "horizon") :
    initViewingMode ndebug equator nav
        = Outcome.returned { nav with viewingMode := ViewingModeType.ViewEquator }
      ∧ initViewingMode ndebug horizon nav
        = Outcome.returned { nav with viewingMode := ViewingModeType.ViewHorizon }
      ∧ initViewingMode ndebug absent nav
        = Outcome.returned { nav with viewingMode := ViewingModeType.ViewHorizon }
      ∧ initViewingMode false other nav = Outcome.aborted
      ∧ initViewingMode true other nav = Outcome.returned nav
      ∧ (nav.viewingMode = ViewingModeType.ViewHorizon
        ∨ nav.viewingMode = ViewingModeType.ViewEquator) := by
  refine ⟨?_, ?_, ?_, ?_, ?_, ?_⟩
  · unfold initViewingMode Settings.value
    simp only [hequator, Option.getD_some, if_true]
    rfl
  · unfold initViewingMode Settings.value
    simp only [hhorizon, Option.getD_some]
    rw [if_neg (by decide), if_pos trivial]
    rfl
  · unfold initViewingMode Settings.value
    simp only [habsent, Option.getD_none]
    rw [if_neg (by decide), if_pos trivial]
    rfl
  · unfold initViewingMode Settings.value
    simp only [hother, Option.getD_some]
    rw [if_neg hs1, if_neg hs2]
    rfl
  · unfold initViewingMode Settings.value
    simp only [hother, Option.getD_some]
    rw [if_neg hs1, if_neg hs2]
    rfl
  · cases nav.viewingMode
    · exact Or.inl rfl
    · exact Or.inr rfl

/-- C19, amended, for the four sample settings and the state `nav0`. -/
theorem initViewingMode_cases_witness :
    initViewingMode false confEquator nav0
        = Outcome.returned { nav0 with viewingMode := ViewingModeType.ViewEquator }
      ∧ initViewingMode false confHorizon nav0
        = Outcome.returned { nav0 with viewingMode := ViewingModeType.ViewHorizon }
      ∧ initViewingMode false confEmpty nav0
        = Outcome.returned { nav0 with viewingMode := ViewingModeType.ViewHorizon }
      ∧ initViewingMode false confPolar nav0 = Outcome.aborted
      ∧ initViewingMode true confPolar nav0 = Outcome.returned nav0
      ∧ (nav0.viewingMode = ViewingModeType.ViewHorizon
        ∨ nav0.viewingMode = ViewingModeType.ViewEquator) :=
  initViewingMode_cases false confEquator confHorizon confEmpty confPolar "polar" nav0
    rfl rfl rfl rfl (by decide) (by decide)

/-- An invalid time handed to `setTodayTime` gives the system's current
instant (lines 138-142). -/
lemma setTodayTime_invalid (env : TimeEnv K) (target : QTime) (nav : Navigator K)
    (h : target.isValid = false) :
    (setTodayTime env target nav).JDay = env.getJDFromSystem := by
  unfold setTodayTime
  simp only [h, Bool.false_eq_true, if_false]
  rfl

/-- In the mode `"preset"`, a preset time that is not a number is read as a date
and converted, valid or not; the system clock is not consulted (lines 94-98 and
104-105). -/
lemma initStartupTime_preset_unparsed (env : TimeEnv K) (conf : Settings) (nav : Navigator K)
    (hmode : toLower (conf.value "navigation/startup_time_mode" "actual") = "preset")
    (hnum : env.toDouble (conf.value "navigation/preset_sky_time" "2451545") = none) :
    (initStartupTime env conf nav).JDay
      = env.qDateTimeToJd
            (env.dateTimeFromString (conf.value "navigation/preset_sky_time" "2451545"))
          - env.getGMTShiftFromQT
              (env.qDateTimeToJd
                (env.dateTimeFromString (conf.value "navigation/preset_sky_time" "2451545")))
            * env.JD_HOUR := by
  unfold initStartupTime
  simp only [hmode, hnum, if_true]
  rfl

/-- C20 at its failing input: the start-up time mode is `"preset"` and the preset
time `"soon"` is neither a number nor a valid date.  The instant `init` leaves is
the conversion of the invalid date, half a day before Julian day `0`, not the
system's current instant `JD 2455000`, and it is the same with the system clock
a day further on; an invalid time handed to `setTodayTime` does give the
system's current instant. -/
theorem initStartupTime_bad_preset_not_system_time :
    env0.toDouble (confBadPreset.value "navigation/preset_sky_time" "2451545") = none
      ∧ (env0.dateTimeFromString
          (confBadPreset.value "navigation/preset_sky_time" "2451545")).isValid = false
      ∧ (initStartupTime env0 confBadPreset (setTimeNow env0 nav0)).JDay = -1 / 2
      ∧ (initStartupTime env0 confBadPreset (setTimeNow env0 nav0)).JDay ≠ env0.getJDFromSystem
      ∧ env1.getJDFromSystem ≠ env0.getJDFromSystem
      ∧ (initStartupTime env1 confBadPreset (setTimeNow env1 nav0)).JDay
          = (initStartupTime env0 confBadPreset (setTimeNow env0 nav0)).JDay
      ∧ (setTodayTime env0 invalidTime nav0).JDay = env0.getJDFromSystem := by
  have hnum : env0.toDouble (confBadPreset.value "navigation/preset_sky_time" "2451545")
      = none := by
    decide
  have hJ : (initStartupTime env0 confBadPreset (setTimeNow env0 nav0)).JDay = -1 / 2 := by
    rw [initStartupTime_preset_unparsed env0 confBadPreset _ (by decide) hnum]
    norm_num [env0, invalidDateTime, invalidTime]
  have hJ' : (initStartupTime env1 confBadPreset (setTimeNow env1 nav0)).JDay = -1 / 2 := by
    rw [initStartupTime_preset_unparsed env1 confBadPreset _ (by decide) (by decide)]
    norm_num [env1, env0, invalidDateTime, invalidTime]
  refine ⟨hnum, rfl, hJ, ?_, ?_, ?_, setTodayTime_invalid env0 invalidTime nav0 rfl⟩
  · rw [hJ]
    norm_num [env0]
  · norm_num [env1, env0]
  · rw [hJ, hJ']

/-! ## Theorems: the rate ladder as a whole -/

/-- C26: neither rate step has a fixed point.  For every rate, `increaseTimeSpeed`
yields a strictly greater rate and `decreaseTimeSpeed` a strictly smaller one;
the four branches of each function cover every rate. -/
theorem timeSpeed_steps_strict (u : K) (nav : Navigator K) (hu : 0 < u) :
    nav.timeSpeed < (increaseTimeSpeed u nav).timeSpeed
      ∧ (decreaseTimeSpeed u nav).timeSpeed < nav.timeSpeed := by
  constructor
  · rw [increaseTimeSpeed_timeSpeed]
    split_ifs with h1 h2 h3 h4
    · linarith
    · linarith
    · exact h3.2
    · exact h4.2
    · exfalso
      rcases lt_or_le nav.timeSpeed 0 with h | h
      · exact h4 ⟨le_of_not_lt h2, h⟩
      · exact h3 ⟨h, lt_of_not_le h1⟩
  · rw [decreaseTimeSpeed_timeSpeed]
    split_ifs with h1 h2 h3 h4
    · linarith
    · linarith
    · exact h3.1
    · exact h4.1
    · exfalso
      rcases lt_or_le 0 nav.timeSpeed with h | h
      · exact h4 ⟨h, le_of_not_lt h1⟩
      · exact h3 ⟨lt_of_not_le h2, h⟩

/-- C26 at the state `nav0`, whose rate is `JD_SECOND`. -/
theorem timeSpeed_steps_strict_witness :
    nav0.timeSpeed < (increaseTimeSpeed (1 / 86400) nav0).timeSpeed
      ∧ (decreaseTimeSpeed (1 / 86400) nav0).timeSpeed < nav0.timeSpeed :=
  timeSpeed_steps_strict (1 / 86400) nav0 (by norm_num)

/-- C27: the two rate steps are mirror images under negation.  The rate
`decreaseTimeSpeed` sets from `s` is the negation of the rate `increaseTimeSpeed`
sets from `-s`. -/
theorem decreaseTimeSpeed_mirror (u : K) (nav : Navigator K) (hu : 0 < u) :
    (decreaseTimeSpeed u nav).timeSpeed
      = -(increaseTimeSpeed u { nav with timeSpeed := -nav.timeSpeed }).timeSpeed := by
  have hinc : (increaseTimeSpeed u { nav with timeSpeed := -nav.timeSpeed }).timeSpeed
      = if -nav.timeSpeed ≥ u then -nav.timeSpeed * 10
        else if -nav.timeSpeed < -u then -nav.timeSpeed / 10
        else if -nav.timeSpeed ≥ 0 ∧ -nav.timeSpeed < u then u
        else if -nav.timeSpeed ≥ -u ∧ -nav.timeSpeed < 0 then 0
        else -nav.timeSpeed := rfl
  by_cases h1 : nav.timeSpeed > u
  · have hd : (decreaseTimeSpeed u nav).timeSpeed = nav.timeSpeed / 10 := by
      rw [decreaseTimeSpeed_timeSpeed, if_pos h1]
    have hi : (increaseTimeSpeed u { nav with timeSpeed := -nav.timeSpeed }).timeSpeed
        = -nav.timeSpeed / 10 := by
      rw [hinc, if_neg (by intro h; linarith), if_pos (by linarith)]
    rw [hd, hi]
    ring
  · by_cases h2 : nav.timeSpeed ≤ -u
    · have hd : (decreaseTimeSpeed u nav).timeSpeed = nav.timeSpeed * 10 := by
        rw [decreaseTimeSpeed_timeSpeed, if_neg h1, if_pos h2]
      have hi : (increaseTimeSpeed u { nav with timeSpeed := -nav.timeSpeed }).timeSpeed
          = -nav.timeSpeed * 10 := by
        rw [hinc, if_pos (by linarith)]
      rw [hd, hi]
      ring
    · have h2' : -u < nav.timeSpeed := lt_of_not_le h2
      have h1' : nav.timeSpeed ≤ u := le_of_not_lt h1
      by_cases h3 : nav.timeSpeed ≤ 0
      · have hd : (decreaseTimeSpeed u nav).timeSpeed = -u := by
          rw [decreaseTimeSpeed_timeSpeed, if_neg h1, if_neg h2, if_pos ⟨h2', h3⟩]
        have hi : (increaseTimeSpeed u { nav with timeSpeed := -nav.timeSpeed }).timeSpeed
            = u := by
          rw [hinc, if_neg (by intro h; linarith), if_neg (by intro h; linarith),
            if_pos ⟨by linarith, by linarith⟩]
        rw [hd, hi]
      · have h3' : 0 < nav.timeSpeed := lt_of_not_le h3
        have hd : (decreaseTimeSpeed u nav).timeSpeed = 0 := by
          rw [decreaseTimeSpeed_timeSpeed, if_neg h1, if_neg h2,
            if_neg (by rintro ⟨-, h⟩; exact h3 h), if_pos ⟨h3', h1'⟩]
        have hi : (increaseTimeSpeed u { nav with timeSpeed := -nav.timeSpeed }).timeSpeed
            = 0 := by
          rw [hinc, if_neg (by intro h; linarith), if_neg (by intro h; linarith),
            if_neg (by rintro ⟨h, -⟩; linarith), if_pos ⟨by linarith, by linarith⟩]
        rw [hd, hi, neg_zero]

/-- C27 at the state `nav0`, whose rate is `JD_SECOND`. -/
theorem decreaseTimeSpeed_mirror_witness :
    (decreaseTimeSpeed (1 / 86400) nav0).timeSpeed
      = -(increaseTimeSpeed (1 / 86400) { nav0 with timeSpeed := -nav0.timeSpeed }).timeSpeed :=
  decreaseTimeSpeed_mirror (1 / 86400) nav0 (by norm_num)

/-! ## Theorems: what the pipeline depends on -/

/-- C24: no hidden state in the pipeline.  Two states that agree on `JDay` and on
the observer state, whatever their cached matrices, gaze vectors, rate and viewing
mode are, hold the same pipeline matrices after `updateTransformMatrices` (all
eight that the function writes); and calling `updateTransformMatrices` a second
time changes nothing. -/
theorem updateTransformMatrices_no_hidden_state (matJ2000ToVsop87 : Mat4d K)
    (P : Provider K) (a b : Navigator K)
    (hJDay : a.JDay = b.JDay) (hposition : a.position = b.position) :
    PipelineFrom matJ2000ToVsop87 P a (updateTransformMatrices matJ2000ToVsop87 P b)
      ∧ PipelineFrom matJ2000ToVsop87 P b (updateTransformMatrices matJ2000ToVsop87 P a)
      ∧ updateTransformMatrices matJ2000ToVsop87 P
          (updateTransformMatrices matJ2000ToVsop87 P a)
        = updateTransformMatrices matJ2000ToVsop87 P a := by
  refine ⟨?_, ?_, rfl⟩
  · unfold PipelineFrom updateTransformMatrices
    simp only [hJDay, hposition, and_self]
  · unfold PipelineFrom updateTransformMatrices
    simp only [hJDay, hposition, and_self]

/-- C24 for `nav0` and a state with the same `JDay` and observer but another
rate, other gaze vectors, the other viewing mode and other cached matrices. -/
theorem updateTransformMatrices_no_hidden_state_witness :
    PipelineFrom rotX51213 provider0 nav0
        (updateTransformMatrices rotX51213 provider0
          { nav0 with
            timeSpeed := 7, localVision := ![0, 1, 0], equVision := ![0, 0, 1]
            viewingMode := ViewingModeType.ViewEquator, matAltAzToEarthEqu := rotZ90
            matJ2000ToAltAz := rotX345 })
      ∧ PipelineFrom rotX51213 provider0
          { nav0 with
            timeSpeed := 7, localVision := ![0, 1, 0], equVision := ![0, 0, 1]
            viewingMode := ViewingModeType.ViewEquator, matAltAzToEarthEqu := rotZ90
            matJ2000ToAltAz := rotX345 }
          (updateTransformMatrices rotX51213 provider0 nav0)
      ∧ updateTransformMatrices rotX51213 provider0
          (updateTransformMatrices rotX51213 provider0 nav0)
        = updateTransformMatrices rotX51213 provider0 nav0 :=
  updateTransformMatrices_no_hidden_state rotX51213 provider0 nav0
    { nav0 with
      timeSpeed := 7, localVision := ![0, 1, 0], equVision := ![0, 0, 1]
      viewingMode := ViewingModeType.ViewEquator, matAltAzToEarthEqu := rotZ90
      matJ2000ToAltAz := rotX345 } rfl rfl

/-- C25: altitude only enters the heliocentric leg.  When two observers get the
same horizon-to-equatorial rotation, the same equatorial-to-ecliptic rotation and
the same body position from their providers, whatever their distances from the
centre of the body are, `updateTransformMatrices` writes the same
`matAltAzToEarthEqu`, `matEarthEquToAltAz`, `matEarthEquToJ2000`, `matJ2000ToEarthEqu`,
`matJ2000ToAltAz` and `matHeliocentricEclipticToEarthEqu`. -/
theorem altitude_only_in_helio_leg (matJ2000ToVsop87 : Mat4d K) (P Q : Provider K)
    (a b : Navigator K)
    (hAltAz : P.getRotAltAzToEquatorial a.position a.JDay
      = Q.getRotAltAzToEquatorial b.position b.JDay)
    (hVsop : P.getRotEquatorialToVsop87 a.position = Q.getRotEquatorialToVsop87 b.position)
    (hcentre : P.getCenterVsop87Pos a.position = Q.getCenterVsop87Pos b.position) :
    (updateTransformMatrices matJ2000ToVsop87 P a).matAltAzToEarthEqu
        = (updateTransformMatrices matJ2000ToVsop87 Q b).matAltAzToEarthEqu
      ∧ (updateTransformMatrices matJ2000ToVsop87 P a).matEarthEquToAltAz
        = (updateTransformMatrices matJ2000ToVsop87 Q b).matEarthEquToAltAz
      ∧ (updateTransformMatrices matJ2000ToVsop87 P a).matEarthEquToJ2000
        = (updateTransformMatrices matJ2000ToVsop87 Q b).matEarthEquToJ2000
      ∧ (updateTransformMatrices matJ2000ToVsop87 P a).matJ2000ToEarthEqu
        = (updateTransformMatrices matJ2000ToVsop87 Q b).matJ2000ToEarthEqu
      ∧ (updateTransformMatrices matJ2000ToVsop87 P a).matJ2000ToAltAz
        = (updateTransformMatrices matJ2000ToVsop87 Q b).matJ2000ToAltAz
      ∧ (updateTransformMatrices matJ2000ToVsop87 P a).matHeliocentricEclipticToEarthEqu
        = (updateTransformMatrices matJ2000ToVsop87 Q b).matHeliocentricEclipticToEarthEqu := by
  unfold updateTransformMatrices
  simp only [hAltAz, hVsop, hcentre, and_self]

/-- C25 for `nav0` seen through `provider0` (a quarter of a unit from the centre)
and through `provider0High` (half a unit from the centre). -/
theorem altitude_only_in_helio_leg_witness :
    (updateTransformMatrices rotX51213 provider0 nav0).matAltAzToEarthEqu
        = (updateTransformMatrices rotX51213 provider0High nav0).matAltAzToEarthEqu
      ∧ (updateTransformMatrices rotX51213 provider0 nav0).matEarthEquToAltAz
        = (updateTransformMatrices rotX51213 provider0High nav0).matEarthEquToAltAz
      ∧ (updateTransformMatrices rotX51213 provider0 nav0).matEarthEquToJ2000
        = (updateTransformMatrices rotX51213 provider0High nav0).matEarthEquToJ2000
      ∧ (updateTransformMatrices rotX51213 provider0 nav0).matJ2000ToEarthEqu
        = (updateTransformMatrices rotX51213 provider0High nav0).matJ2000ToEarthEqu
      ∧ (updateTransformMatrices rotX51213 provider0 nav0).matJ2000ToAltAz
        = (updateTransformMatrices rotX51213 provider0High nav0).matJ2000ToAltAz
      ∧ (updateTransformMatrices rotX51213 provider0 nav0).matHeliocentricEclipticToEarthEqu
        = (updateTransformMatrices rotX51213 provider0High nav0
          ).matHeliocentricEclipticToEarthEqu :=
  altitude_only_in_helio_leg rotX51213 provider0 provider0High nav0 nav0 rfl rfl rfl

/-! ## Theorems: provisional designations -/

/-- One character of a class: what is left is the tail, when the head is in the
class. -/
lemma rests_cls (p : Char → Bool) (cs : List Char) :
    (RegExp.cls p).rests cs
      = if 1 ≤ cs.length ∧ (cs.take 1).all p = true then [cs.drop 1] else [] := by
  cases cs with
  | nil => simp [RegExp.rests]
  | cons c cs =>
    by_cases h : p c = true <;> simp [RegExp.rests, h]

/-- A fixed number of characters of a class: what is left is the input without
its first `n` characters, when there are that many and all are in the class. -/
lemma timesRests_cls (p : Char → Bool) (n : Nat) :
    ∀ cs : List Char, timesRests (RegExp.cls p).rests n cs
      = if n ≤ cs.length ∧ (cs.take n).all p = true then [cs.drop n] else [] := by
  induction n with
  | zero =>
    intro cs
    simp [timesRests]
  | succ n ih =>
    intro cs
    cases cs with
    | nil => simp [timesRests, RegExp.rests]
    | cons c cs =>
      have hstep : timesRests (RegExp.cls p).rests (n + 1) (c :: cs)
          = ((RegExp.cls p).rests (c :: cs)).flatMap (timesRests (RegExp.cls p).rests n) := rfl
      have hc : (RegExp.cls p).rests (c :: cs) = if p c = true then [cs] else [] := rfl
      rw [hstep, hc]
      by_cases h : p c = true
      · rw [if_pos h, List.flatMap_singleton, ih]
        simp [h]
      · rw [if_neg h, List.flatMap_nil]
        simp [h]

/-- The first group of the pattern matches in one way at most, and uses up seven
characters. -/
lemma rests_provisionalMain (isDigit isSpace : Char → Bool) (cs : List Char) :
    (provisionalMain isDigit isSpace).rests cs
      = if 7 ≤ cs.length ∧ (cs.take 4).all isDigit = true
            ∧ ((cs.drop 4).take 1).all isSpace = true
            ∧ ((cs.drop 5).take 2).all isUpperAZ = true
        then [cs.drop 7] else [] := by
  have hseq : (provisionalMain isDigit isSpace).rests cs
      = (timesRests (RegExp.cls isDigit).rests 4 cs).flatMap fun r =>
          ((RegExp.cls isSpace).rests r).flatMap (timesRests (RegExp.cls isUpperAZ).rests 2) :=
    rfl
  rw [hseq, timesRests_cls]
  by_cases h4 : 4 ≤ cs.length ∧ (cs.take 4).all isDigit = true
  · rw [if_pos h4, List.flatMap_singleton, rests_cls]
    by_cases h1 : 1 ≤ (cs.drop 4).length ∧ ((cs.drop 4).take 1).all isSpace = true
    · rw [if_pos h1, List.flatMap_singleton, timesRests_cls, List.drop_drop]
      by_cases h2 : 2 ≤ (cs.drop (1 + 4)).length ∧ ((cs.drop (1 + 4)).take 2).all isUpperAZ = true
      · rw [if_pos h2, List.drop_drop, if_pos]
        have := h2.1
        rw [List.length_drop] at this
        exact ⟨by omega, h4.2, h1.2, h2.2⟩
      · rw [if_neg h2, if_neg]
        rintro ⟨h7, -, -, hU⟩
        apply h2
        rw [List.length_drop]
        exact ⟨by omega, hU⟩
    · rw [if_neg h1, List.flatMap_nil, if_neg]
      rintro ⟨h7, -, hS, -⟩
      apply h1
      rw [List.length_drop]
      exact ⟨by omega, hS⟩
  · rw [if_neg h4, List.flatMap_nil, if_neg]
    rintro ⟨h7, hD, -, -⟩
    exact h4 ⟨by omega, hD⟩

/-- Of the ways to match any number of characters of a class, the one that uses
up the whole input is there exactly when every character is in the class. -/
lemma manyRests_filterMap {α : Type} (p : Char → Bool) (f : List Char → α) :
    ∀ cs : List Char,
      ((manyRests p cs).filterMap fun r => if r = [] then some (f r) else none)
        = if cs.all p = true then [f []] else [] := by
  intro cs
  induction cs with
  | nil => simp [manyRests]
  | cons c cs ih =>
    by_cases h : p c = true
    · simp only [manyRests, h, if_true, List.filterMap_append, ih, List.all_cons, Bool.true_and]
      simp
    · simp [manyRests, h]

/-- The description, condition by condition. -/
lemma isProvisionalDesignation_iff (isDigit isSpace : Char → Bool) (cs : List Char) :
    isProvisionalDesignation isDigit isSpace cs = true
      ↔ (7 ≤ cs.length ∧ (cs.take 4).all isDigit = true
            ∧ ((cs.drop 4).take 1).all isSpace = true
            ∧ ((cs.drop 5).take 2).all isUpperAZ = true)
          ∧ (cs.drop 7).all isDigit = true := by
  unfold isProvisionalDesignation
  simp only [Bool.and_eq_true, decide_eq_true_eq]
  tauto

/-- The pattern of line 265 matches exactly the inputs of the description, and
its captures are the first seven characters and the rest. -/
lemma matchGroups_provisional (isDigit isSpace : Char → Bool) (cs : List Char) :
    matchGroups (provisionalMain isDigit isSpace) (provisionalSuffix isDigit) cs
      = if isProvisionalDesignation isDigit isSpace cs = true
        then some (cs.take 7, cs.drop 7) else none := by
  unfold matchGroups
  rw [rests_provisionalMain]
  by_cases hmain : 7 ≤ cs.length ∧ (cs.take 4).all isDigit = true
      ∧ ((cs.drop 4).take 1).all isSpace = true
      ∧ ((cs.drop 5).take 2).all isUpperAZ = true
  · rw [if_pos hmain, List.flatMap_singleton]
    have hsuffix : (provisionalSuffix isDigit).rests (cs.drop 7)
        = manyRests isDigit (cs.drop 7) := rfl
    rw [hsuffix, manyRests_filterMap isDigit
      (fun r2 => (cs.take (cs.length - (cs.drop 7).length),
        (cs.drop 7).take ((cs.drop 7).length - r2.length)))]
    by_cases hall : (cs.drop 7).all isDigit = true
    · rw [if_pos hall, if_pos ((isProvisionalDesignation_iff isDigit isSpace cs).mpr ⟨hmain, hall⟩)]
      have h7 : cs.length - (cs.drop 7).length = 7 := by
        rw [List.length_drop]
        have := hmain.1
        omega
      simp only [List.head?_cons, h7, List.length_nil, Nat.sub_zero, List.take_length]
    · rw [if_neg hall, if_neg]
      · rfl
      · intro h
        exact hall ((isProvisionalDesignation_iff isDigit isSpace cs).mp h).2
  · rw [if_neg hmain, List.flatMap_nil, if_neg]
    · rfl
    · intro h
      exact hmain ((isProvisionalDesignation_iff isDigit isSpace cs).mp h).1

/-- C29: `renderProvisionalDesignationinHtml` returns a non-empty string exactly
when the whole input is four digits, one whitespace character, two capital
letters from A to Z and then digits only; the result is then the first seven
characters, followed by the remaining digits between `<sub>` and `</sub>` when
there are any; for every other input the result is the empty string. -/
theorem renderProvisionalDesignationinHtml_spec (isDigit isSpace : Char → Bool)
    (plainTextName : String) :
    renderProvisionalDesignationinHtml isDigit isSpace plainTextName
        = (if isProvisionalDesignation isDigit isSpace plainTextName.data = true then
            String.mk (plainTextName.data.take 7
              ++ (if plainTextName.data.drop 7 = [] then []
                  else "<sub>".data ++ plainTextName.data.drop 7 ++ "</sub>".data))
          else "")
      ∧ (renderProvisionalDesignationinHtml isDigit isSpace plainTextName ≠ ""
          ↔ isProvisionalDesignation isDigit isSpace plainTextName.data = true) := by
  have hrender : renderProvisionalDesignationinHtml isDigit isSpace plainTextName
      = (if isProvisionalDesignation isDigit isSpace plainTextName.data = true then
          String.mk (plainTextName.data.take 7
            ++ (if plainTextName.data.drop 7 = [] then []
                else "<sub>".data ++ plainTextName.data.drop 7 ++ "</sub>".data))
        else "") := by
    unfold renderProvisionalDesignationinHtml
    rw [matchGroups_provisional]
    by_cases hp : isProvisionalDesignation isDigit isSpace plainTextName.data = true
    · simp only [hp, if_true]
      by_cases hrest : plainTextName.data.drop 7 = []
      · simp [hrest]
      · simp [hrest, List.isEmpty_iff, List.append_assoc]
    · simp only [hp, Bool.false_eq_true, if_false]
  refine ⟨hrender, ?_⟩
  rw [hrender]
  by_cases hp : isProvisionalDesignation isDigit isSpace plainTextName.data = true
  · simp only [hp, if_true, iff_true]
    intro h
    have hlen := congrArg String.length h
    have h7 := ((isProvisionalDesignation_iff isDigit isSpace plainTextName.data).mp hp).1.1
    simp only [String.length, List.length_append, List.length_take] at hlen
    have hmin : min 7 plainTextName.data.length = 7 := min_eq_left h7
    rw [hmin] at hlen
    simp at hlen
  · simp only [hp, Bool.false_eq_true, if_false, ne_eq, not_true_eq_false]

/-! ## Theorems: the slope parameter of a minor planet -/

/-- A slope below `0` or above `1` is refused: nothing is changed. -/
lemma setAbsoluteMagnitudeAndSlope_refused (magnitude : Double K) (bad : K) (mp : MinorPlanet K)
    (hbad : bad < 0 ∨ 1 < bad) :
    MinorPlanet.setAbsoluteMagnitudeAndSlope magnitude (Double.num bad) mp = mp := by
  have hc : (Double.lt (Double.num bad) (Double.num 0) || Double.lt (Double.num 1) (Double.num bad))
      = true := by
    show (decide (bad < 0) || decide (1 < bad)) = true
    rcases hbad with h | h
    · rw [decide_eq_true h, Bool.true_or]
    · rw [decide_eq_true h, Bool.or_true]
  unfold MinorPlanet.setAbsoluteMagnitudeAndSlope
  rw [if_pos hc]

/-- An infinite slope is refused: nothing is changed. -/
lemma setAbsoluteMagnitudeAndSlope_infinite (magnitude : Double K) (mp : MinorPlanet K) :
    MinorPlanet.setAbsoluteMagnitudeAndSlope magnitude Double.posInf mp = mp
      ∧ MinorPlanet.setAbsoluteMagnitudeAndSlope magnitude Double.negInf mp = mp :=
  ⟨rfl, rfl⟩

/-- A slope in `[0, 1]` is accepted: both members are set to the arguments. -/
lemma setAbsoluteMagnitudeAndSlope_accepted (magnitude : Double K) (good : K)
    (mp : MinorPlanet K) (hgood : 0 ≤ good ∧ good ≤ 1) :
    MinorPlanet.setAbsoluteMagnitudeAndSlope magnitude (Double.num good) mp
      = { mp with absoluteMagnitude := magnitude, slopeParameter := Double.num good } := by
  have hc : ¬ (Double.lt (Double.num good) (Double.num 0)
      || Double.lt (Double.num 1) (Double.num good)) = true := by
    show ¬ (decide (good < 0) || decide (1 < good)) = true
    rw [decide_eq_false (not_lt.mpr hgood.1), decide_eq_false (not_lt.mpr hgood.2)]
    simp
  unfold MinorPlanet.setAbsoluteMagnitudeAndSlope
  rw [if_neg hc]

/-- The slope NaN passes both comparisons of line 144: both members are set to
the arguments. -/
lemma setAbsoluteMagnitudeAndSlope_nan (magnitude : Double K) (mp : MinorPlanet K) :
    MinorPlanet.setAbsoluteMagnitudeAndSlope magnitude Double.nan mp
      = { mp with absoluteMagnitude := magnitude, slopeParameter := Double.nan } :=
  rfl

/-- In every reachable state the slope parameter is `-1`, a number in `[0, 1]`, or
NaN. -/
lemma reachable_slopeParameter (isDigit isSpace : Char → Bool) (reached : MinorPlanet K)
    (hreached : MinorPlanet.Reachable isDigit isSpace reached) :
    reached.slopeParameter = Double.num (-1)
      ∨ (∃ g : K, reached.slopeParameter = Double.num g ∧ 0 ≤ g ∧ g ≤ 1)
      ∨ reached.slopeParameter = Double.nan := by
  induction hreached with
  | create englishName => exact Or.inl rfl
  | number number mp _ ih =>
    unfold MinorPlanet.setMinorPlanetNumber
    split_ifs
    · exact ih
    · exact ih
  | magnitude magnitude slope mp _ ih =>
    cases slope with
    | num g =>
      by_cases hg : g < 0 ∨ 1 < g
      · rw [setAbsoluteMagnitudeAndSlope_refused magnitude g mp hg]
        exact ih
      · have hgood : 0 ≤ g ∧ g ≤ 1 :=
          ⟨le_of_not_lt fun h => hg (Or.inl h), le_of_not_lt fun h => hg (Or.inr h)⟩
        rw [setAbsoluteMagnitudeAndSlope_accepted magnitude g mp hgood]
        exact Or.inr (Or.inl ⟨g, rfl, hgood⟩)
    | posInf =>
      rw [(setAbsoluteMagnitudeAndSlope_infinite magnitude mp).1]
      exact ih
    | negInf =>
      rw [(setAbsoluteMagnitudeAndSlope_infinite magnitude mp).2]
      exact ih
    | nan => exact Or.inr (Or.inr rfl)
  | designation designation mp _ ih => exact ih

/-- C28 (the code at the slope NaN): on the minor planet made for the name
`"2001 QX122"`, `setAbsoluteMagnitudeAndSlope` refuses the slope `3 / 2` and
accepts the slope `3 / 20`, as claimed, but it accepts the slope NaN as well,
which is neither below `0` nor above `1`: the state reached stores the magnitude
`7` and the slope NaN, which is neither `-1` nor a number in `[0, 1]`, and
`getVMagnitude` does not fall back to `Planet::getVMagnitude` there. -/
theorem setAbsoluteMagnitudeAndSlope_stores_nan :
    MinorPlanet.setAbsoluteMagnitudeAndSlope (Double.num (7 : ℚ)) (Double.num (3 / 2))
        (MinorPlanet.create Char.isDigit Char.isWhitespace "2001 QX122")
        = MinorPlanet.create Char.isDigit Char.isWhitespace "2001 QX122"
      ∧ MinorPlanet.setAbsoluteMagnitudeAndSlope (Double.num (7 : ℚ)) (Double.num (3 / 20))
          (MinorPlanet.create Char.isDigit Char.isWhitespace "2001 QX122")
        = { (MinorPlanet.create Char.isDigit Char.isWhitespace "2001 QX122" : MinorPlanet ℚ) with
            absoluteMagnitude := Double.num 7, slopeParameter := Double.num (3 / 20) }
      ∧ (MinorPlanet.create Char.isDigit Char.isWhitespace "2001 QX122"
          : MinorPlanet ℚ).slopeParameter = Double.num (-1)
      ∧ MinorPlanet.getVMagnitude (Double.num (12 : ℚ)) (fun _ g => g)
          (MinorPlanet.create Char.isDigit Char.isWhitespace "2001 QX122") = Double.num 12
      ∧ MinorPlanet.Reachable Char.isDigit Char.isWhitespace
          (MinorPlanet.setAbsoluteMagnitudeAndSlope (Double.num (7 : ℚ)) Double.nan
            (MinorPlanet.create Char.isDigit Char.isWhitespace "2001 QX122"))
      ∧ (MinorPlanet.setAbsoluteMagnitudeAndSlope (Double.num (7 : ℚ)) Double.nan
          (MinorPlanet.create Char.isDigit Char.isWhitespace "2001 QX122")).absoluteMagnitude
        = Double.num 7
      ∧ (MinorPlanet.setAbsoluteMagnitudeAndSlope (Double.num (7 : ℚ)) Double.nan
          (MinorPlanet.create Char.isDigit Char.isWhitespace "2001 QX122")).slopeParameter
        = Double.nan
      ∧ ¬ ((MinorPlanet.setAbsoluteMagnitudeAndSlope (Double.num (7 : ℚ)) Double.nan
            (MinorPlanet.create Char.isDigit Char.isWhitespace "2001 QX122")).slopeParameter
          = Double.num (-1)
        ∨ ∃ g : ℚ, (MinorPlanet.setAbsoluteMagnitudeAndSlope (Double.num (7 : ℚ)) Double.nan
            (MinorPlanet.create Char.isDigit Char.isWhitespace "2001 QX122")).slopeParameter
          = Double.num g ∧ 0 ≤ g ∧ g ≤ 1)
      ∧ MinorPlanet.getVMagnitude (Double.num (12 : ℚ)) (fun _ g => g)
          (MinorPlanet.setAbsoluteMagnitudeAndSlope (Double.num (7 : ℚ)) Double.nan
            (MinorPlanet.create Char.isDigit Char.isWhitespace "2001 QX122")) = Double.nan := by
  refine ⟨setAbsoluteMagnitudeAndSlope_refused _ _ _ (Or.inr (by norm_num)),
    setAbsoluteMagnitudeAndSlope_accepted _ _ _ ⟨by norm_num, by norm_num⟩, rfl, ?_,
    MinorPlanet.Reachable.magnitude _ _ _ (MinorPlanet.Reachable.create "2001 QX122"),
    rfl, rfl, ?_, rfl⟩
  · unfold MinorPlanet.getVMagnitude
    rw [if_pos]
    show decide ((-1 : ℚ) < 0) = true
    exact decide_eq_true (by norm_num)
  · rw [setAbsoluteMagnitudeAndSlope_nan]
    rintro (h | ⟨g, h, -⟩)
    · cases h
    · cases h

/-! ## Theorems: the server challenge -/

namespace ServerChallenge

/-- The bytes `serialize` writes on an empty stream. -/
lemma serialize_nil (magic : List Nat) (m : ServerChallenge) :
    serialize magic m []
      = magic ++ (m.protocolVersion % 256
          :: ([m.remoteSyncVersion / 2 ^ 24 % 256, m.remoteSyncVersion / 2 ^ 16 % 256,
                m.remoteSyncVersion / 2 ^ 8 % 256, m.remoteSyncVersion % 256]
            ++ ([m.stellariumVersion / 2 ^ 24 % 256, m.stellariumVersion / 2 ^ 16 % 256,
                  m.stellariumVersion / 2 ^ 8 % 256, m.stellariumVersion % 256]
              ++ m.clientId))) := by
  simp [serialize, writeRawData, writeUInt8, writeUInt32]

/-- Reading back the four bytes of a 32-bit value gives the value. -/
lemma readUInt32_written (v : Nat) (rest : List Nat) (hv : v < 2 ^ 32) :
    readUInt32 ([v / 2 ^ 24 % 256, v / 2 ^ 16 % 256, v / 2 ^ 8 % 256, v % 256] ++ rest)
      = (v, rest) := by
  have hval : ((v / 2 ^ 24 % 256 * 256 + v / 2 ^ 16 % 256) * 256 + v / 2 ^ 8 % 256) * 256
      + v % 256 = v := by
    norm_num at hv ⊢
    omega
  show ((((v / 2 ^ 24 % 256 * 256 + v / 2 ^ 16 % 256) * 256 + v / 2 ^ 8 % 256) * 256
      + v % 256, rest) : Nat × List Nat) = (v, rest)
  rw [hval]

/-- Reading raw data that starts with the wanted bytes gives those bytes. -/
lemma readRawData_append (magic rest : List Nat) :
    readRawData magic.length (magic ++ rest) = (magic, rest) := by
  simp [readRawData]

/-- What `deserialize` answers: `true` exactly when the size is the expected one
and the bytes read are the magic value. -/
lemma deserialize_fst (magic stream : List Nat) (dataSize : Nat) (m : ServerChallenge) :
    (deserialize magic stream dataSize m).1
      = (decide (dataSize = magic.length + 9 + 16)
        && decide ((readRawData magic.length stream).1 = magic)) := by
  unfold deserialize
  by_cases hsize : dataSize = magic.length + 9 + 16
  · by_cases hmagic : (readRawData magic.length stream).1 = magic
    · simp [hsize, hmagic]
    · simp [hsize, hmagic]
  · simp [hsize]

/-- When `deserialize` answers `false` the message is the one passed in. -/
lemma deserialize_false (magic stream : List Nat) (dataSize : Nat) (m : ServerChallenge)
    (h : (deserialize magic stream dataSize m).1 = false) :
    (deserialize magic stream dataSize m).2.1 = m := by
  unfold deserialize at h ⊢
  by_cases hsize : dataSize = magic.length + 9 + 16
  · by_cases hmagic : (readRawData magic.length stream).1 = magic
    · simp [hsize, hmagic] at h
    · simp [hsize, hmagic]
  · simp [hsize]

end ServerChallenge

/-- C30: `ServerChallenge::deserialize` rejects malformed handshakes without
touching the message.  It returns `true` only if `dataSize` is the length of the
magic value plus `9 + 16` and the bytes read are the magic value; when it returns
`false` the four fields are as before the call; and deserializing the bytes
`serialize` writes for a message, with `dataSize` their number, returns `true` and
gives the four fields of that message back. -/
theorem deserialize_rejects_and_roundtrips (magic stream : List Nat) (dataSize : Nat)
    (before written : ServerChallenge) (hwritten : ServerChallenge.WellFormed written) :
    ((ServerChallenge.deserialize magic stream dataSize before).1 = true →
        dataSize = magic.length + 9 + 16
          ∧ (ServerChallenge.readRawData magic.length stream).1 = magic)
      ∧ ((ServerChallenge.deserialize magic stream dataSize before).1 = false →
        (ServerChallenge.deserialize magic stream dataSize before).2.1 = before)
      ∧ ServerChallenge.deserialize magic (ServerChallenge.serialize magic written [])
          (ServerChallenge.serialize magic written []).length before
        = (true, written, []) := by
  refine ⟨?_, ServerChallenge.deserialize_false magic stream dataSize before, ?_⟩
  · intro h
    rw [ServerChallenge.deserialize_fst] at h
    simpa using h
  · obtain ⟨h8, h32a, h32b, hid⟩ := hwritten
    have hlen : (ServerChallenge.serialize magic written []).length = magic.length + 9 + 16 := by
      rw [ServerChallenge.serialize_nil]
      simp [hid]
    rw [hlen, ServerChallenge.serialize_nil]
    unfold ServerChallenge.deserialize
    rw [if_neg (by simp), ServerChallenge.readRawData_append]
    simp only [ne_eq, not_true_eq_false, if_false]
    have h1 : ServerChallenge.readUInt8 (written.protocolVersion % 256
          :: ([written.remoteSyncVersion / 2 ^ 24 % 256, written.remoteSyncVersion / 2 ^ 16 % 256,
                written.remoteSyncVersion / 2 ^ 8 % 256, written.remoteSyncVersion % 256]
            ++ ([written.stellariumVersion / 2 ^ 24 % 256,
                  written.stellariumVersion / 2 ^ 16 % 256,
                  written.stellariumVersion / 2 ^ 8 % 256, written.stellariumVersion % 256]
              ++ written.clientId)))
        = (written.protocolVersion,
            [written.remoteSyncVersion / 2 ^ 24 % 256, written.remoteSyncVersion / 2 ^ 16 % 256,
                written.remoteSyncVersion / 2 ^ 8 % 256, written.remoteSyncVersion % 256]
            ++ ([written.stellariumVersion / 2 ^ 24 % 256,
                  written.stellariumVersion / 2 ^ 16 % 256,
                  written.stellariumVersion / 2 ^ 8 % 256, written.stellariumVersion % 256]
              ++ written.clientId)) := by
      show ((written.protocolVersion % 256, _) : Nat × List Nat) = _
      rw [Nat.mod_eq_of_lt h8]
    have h4 : ServerChallenge.readUuid written.clientId = (written.clientId, []) := by
      unfold ServerChallenge.readUuid
      rw [if_pos (by omega)]
      simp [← hid]
    rw [h1]
    simp only [ServerChallenge.readUInt32_written _ _ h32a,
      ServerChallenge.readUInt32_written _ _ h32b, h4]

/-- C30 for the sample magic value and the sample challenge, read into an
all-zero message. -/
theorem deserialize_rejects_and_roundtrips_witness :
    ((ServerChallenge.deserialize magic0 [83, 84, 69, 75, 0] 29 challengeZero).1 = true →
        29 = magic0.length + 9 + 16
          ∧ (ServerChallenge.readRawData magic0.length [83, 84, 69, 75, 0]).1 = magic0)
      ∧ ((ServerChallenge.deserialize magic0 [83, 84, 69, 75, 0] 29 challengeZero).1 = false →
        (ServerChallenge.deserialize magic0 [83, 84, 69, 75, 0] 29 challengeZero).2.1
          = challengeZero)
      ∧ ServerChallenge.deserialize magic0 (ServerChallenge.serialize magic0 challenge0 [])
          (ServerChallenge.serialize magic0 challenge0 []).length challengeZero
        = (true, challenge0, []) :=
  deserialize_rejects_and_roundtrips magic0 [83, 84, 69, 75, 0] 29 challengeZero challenge0
    ⟨by decide, by decide, by decide, by decide⟩

/-! ## Theorems: the eye basis -/

namespace Vec3d

/-- The coordinates of a normalized vector. -/
lemma normalize_apply (sqrt : K → K) (v : Vec3d K) :
    normalize sqrt v 0 = v 0 * (1 / sqrt (lengthSquared v))
      ∧ normalize sqrt v 1 = v 1 * (1 / sqrt (lengthSquared v))
      ∧ normalize sqrt v 2 = v 2 * (1 / sqrt (lengthSquared v)) :=
  ⟨rfl, rfl, rfl⟩

/-- The squared length of a normalized vector. -/
lemma lengthSquared_normalize_eq (sqrt : K → K) (v : Vec3d K) :
    lengthSquared (normalize sqrt v)
      = lengthSquared v * ((1 / sqrt (lengthSquared v)) * (1 / sqrt (lengthSquared v))) := by
  obtain ⟨h0, h1, h2⟩ := normalize_apply sqrt v
  have : lengthSquared (normalize sqrt v)
      = normalize sqrt v 0 * normalize sqrt v 0 + normalize sqrt v 1 * normalize sqrt v 1
        + normalize sqrt v 2 * normalize sqrt v 2 := rfl
  rw [this, h0, h1, h2]
  unfold lengthSquared
  ring

/-- The dot product with a normalized vector on the left. -/
lemma dot_normalize_left (sqrt : K → K) (a b : Vec3d K) :
    dot (normalize sqrt a) b = dot a b * (1 / sqrt (lengthSquared a)) := by
  obtain ⟨h0, h1, h2⟩ := normalize_apply sqrt a
  have : dot (normalize sqrt a) b
      = normalize sqrt a 0 * b 0 + normalize sqrt a 1 * b 1 + normalize sqrt a 2 * b 2 := rfl
  rw [this, h0, h1, h2]
  unfold dot
  ring

/-- The dot product with a normalized vector on the right. -/
lemma dot_normalize_right (sqrt : K → K) (a b : Vec3d K) :
    dot a (normalize sqrt b) = dot a b * (1 / sqrt (lengthSquared b)) := by
  obtain ⟨h0, h1, h2⟩ := normalize_apply sqrt b
  have : dot a (normalize sqrt b)
      = a 0 * normalize sqrt b 0 + a 1 * normalize sqrt b 1 + a 2 * normalize sqrt b 2 := rfl
  rw [this, h0, h1, h2]
  unfold dot
  ring

/-- The coordinates of a cross product. -/
lemma cross_apply (a b : Vec3d K) :
    cross a b 0 = a 1 * b 2 - a 2 * b 1 ∧ cross a b 1 = a 2 * b 0 - a 0 * b 2
      ∧ cross a b 2 = a 0 * b 1 - a 1 * b 0 :=
  ⟨rfl, rfl, rfl⟩

/-- A cross product is perpendicular to its left factor. -/
lemma dot_cross_left (a b : Vec3d K) : dot (cross a b) a = 0 := by
  obtain ⟨h0, h1, h2⟩ := cross_apply a b
  have : dot (cross a b) a = cross a b 0 * a 0 + cross a b 1 * a 1 + cross a b 2 * a 2 := rfl
  rw [this, h0, h1, h2]
  ring

/-- A cross product is perpendicular to its right factor. -/
lemma dot_cross_right (a b : Vec3d K) : dot (cross a b) b = 0 := by
  obtain ⟨h0, h1, h2⟩ := cross_apply a b
  have : dot (cross a b) b = cross a b 0 * b 0 + cross a b 1 * b 1 + cross a b 2 * b 2 := rfl
  rw [this, h0, h1, h2]
  ring

/-- The squared length of a cross product (Lagrange's identity). -/
lemma lengthSquared_cross (a b : Vec3d K) :
    lengthSquared (cross a b) = lengthSquared a * lengthSquared b - dot a b * dot a b := by
  obtain ⟨h0, h1, h2⟩ := cross_apply a b
  have : lengthSquared (cross a b)
      = cross a b 0 * cross a b 0 + cross a b 1 * cross a b 1 + cross a b 2 * cross a b 2 := rfl
  rw [this, h0, h1, h2]
  unfold lengthSquared dot
  ring

/-- The dot product does not depend on the order of its factors. -/
lemma dot_comm (a b : Vec3d K) : dot a b = dot b a := by
  unfold dot
  ring

/-- A vector is determined by its three coordinates. -/
lemma ext3 {F : Type} (a b : Vec3d F) (h0 : a 0 = b 0) (h1 : a 1 = b 1) (h2 : a 2 = b 2) :
    a = b := by
  funext i
  fin_cases i
  · exact h0
  · exact h1
  · exact h2

end Vec3d

/-- A square root of a positive number is positive. -/
lemma IsSqrtAt.pos {sqrt : K → K} {x : K} (h : IsSqrtAt sqrt x) (hx : 0 < x) : 0 < sqrt x := by
  rcases lt_or_eq_of_le h.1 with hlt | heq
  · exact hlt
  · exfalso
    have := h.2
    rw [← heq] at this
    simp at this
    exact absurd this.symm (ne_of_gt hx)

/-- A square root of `1` is `1`. -/
lemma IsSqrtAt.one {sqrt : K → K} (h : IsSqrtAt sqrt 1) : sqrt 1 = 1 := by
  have hpos := h.pos zero_lt_one
  have h2 := h.2
  have : (sqrt 1 - 1) * (sqrt 1 + 1) = 0 := by linear_combination h2
  rcases mul_eq_zero.mp this with h3 | h3
  · linarith
  · linarith

/-- Normalizing a vector that is not zero gives a vector of length `1`, the
square root being one at its squared length. -/
lemma Vec3d.lengthSquared_normalize {sqrt : K → K} {v : Vec3d K}
    (h : IsSqrtAt sqrt (Vec3d.lengthSquared v)) (hv : 0 < Vec3d.lengthSquared v) :
    Vec3d.lengthSquared (Vec3d.normalize sqrt v) = 1 := by
  have hpos := h.pos hv
  rw [Vec3d.lengthSquared_normalize_eq]
  have h2 := h.2
  have hne : sqrt (Vec3d.lengthSquared v) ≠ 0 := ne_of_gt hpos
  field_simp
  linear_combination -h2

/-- In `ViewHorizon` mode the local vectors of `updateModelViewMat` are built from
`localVision` alone. -/
lemma eyeBasis_horizon (sqrt : K → K) (nav : Navigator K)
    (hmode : nav.viewingMode = ViewingModeType.ViewHorizon) :
    (eyeBasis sqrt nav).forward = Vec3d.normalize sqrt nav.localVision
      ∧ (eyeBasis sqrt nav).sideRaw
        = ![Vec3d.normalize sqrt nav.localVision 1, -Vec3d.normalize sqrt nav.localVision 0, 0]
      ∧ (eyeBasis sqrt nav).upRaw
        = Vec3d.cross (eyeBasis sqrt nav).sideRaw (eyeBasis sqrt nav).forward
      ∧ (eyeBasis sqrt nav).side = Vec3d.normalize sqrt (eyeBasis sqrt nav).sideRaw
      ∧ (eyeBasis sqrt nav).up = Vec3d.normalize sqrt (eyeBasis sqrt nav).upRaw := by
  unfold eyeBasis
  simp [hmode]

/-- In `ViewEquator` mode the side vector comes from `equVision`, through
`matEarthEquToAltAz`, and the forward vector from `localVision`. -/
lemma eyeBasis_equator (sqrt : K → K) (nav : Navigator K)
    (hmode : nav.viewingMode = ViewingModeType.ViewEquator) :
    (eyeBasis sqrt nav).forward = Vec3d.normalize sqrt nav.localVision
      ∧ (eyeBasis sqrt nav).sideRaw
        = Mat4d.mulVec3 nav.matEarthEquToAltAz
            ![Vec3d.normalize sqrt nav.equVision 1, -Vec3d.normalize sqrt nav.equVision 0, 0]
      ∧ (eyeBasis sqrt nav).upRaw
        = Vec3d.cross (eyeBasis sqrt nav).sideRaw (eyeBasis sqrt nav).forward
      ∧ (eyeBasis sqrt nav).side = Vec3d.normalize sqrt (eyeBasis sqrt nav).sideRaw
      ∧ (eyeBasis sqrt nav).up = Vec3d.normalize sqrt (eyeBasis sqrt nav).upRaw := by
  unfold eyeBasis
  simp [hmode, earthEquToAltAz]

/-- The squared length of a vector with a non-zero horizontal part is
positive. -/
lemma lengthSquared_pos_of_horizontal (v : Vec3d K) (h : v 0 ≠ 0 ∨ v 1 ≠ 0) :
    0 < Vec3d.lengthSquared v := by
  unfold Vec3d.lengthSquared
  rcases h with h | h
  · have := mul_self_pos.mpr h
    nlinarith [mul_self_nonneg (v 1), mul_self_nonneg (v 2)]
  · have := mul_self_pos.mpr h
    nlinarith [mul_self_nonneg (v 0), mul_self_nonneg (v 2)]

/-- The squared length of the side vector `(f.y, -f.x, 0)`. -/
lemma lengthSquared_side (f : Vec3d K) :
    Vec3d.lengthSquared ![f 1, -f 0, 0] = f 0 * f 0 + f 1 * f 1 := by
  have : Vec3d.lengthSquared ![f 1, -f 0, 0] = f 1 * f 1 + -f 0 * -f 0 + 0 * 0 := rfl
  rw [this]
  ring

/-- The side vector `(f.y, -f.x, 0)` is perpendicular to `f`. -/
lemma dot_side (f : Vec3d K) : Vec3d.dot ![f 1, -f 0, 0] f = 0 := by
  have : Vec3d.dot ![f 1, -f 0, 0] f = f 1 * f 0 + -f 0 * f 1 + 0 * f 2 := rfl
  rw [this]
  ring

/-- In `ViewHorizon` mode, for a gaze with a non-zero horizontal part, none of the
three vectors that `updateModelViewMat` normalizes has length zero, `f` has
length `1` and the side and up vectors have the same length. -/
lemma eyeBasis_horizon_lengths (sqrt : K → K) (nav : Navigator K)
    (hmode : nav.viewingMode = ViewingModeType.ViewHorizon)
    (hhoriz : nav.localVision 0 ≠ 0 ∨ nav.localVision 1 ≠ 0)
    (hL : IsSqrtAt sqrt (Vec3d.lengthSquared nav.localVision)) :
    0 < Vec3d.lengthSquared nav.localVision
      ∧ Vec3d.lengthSquared (eyeBasis sqrt nav).forward = 1
      ∧ 0 < Vec3d.lengthSquared (eyeBasis sqrt nav).sideRaw
      ∧ Vec3d.lengthSquared (eyeBasis sqrt nav).upRaw
        = Vec3d.lengthSquared (eyeBasis sqrt nav).sideRaw
      ∧ Vec3d.dot (eyeBasis sqrt nav).sideRaw (eyeBasis sqrt nav).forward = 0 := by
  obtain ⟨hf, hs, hu, -, -⟩ := eyeBasis_horizon sqrt nav hmode
  have hLpos := lengthSquared_pos_of_horizontal nav.localVision hhoriz
  have hflen : Vec3d.lengthSquared (eyeBasis sqrt nav).forward = 1 := by
    rw [hf]
    exact Vec3d.lengthSquared_normalize hL hLpos
  have hrpos := hL.pos hLpos
  have hcpos : 0 < 1 / sqrt (Vec3d.lengthSquared nav.localVision) := one_div_pos.mpr hrpos
  obtain ⟨n0, n1, -⟩ := Vec3d.normalize_apply sqrt nav.localVision
  have hfh : Vec3d.normalize sqrt nav.localVision 0 ≠ 0
      ∨ Vec3d.normalize sqrt nav.localVision 1 ≠ 0 := by
    rcases hhoriz with h | h
    · left
      rw [n0]
      exact mul_ne_zero h (ne_of_gt hcpos)
    · right
      rw [n1]
      exact mul_ne_zero h (ne_of_gt hcpos)
  have hspos : 0 < Vec3d.lengthSquared (eyeBasis sqrt nav).sideRaw := by
    rw [hs, lengthSquared_side]
    rcases hfh with h | h
    · have := mul_self_pos.mpr h
      nlinarith [mul_self_nonneg (Vec3d.normalize sqrt nav.localVision 1)]
    · have := mul_self_pos.mpr h
      nlinarith [mul_self_nonneg (Vec3d.normalize sqrt nav.localVision 0)]
  have hdot : Vec3d.dot (eyeBasis sqrt nav).sideRaw (eyeBasis sqrt nav).forward = 0 := by
    rw [hs, hf]
    exact dot_side _
  refine ⟨hLpos, hflen, hspos, ?_, hdot⟩
  rw [hu, Vec3d.lengthSquared_cross, hdot, hflen]
  ring

/-- The coordinates of the image of a point. -/
lemma mulVec3_apply (M : Mat4d K) (v : Vec3d K) :
    Mat4d.mulVec3 M v 0 = M 0 0 * v 0 + M 0 1 * v 1 + M 0 2 * v 2 + M 0 3
      ∧ Mat4d.mulVec3 M v 1 = M 1 0 * v 0 + M 1 1 * v 1 + M 1 2 * v 2 + M 1 3
      ∧ Mat4d.mulVec3 M v 2 = M 2 0 * v 0 + M 2 1 * v 1 + M 2 2 * v 2 + M 2 3 :=
  ⟨rfl, rfl, rfl⟩

/-- The squared length is the dot product of a vector with itself. -/
lemma lengthSquared_eq_dot (v : Vec3d K) : Vec3d.lengthSquared v = Vec3d.dot v v := rfl

/-- The matrix `matAltAzToEye` that `updateModelViewMat` sets sends a vector to its
components along the side vector, along the up vector and against the forward
vector. -/
lemma updateModelViewMat_image (sqrt : K → K) (nav : Navigator K) (v : Vec3d K) :
    Mat4d.mulVec3 (updateModelViewMat sqrt nav).matAltAzToEye v
      = ![Vec3d.dot (eyeBasis sqrt nav).side v, Vec3d.dot (eyeBasis sqrt nav).up v,
          -Vec3d.dot (eyeBasis sqrt nav).forward v] := by
  apply Vec3d.ext3
  · rw [(mulVec3_apply _ v).1]
    show (eyeBasis sqrt nav).side 0 * v 0 + (eyeBasis sqrt nav).side 1 * v 1
        + (eyeBasis sqrt nav).side 2 * v 2 + 0
      = (eyeBasis sqrt nav).side 0 * v 0 + (eyeBasis sqrt nav).side 1 * v 1
        + (eyeBasis sqrt nav).side 2 * v 2
    ring
  · rw [(mulVec3_apply _ v).2.1]
    show (eyeBasis sqrt nav).up 0 * v 0 + (eyeBasis sqrt nav).up 1 * v 1
        + (eyeBasis sqrt nav).up 2 * v 2 + 0
      = (eyeBasis sqrt nav).up 0 * v 0 + (eyeBasis sqrt nav).up 1 * v 1
        + (eyeBasis sqrt nav).up 2 * v 2
    ring
  · rw [(mulVec3_apply _ v).2.2]
    show -(eyeBasis sqrt nav).forward 0 * v 0 + -(eyeBasis sqrt nav).forward 1 * v 1
        + -(eyeBasis sqrt nav).forward 2 * v 2 + 0
      = -((eyeBasis sqrt nav).forward 0 * v 0 + (eyeBasis sqrt nav).forward 1 * v 1
        + (eyeBasis sqrt nav).forward 2 * v 2)
    ring

/-- C21 (amended): the horizon-aligned eye basis.  In `ViewHorizon` mode, for a
`localVision` with a non-zero horizontal part, `updateModelViewMat` builds the
forward vector `f = localVision/|localVision|`, the side vector
`s = normalize((f.y, -f.x, 0))` and the up vector `u = normalize(s x f)`; the three
have length `1` and are mutually perpendicular, and the 3x3 block of
`matAltAzToEye` has `s`, `u` and `-f` as its rows, so that `matAltAzToEye` sends
`s`, `u` and `f` to the axes `(1, 0, 0)`, `(0, 1, 0)` and `(0, 0, -1)` of the eye.
The square root is one at the three squared lengths it is taken of. -/
theorem eyeBasis_horizon_orthonormal (sqrt : K → K) (nav : Navigator K)
    (hmode : nav.viewingMode = ViewingModeType.ViewHorizon)
    (hhoriz : nav.localVision 0 ≠ 0 ∨ nav.localVision 1 ≠ 0)
    (hL : IsSqrtAt sqrt (Vec3d.lengthSquared nav.localVision))
    (hS : IsSqrtAt sqrt (Vec3d.lengthSquared (eyeBasis sqrt nav).sideRaw))
    (h1 : IsSqrtAt sqrt 1) :
    (eyeBasis sqrt nav).forward = Vec3d.normalize sqrt nav.localVision
      ∧ (eyeBasis sqrt nav).side
        = Vec3d.normalize sqrt
            ![(eyeBasis sqrt nav).forward 1, -(eyeBasis sqrt nav).forward 0, 0]
      ∧ (eyeBasis sqrt nav).up
        = Vec3d.normalize sqrt
            (Vec3d.cross (eyeBasis sqrt nav).side (eyeBasis sqrt nav).forward)
      ∧ Vec3d.lengthSquared (eyeBasis sqrt nav).side = 1
      ∧ Vec3d.lengthSquared (eyeBasis sqrt nav).up = 1
      ∧ Vec3d.lengthSquared (eyeBasis sqrt nav).forward = 1
      ∧ Vec3d.dot (eyeBasis sqrt nav).side (eyeBasis sqrt nav).up = 0
      ∧ Vec3d.dot (eyeBasis sqrt nav).side (eyeBasis sqrt nav).forward = 0
      ∧ Vec3d.dot (eyeBasis sqrt nav).up (eyeBasis sqrt nav).forward = 0
      ∧ (∀ i : Fin 3,
          (updateModelViewMat sqrt nav).matAltAzToEye 0 (Fin.castSucc i)
              = (eyeBasis sqrt nav).side i
            ∧ (updateModelViewMat sqrt nav).matAltAzToEye 1 (Fin.castSucc i)
              = (eyeBasis sqrt nav).up i
            ∧ (updateModelViewMat sqrt nav).matAltAzToEye 2 (Fin.castSucc i)
              = -(eyeBasis sqrt nav).forward i)
      ∧ Mat4d.mulVec3 (updateModelViewMat sqrt nav).matAltAzToEye (eyeBasis sqrt nav).side
        = ![1, 0, 0]
      ∧ Mat4d.mulVec3 (updateModelViewMat sqrt nav).matAltAzToEye (eyeBasis sqrt nav).up
        = ![0, 1, 0]
      ∧ Mat4d.mulVec3 (updateModelViewMat sqrt nav).matAltAzToEye (eyeBasis sqrt nav).forward
        = ![0, 0, -1] := by
  obtain ⟨hf, hs, hu, hside, hup⟩ := eyeBasis_horizon sqrt nav hmode
  obtain ⟨-, hflen, hspos, hulen, hdot⟩ := eyeBasis_horizon_lengths sqrt nav hmode hhoriz hL
  have hU : IsSqrtAt sqrt (Vec3d.lengthSquared (eyeBasis sqrt nav).upRaw) := by
    rw [hulen]
    exact hS
  have hsidelen : Vec3d.lengthSquared (eyeBasis sqrt nav).side = 1 := by
    rw [hside]
    exact Vec3d.lengthSquared_normalize hS hspos
  have huplen : Vec3d.lengthSquared (eyeBasis sqrt nav).up = 1 := by
    rw [hup]
    exact Vec3d.lengthSquared_normalize hU (by rw [hulen]; exact hspos)
  have hcross : Vec3d.cross (eyeBasis sqrt nav).side (eyeBasis sqrt nav).forward
      = (eyeBasis sqrt nav).up := by
    obtain ⟨c0, c1, c2⟩ := Vec3d.cross_apply (eyeBasis sqrt nav).side (eyeBasis sqrt nav).forward
    obtain ⟨d0, d1, d2⟩ :=
      Vec3d.cross_apply (eyeBasis sqrt nav).sideRaw (eyeBasis sqrt nav).forward
    obtain ⟨s0, s1, s2⟩ := Vec3d.normalize_apply sqrt (eyeBasis sqrt nav).sideRaw
    obtain ⟨u0, u1, u2⟩ := Vec3d.normalize_apply sqrt (eyeBasis sqrt nav).upRaw
    rw [hulen] at u0 u1 u2
    rw [← hup] at u0 u1 u2
    rw [← hside] at s0 s1 s2
    rw [hu] at u0 u1 u2
    apply Vec3d.ext3
    · rw [c0, u0, d0, s1, s2]
      ring
    · rw [c1, u1, d1, s0, s2]
      ring
    · rw [c2, u2, d2, s0, s1]
      ring
  have hupfix : Vec3d.normalize sqrt (eyeBasis sqrt nav).up = (eyeBasis sqrt nav).up := by
    obtain ⟨n0, n1, n2⟩ := Vec3d.normalize_apply sqrt (eyeBasis sqrt nav).up
    rw [huplen, h1.one] at n0 n1 n2
    apply Vec3d.ext3
    · rw [n0]
      ring
    · rw [n1]
      ring
    · rw [n2]
      ring
  have hsu : Vec3d.dot (eyeBasis sqrt nav).side (eyeBasis sqrt nav).up = 0 := by
    rw [hside, hup, Vec3d.dot_normalize_left, Vec3d.dot_normalize_right, Vec3d.dot_comm,
      hu, Vec3d.dot_cross_left]
    ring
  have hsf : Vec3d.dot (eyeBasis sqrt nav).side (eyeBasis sqrt nav).forward = 0 := by
    rw [hside, Vec3d.dot_normalize_left, hdot]
    ring
  have huf : Vec3d.dot (eyeBasis sqrt nav).up (eyeBasis sqrt nav).forward = 0 := by
    rw [hup, Vec3d.dot_normalize_left, hu, Vec3d.dot_cross_right]
    ring
  refine ⟨hf, ?_, ?_, hsidelen, huplen, hflen, hsu, hsf, huf, ?_, ?_, ?_, ?_⟩
  · rw [hside, hs, hf]
  · rw [hcross, hupfix]
  · intro i
    fin_cases i <;> exact ⟨rfl, rfl, rfl⟩
  · rw [updateModelViewMat_image, ← lengthSquared_eq_dot, hsidelen, Vec3d.dot_comm, hsu,
      Vec3d.dot_comm, hsf, neg_zero]
  · rw [updateModelViewMat_image, hsu, ← lengthSquared_eq_dot, huplen, Vec3d.dot_comm, huf,
      neg_zero]
  · rw [updateModelViewMat_image, hsf, huf, ← lengthSquared_eq_dot, hflen]

/-- The rational square root of `169`. -/
lemma sqrtQ_169 : sqrtQ 169 = 13 := by
  have h1 : (169 : ℚ).num = 169 := rfl
  have h2 : (169 : ℚ).den = 1 := rfl
  have h3 : Nat.sqrt 169 = 13 := by norm_num [Nat.sqrt]
  simp [sqrtQ, h1, h2, h3]

/-- The rational square root of `25 / 169`. -/
lemma sqrtQ_25_169 : sqrtQ (25 / 169) = 5 / 13 := by
  have h1 : (25 / 169 : ℚ).num = 25 := by norm_num
  have h2 : (25 / 169 : ℚ).den = 169 := by norm_num
  have h3 : Nat.sqrt 169 = 13 := by norm_num [Nat.sqrt]
  have h4 : Nat.sqrt 25 = 5 := by norm_num [Nat.sqrt]
  simp [sqrtQ, h1, h2, h3, h4]

/-- The rational square root of `1`. -/
lemma sqrtQ_1 : sqrtQ 1 = 1 := by
  simp [sqrtQ]

/-- The squared length of the gaze of `navLooking`. -/
lemma navLooking_lengthSquared : Vec3d.lengthSquared navLooking.localVision = 169 := by
  show Vec3d.lengthSquared (![3, 4, 12] : Vec3d ℚ) = 169
  norm_num [Vec3d.lengthSquared]

/-- The squared length of the side vector of `navLooking` before it is
normalized. -/
lemma navLooking_side_lengthSquared :
    Vec3d.lengthSquared (eyeBasis sqrtQ navLooking).sideRaw = 25 / 169 := by
  rw [(eyeBasis_horizon sqrtQ navLooking rfl).2.1, lengthSquared_side,
    (Vec3d.normalize_apply sqrtQ navLooking.localVision).1,
    (Vec3d.normalize_apply sqrtQ navLooking.localVision).2.1, navLooking_lengthSquared,
    sqrtQ_169]
  show (3 : ℚ) * (1 / 13) * (3 * (1 / 13)) + 4 * (1 / 13) * (4 * (1 / 13)) = 25 / 169
  norm_num

/-- The squared length of the gaze of `nav0`. -/
lemma nav0_lengthSquared : Vec3d.lengthSquared nav0.localVision = 1 := by
  show Vec3d.lengthSquared (![1, 0, 0] : Vec3d ℚ) = 1
  norm_num [Vec3d.lengthSquared]

/-- C21 (counterexample): the columns of `matAltAzToEye`.  For the gaze `(1, 0, 0)`
of `nav0`, in `ViewHorizon` mode, the first column of the matrix that
`updateModelViewMat` sets ends in `-f.x = -1`, while the side vector `s` ends in
`0`: the columns of the 3x3 block are not `s`, `u` and `-f`.  The matrix sends the
gaze to `(0, 0, -1)`, the axis the eye looks along. -/
theorem matAltAzToEye_columns_not_basis :
    nav0.viewingMode = ViewingModeType.ViewHorizon
      ∧ nav0.localVision = ![1, 0, 0]
      ∧ (updateModelViewMat sqrtQ nav0).matAltAzToEye 2 0 = -1
      ∧ (eyeBasis sqrtQ nav0).side 2 = 0
      ∧ ¬ (∀ i : Fin 3,
          (updateModelViewMat sqrtQ nav0).matAltAzToEye (Fin.castSucc i) 0
              = (eyeBasis sqrtQ nav0).side i
            ∧ (updateModelViewMat sqrtQ nav0).matAltAzToEye (Fin.castSucc i) 1
              = (eyeBasis sqrtQ nav0).up i
            ∧ (updateModelViewMat sqrtQ nav0).matAltAzToEye (Fin.castSucc i) 2
              = -(eyeBasis sqrtQ nav0).forward i)
      ∧ Mat4d.mulVec3 (updateModelViewMat sqrtQ nav0).matAltAzToEye nav0.localVision
        = ![0, 0, -1] := by
  obtain ⟨hf, hs, -, hside, -⟩ := eyeBasis_horizon sqrtQ nav0 rfl
  have hf0 : (eyeBasis sqrtQ nav0).forward 0 = 1 := by
    rw [hf, (Vec3d.normalize_apply sqrtQ nav0.localVision).1, nav0_lengthSquared, sqrtQ_1]
    show (1 : ℚ) * (1 / 1) = 1
    norm_num
  have hf1 : (eyeBasis sqrtQ nav0).forward 1 = 0 := by
    rw [hf, (Vec3d.normalize_apply sqrtQ nav0.localVision).2.1]
    show (0 : ℚ) * _ = 0
    rw [zero_mul]
  have hf2 : (eyeBasis sqrtQ nav0).forward 2 = 0 := by
    rw [hf, (Vec3d.normalize_apply sqrtQ nav0.localVision).2.2]
    show (0 : ℚ) * _ = 0
    rw [zero_mul]
  have hm : (updateModelViewMat sqrtQ nav0).matAltAzToEye 2 0 = -1 := by
    show -(eyeBasis sqrtQ nav0).forward 0 = -1
    rw [hf0]
  have hs2 : (eyeBasis sqrtQ nav0).side 2 = 0 := by
    rw [hside, (Vec3d.normalize_apply sqrtQ _).2.2, hs]
    show (0 : ℚ) * _ = 0
    rw [zero_mul]
  have hsraw : (eyeBasis sqrtQ nav0).sideRaw = ![0, -1, 0] := by
    rw [hs, ← hf, hf0, hf1]
  refine ⟨rfl, rfl, hm, hs2, ?_, ?_⟩
  · intro h
    have h2 := (h 2).1
    have hm2 : (updateModelViewMat sqrtQ nav0).matAltAzToEye (Fin.castSucc 2) 0 = -1 := hm
    rw [hm2, hs2] at h2
    norm_num at h2
  · rw [updateModelViewMat_image]
    have hd : ∀ w : Vec3d ℚ, Vec3d.dot w nav0.localVision = w 0 := by
      intro w
      show w 0 * 1 + w 1 * 0 + w 2 * 0 = w 0
      ring
    rw [hd, hd, hd, hf0, hside, (Vec3d.normalize_apply sqrtQ _).1, hsraw]
    have hu0 : (eyeBasis sqrtQ nav0).up 0 = 0 := by
      rw [(eyeBasis_horizon sqrtQ nav0 rfl).2.2.2.2, (Vec3d.normalize_apply sqrtQ _).1,
        (eyeBasis_horizon sqrtQ nav0 rfl).2.2.1, (Vec3d.cross_apply _ _).1, hsraw, hf1, hf2]
      show ((-1 : ℚ) * 0 - 0 * 0) * _ = 0
      norm_num
    rw [hu0]
    show (![(0 : ℚ) * _, 0, -1] : Vec3d ℚ) = ![0, 0, -1]
    rw [zero_mul]

/-- C21 (amended) for the gaze `(3, 4, 12)`, of length `13`, with the rational
square root. -/
theorem eyeBasis_horizon_orthonormal_witness :
    (eyeBasis sqrtQ navLooking).forward = Vec3d.normalize sqrtQ navLooking.localVision
      ∧ (eyeBasis sqrtQ navLooking).side
        = Vec3d.normalize sqrtQ
            ![(eyeBasis sqrtQ navLooking).forward 1, -(eyeBasis sqrtQ navLooking).forward 0, 0]
      ∧ (eyeBasis sqrtQ navLooking).up
        = Vec3d.normalize sqrtQ
            (Vec3d.cross (eyeBasis sqrtQ navLooking).side (eyeBasis sqrtQ navLooking).forward)
      ∧ Vec3d.lengthSquared (eyeBasis sqrtQ navLooking).side = 1
      ∧ Vec3d.lengthSquared (eyeBasis sqrtQ navLooking).up = 1
      ∧ Vec3d.lengthSquared (eyeBasis sqrtQ navLooking).forward = 1
      ∧ Vec3d.dot (eyeBasis sqrtQ navLooking).side (eyeBasis sqrtQ navLooking).up = 0
      ∧ Vec3d.dot (eyeBasis sqrtQ navLooking).side (eyeBasis sqrtQ navLooking).forward = 0
      ∧ Vec3d.dot (eyeBasis sqrtQ navLooking).up (eyeBasis sqrtQ navLooking).forward = 0
      ∧ (∀ i : Fin 3,
          (updateModelViewMat sqrtQ navLooking).matAltAzToEye 0 (Fin.castSucc i)
              = (eyeBasis sqrtQ navLooking).side i
            ∧ (updateModelViewMat sqrtQ navLooking).matAltAzToEye 1 (Fin.castSucc i)
              = (eyeBasis sqrtQ navLooking).up i
            ∧ (updateModelViewMat sqrtQ navLooking).matAltAzToEye 2 (Fin.castSucc i)
              = -(eyeBasis sqrtQ navLooking).forward i)
      ∧ Mat4d.mulVec3 (updateModelViewMat sqrtQ navLooking).matAltAzToEye
          (eyeBasis sqrtQ navLooking).side = ![1, 0, 0]
      ∧ Mat4d.mulVec3 (updateModelViewMat sqrtQ navLooking).matAltAzToEye
          (eyeBasis sqrtQ navLooking).up = ![0, 1, 0]
      ∧ Mat4d.mulVec3 (updateModelViewMat sqrtQ navLooking).matAltAzToEye
          (eyeBasis sqrtQ navLooking).forward = ![0, 0, -1] :=
  eyeBasis_horizon_orthonormal sqrtQ navLooking rfl
    (Or.inl (by show (3 : ℚ) ≠ 0; norm_num))
    (by rw [navLooking_lengthSquared, IsSqrtAt, sqrtQ_169]; norm_num)
    (by rw [navLooking_side_lengthSquared, IsSqrtAt, sqrtQ_25_169]; norm_num)
    (by rw [IsSqrtAt, sqrtQ_1]; norm_num)

/-- The columns of a rotation are orthonormal. -/
lemma IsRotation_gram {M : Mat4d K} (h : Mat4d.IsRotation M) (j k : Fin 4) :
    M 0 j * M 0 k + M 1 j * M 1 k + M 2 j * M 2 k + M 3 j * M 3 k
      = if j = k then 1 else 0 := by
  have hjk : (M.transpose * M) j k = (1 : Mat4d K) j k := by rw [h.transpose_mul]
  rw [Matrix.mul_apply, Fin.sum_univ_four, Matrix.one_apply] at hjk
  simpa [Matrix.transpose_apply] using hjk

/-- A rotation keeps dot products. -/
lemma IsRotation_dot {M : Mat4d K} (h : Mat4d.IsRotation M) (a b : Vec3d K) :
    Vec3d.dot (Mat4d.mulVec3 M a) (Mat4d.mulVec3 M b) = Vec3d.dot a b := by
  obtain ⟨c0, c1, c2, -⟩ := h.noTranslation.col_apply
  obtain ⟨r0, r1, r2, -⟩ := h.noTranslation.row_apply
  have g00 := IsRotation_gram h 0 0
  have g01 := IsRotation_gram h 0 1
  have g02 := IsRotation_gram h 0 2
  have g11 := IsRotation_gram h 1 1
  have g12 := IsRotation_gram h 1 2
  have g22 := IsRotation_gram h 2 2
  rw [if_pos rfl] at g00 g11 g22
  rw [if_neg (by decide)] at g01 g02 g12
  simp only [r0, r1, r2, mul_zero, add_zero] at g00 g01 g02 g11 g12 g22
  obtain ⟨a0, a1, a2⟩ := mulVec3_apply M a
  obtain ⟨b0, b1, b2⟩ := mulVec3_apply M b
  have hd : Vec3d.dot (Mat4d.mulVec3 M a) (Mat4d.mulVec3 M b)
      = Mat4d.mulVec3 M a 0 * Mat4d.mulVec3 M b 0 + Mat4d.mulVec3 M a 1 * Mat4d.mulVec3 M b 1
        + Mat4d.mulVec3 M a 2 * Mat4d.mulVec3 M b 2 := rfl
  rw [hd, a0, a1, a2, b0, b1, b2, c0, c1, c2]
  unfold Vec3d.dot
  linear_combination a 0 * b 0 * g00 + (a 0 * b 1 + a 1 * b 0) * g01
    + (a 0 * b 2 + a 2 * b 0) * g02 + a 1 * b 1 * g11 + (a 1 * b 2 + a 2 * b 1) * g12
    + a 2 * b 2 * g22

/-- The identity matrix is a rotation. -/
lemma isRotation_one : Mat4d.IsRotation (1 : Mat4d K) := by
  constructor
  · simp
  · funext j
    fin_cases j <;> rfl

/-- In `ViewEquator` mode, in a consistent state with orthonormal matrices, the
two gaze vectors have the same length, the side vector is as long as
`(e.y, -e.x, 0)` and it is perpendicular to the forward vector. -/
lemma eyeBasis_equator_perp (sqrt : K → K) (nav : Navigator K)
    (hmode : nav.viewingMode = ViewingModeType.ViewEquator)
    (hA : Mat4d.IsRotation nav.matAltAzToEarthEqu)
    (hT : nav.matEarthEquToAltAz = nav.matAltAzToEarthEqu.transpose)
    (hcons : nav.equVision = Mat4d.mulVec3 nav.matAltAzToEarthEqu nav.localVision) :
    Vec3d.lengthSquared nav.localVision = Vec3d.lengthSquared nav.equVision
      ∧ Vec3d.lengthSquared (eyeBasis sqrt nav).sideRaw
        = Vec3d.normalize sqrt nav.equVision 0 * Vec3d.normalize sqrt nav.equVision 0
          + Vec3d.normalize sqrt nav.equVision 1 * Vec3d.normalize sqrt nav.equVision 1
      ∧ Vec3d.dot (eyeBasis sqrt nav).sideRaw (eyeBasis sqrt nav).forward = 0 := by
  obtain ⟨hf, hs, -, -, -⟩ := eyeBasis_equator sqrt nav hmode
  have hloc : nav.localVision
      = Mat4d.mulVec3 nav.matAltAzToEarthEqu.transpose nav.equVision := by
    rw [hcons, hA.transpose_mulVec3]
  refine ⟨?_, ?_, ?_⟩
  · rw [hcons, lengthSquared_eq_dot, lengthSquared_eq_dot, IsRotation_dot hA]
  · rw [hs, hT, lengthSquared_eq_dot, IsRotation_dot hA.transpose, ← lengthSquared_eq_dot,
      lengthSquared_side]
  · rw [hs, hf, hT, Vec3d.dot_normalize_right]
    have hz : Vec3d.dot
        (Mat4d.mulVec3 nav.matAltAzToEarthEqu.transpose
          ![Vec3d.normalize sqrt nav.equVision 1, -Vec3d.normalize sqrt nav.equVision 0, 0])
        nav.localVision = 0 := by
      rw [hloc, IsRotation_dot hA.transpose]
      obtain ⟨n0, n1, -⟩ := Vec3d.normalize_apply sqrt nav.equVision
      have hd : Vec3d.dot
          ![Vec3d.normalize sqrt nav.equVision 1, -Vec3d.normalize sqrt nav.equVision 0, 0]
          nav.equVision
          = Vec3d.normalize sqrt nav.equVision 1 * nav.equVision 0
            + -Vec3d.normalize sqrt nav.equVision 0 * nav.equVision 1
            + 0 * nav.equVision 2 := rfl
      rw [hd, n0, n1]
      ring
    rw [hz]
    ring

/-- C22 (counterexample): a gaze at the celestial pole.  The state `navPole` is in
`ViewEquator` mode, its matrices are orthonormal (the identity) and its gaze
vectors are consistent, `equVision = localVision = (0, 0, 1)`; the side vector
`updateModelViewMat` computes is the zero vector, and so is `up = side x forward`:
the three vectors do not form a basis. -/
theorem eyeBasis_equator_pole_degenerate :
    navPole.viewingMode = ViewingModeType.ViewEquator
      ∧ Mat4d.IsRotation navPole.matAltAzToEarthEqu
      ∧ navPole.matEarthEquToAltAz = navPole.matAltAzToEarthEqu.transpose
      ∧ navPole.equVision = Mat4d.mulVec3 navPole.matAltAzToEarthEqu navPole.localVision
      ∧ (eyeBasis sqrtQ navPole).sideRaw = ![0, 0, 0]
      ∧ (eyeBasis sqrtQ navPole).upRaw = ![0, 0, 0] := by
  have hs : (eyeBasis sqrtQ navPole).sideRaw = ![0, 0, 0] := by
    rw [(eyeBasis_equator sqrtQ navPole rfl).2.1]
    show Mat4d.mulVec3 (1 : Mat4d ℚ) _ = _
    rw [Mat4d.mulVec3_one, (Vec3d.normalize_apply sqrtQ navPole.equVision).1,
      (Vec3d.normalize_apply sqrtQ navPole.equVision).2.1]
    show (![(0 : ℚ) * _, -((0 : ℚ) * _), 0] : Vec3d ℚ) = _
    rw [zero_mul, neg_zero]
  refine ⟨rfl, isRotation_one, (Matrix.transpose_one).symm, (Mat4d.mulVec3_one _).symm, hs, ?_⟩
  rw [(eyeBasis_equator sqrtQ navPole rfl).2.2.1, hs]
  apply Vec3d.ext3
  · rw [(Vec3d.cross_apply _ _).1]
    show (0 : ℚ) * _ - 0 * _ = 0
    ring
  · rw [(Vec3d.cross_apply _ _).2.1]
    show (0 : ℚ) * _ - 0 * _ = 0
    ring
  · rw [(Vec3d.cross_apply _ _).2.2]
    show (0 : ℚ) * _ - 0 * _ = 0
    ring

/-- C22 (amended): the equator-aligned eye basis.  In `ViewEquator` mode
`updateModelViewMat` computes the side vector as `matEarthEquToAltAz` applied to
`(e.y, -e.x, 0)` with `e` the normalized `equVision`, the forward vector as the
normalized `localVision` and the up vector as `side x forward`.  When the gaze
vectors are consistent, the matrices are orthonormal and `equVision` is not at a
celestial pole (x, y not both 0), the three vectors are mutually perpendicular
and none of them is zero, the square root being one at the squared length of
`equVision`. -/
theorem eyeBasis_equator_orthogonal (sqrt : K → K) (nav : Navigator K)
    (hmode : nav.viewingMode = ViewingModeType.ViewEquator)
    (hA : Mat4d.IsRotation nav.matAltAzToEarthEqu)
    (hT : nav.matEarthEquToAltAz = nav.matAltAzToEarthEqu.transpose)
    (hcons : nav.equVision = Mat4d.mulVec3 nav.matAltAzToEarthEqu nav.localVision)
    (hpolar : nav.equVision 0 ≠ 0 ∨ nav.equVision 1 ≠ 0)
    (hQ : IsSqrtAt sqrt (Vec3d.lengthSquared nav.equVision)) :
    (eyeBasis sqrt nav).sideRaw
        = Mat4d.mulVec3 nav.matEarthEquToAltAz
            ![Vec3d.normalize sqrt nav.equVision 1, -Vec3d.normalize sqrt nav.equVision 0, 0]
      ∧ (eyeBasis sqrt nav).forward = Vec3d.normalize sqrt nav.localVision
      ∧ (eyeBasis sqrt nav).upRaw
        = Vec3d.cross (eyeBasis sqrt nav).sideRaw (eyeBasis sqrt nav).forward
      ∧ Vec3d.dot (eyeBasis sqrt nav).sideRaw (eyeBasis sqrt nav).forward = 0
      ∧ Vec3d.dot (eyeBasis sqrt nav).upRaw (eyeBasis sqrt nav).sideRaw = 0
      ∧ Vec3d.dot (eyeBasis sqrt nav).upRaw (eyeBasis sqrt nav).forward = 0
      ∧ 0 < Vec3d.lengthSquared (eyeBasis sqrt nav).sideRaw
      ∧ 0 < Vec3d.lengthSquared (eyeBasis sqrt nav).upRaw
      ∧ 0 < Vec3d.lengthSquared (eyeBasis sqrt nav).forward := by
  obtain ⟨hf, hs, hu, -, -⟩ := eyeBasis_equator sqrt nav hmode
  obtain ⟨hlen, hslen, hdot⟩ := eyeBasis_equator_perp sqrt nav hmode hA hT hcons
  have hEpos := lengthSquared_pos_of_horizontal nav.equVision hpolar
  have hcpos : 0 < 1 / sqrt (Vec3d.lengthSquared nav.equVision) :=
    one_div_pos.mpr (hQ.pos hEpos)
  obtain ⟨n0, n1, -⟩ := Vec3d.normalize_apply sqrt nav.equVision
  have hflen : Vec3d.lengthSquared (eyeBasis sqrt nav).forward = 1 := by
    rw [hf]
    exact Vec3d.lengthSquared_normalize (by rw [hlen]; exact hQ) (by rw [hlen]; exact hEpos)
  have hspos : 0 < Vec3d.lengthSquared (eyeBasis sqrt nav).sideRaw := by
    rw [hslen]
    rcases hpolar with h | h
    · have h0 : Vec3d.normalize sqrt nav.equVision 0 ≠ 0 := by
        rw [n0]
        exact mul_ne_zero h (ne_of_gt hcpos)
      have := mul_self_pos.mpr h0
      nlinarith [mul_self_nonneg (Vec3d.normalize sqrt nav.equVision 1)]
    · have h1 : Vec3d.normalize sqrt nav.equVision 1 ≠ 0 := by
        rw [n1]
        exact mul_ne_zero h (ne_of_gt hcpos)
      have := mul_self_pos.mpr h1
      nlinarith [mul_self_nonneg (Vec3d.normalize sqrt nav.equVision 0)]
  refine ⟨hs, hf, hu, hdot, ?_, ?_, hspos, ?_, ?_⟩
  · rw [hu, Vec3d.dot_cross_left]
  · rw [hu, Vec3d.dot_cross_right]
  · rw [hu, Vec3d.lengthSquared_cross, hdot, hflen]
    linarith
  · rw [hflen]
    exact zero_lt_one

/-- The gaze vectors of `navEquator` are consistent. -/
lemma navEquator_consistent :
    navEquator.equVision = Mat4d.mulVec3 navEquator.matAltAzToEarthEqu navEquator.localVision := by
  show (![-4, 3, 12] : Vec3d ℚ) = Mat4d.mulVec3 rotZ90 ![3, 4, 12]
  funext i
  fin_cases i <;> norm_num [Mat4d.mulVec3, rotZ90, Matrix.vecHead, Matrix.vecTail]

/-- The squared length of the equatorial gaze of `navEquator`. -/
lemma navEquator_lengthSquared : Vec3d.lengthSquared navEquator.equVision = 169 := by
  show Vec3d.lengthSquared (![-4, 3, 12] : Vec3d ℚ) = 169
  norm_num [Vec3d.lengthSquared]

/-- C22 (amended) for the state `navEquator`, whose horizon frame is a quarter
turn away from the equatorial frame, with the rational square root. -/
theorem eyeBasis_equator_orthogonal_witness :
    (eyeBasis sqrtQ navEquator).sideRaw
        = Mat4d.mulVec3 navEquator.matEarthEquToAltAz
            ![Vec3d.normalize sqrtQ navEquator.equVision 1,
              -Vec3d.normalize sqrtQ navEquator.equVision 0, 0]
      ∧ (eyeBasis sqrtQ navEquator).forward = Vec3d.normalize sqrtQ navEquator.localVision
      ∧ (eyeBasis sqrtQ navEquator).upRaw
        = Vec3d.cross (eyeBasis sqrtQ navEquator).sideRaw (eyeBasis sqrtQ navEquator).forward
      ∧ Vec3d.dot (eyeBasis sqrtQ navEquator).sideRaw (eyeBasis sqrtQ navEquator).forward = 0
      ∧ Vec3d.dot (eyeBasis sqrtQ navEquator).upRaw (eyeBasis sqrtQ navEquator).sideRaw = 0
      ∧ Vec3d.dot (eyeBasis sqrtQ navEquator).upRaw (eyeBasis sqrtQ navEquator).forward = 0
      ∧ 0 < Vec3d.lengthSquared (eyeBasis sqrtQ navEquator).sideRaw
      ∧ 0 < Vec3d.lengthSquared (eyeBasis sqrtQ navEquator).upRaw
      ∧ 0 < Vec3d.lengthSquared (eyeBasis sqrtQ navEquator).forward :=
  eyeBasis_equator_orthogonal sqrtQ navEquator rfl rotZ90_isRotation rfl navEquator_consistent
    (Or.inl (by show (-4 : ℚ) ≠ 0; norm_num))
    (by rw [navEquator_lengthSquared, IsSqrtAt, sqrtQ_169]; norm_num)

/-- The cross product of the zero vector with any vector is the zero vector. -/
lemma cross_zero_left (b : Vec3d K) : Vec3d.cross ![0, 0, 0] b = ![0, 0, 0] := by
  apply Vec3d.ext3
  · rw [(Vec3d.cross_apply _ _).1]
    show (0 : K) * _ - 0 * _ = 0
    ring
  · rw [(Vec3d.cross_apply _ _).2.1]
    show (0 : K) * _ - 0 * _ = 0
    ring
  · rw [(Vec3d.cross_apply _ _).2.2]
    show (0 : K) * _ - 0 * _ = 0
    ring

/-- In `ViewHorizon` mode, for a gaze pointing exactly at the zenith or the nadir,
the side vector and the up vector are zero vectors, and they are normalized all
the same. -/
lemma eyeBasis_horizon_vertical (sqrt : K → K) (nav : Navigator K)
    (hmode : nav.viewingMode = ViewingModeType.ViewHorizon)
    (h0 : nav.localVision 0 = 0) (h1 : nav.localVision 1 = 0) :
    (eyeBasis sqrt nav).sideRaw = ![0, 0, 0]
      ∧ (eyeBasis sqrt nav).upRaw = ![0, 0, 0]
      ∧ (eyeBasis sqrt nav).side = Vec3d.normalize sqrt ![0, 0, 0]
      ∧ (eyeBasis sqrt nav).up = Vec3d.normalize sqrt ![0, 0, 0] := by
  obtain ⟨-, hs, hu, hside, hup⟩ := eyeBasis_horizon sqrt nav hmode
  obtain ⟨n0, n1, -⟩ := Vec3d.normalize_apply sqrt nav.localVision
  have hs0 : (eyeBasis sqrt nav).sideRaw = ![0, 0, 0] := by
    rw [hs, n0, n1, h0, h1, zero_mul, neg_zero]
  have hu0 : (eyeBasis sqrt nav).upRaw = ![0, 0, 0] := by
    rw [hu, hs0, cross_zero_left]
  refine ⟨hs0, hu0, ?_, ?_⟩
  · rw [hside, hs0]
  · rw [hup, hu0]

/-- C23 (counterexample): no zero-length guard.  Given the zero vector,
`setLocalVision` replaces the gaze `(1, 0, 0)` of `nav0` by the zero vector, which
`updateModelViewMat` would normalize next; and for the gaze `(0, 0, 1)` at the
zenith, in `ViewHorizon` mode, the side vector and the up vector that
`updateModelViewMat` normalizes are zero vectors. -/
theorem zero_length_unguarded :
    nav0.localVision = ![1, 0, 0]
      ∧ (setLocalVision ![0, 0, 0] nav0).localVision = ![0, 0, 0]
      ∧ (setEquVision ![0, 0, 0] nav0).equVision = ![0, 0, 0]
      ∧ (setJ2000EquVision ![0, 0, 0] nav0).J2000EquVision = ![0, 0, 0]
      ∧ (eyeBasis sqrtQ (setLocalVision ![0, 0, 0] nav0)).forward
        = Vec3d.normalize sqrtQ ![0, 0, 0]
      ∧ navZenith.viewingMode = ViewingModeType.ViewHorizon
      ∧ navZenith.localVision = ![0, 0, 1]
      ∧ (eyeBasis sqrtQ navZenith).sideRaw = ![0, 0, 0]
      ∧ (eyeBasis sqrtQ navZenith).upRaw = ![0, 0, 0]
      ∧ (eyeBasis sqrtQ navZenith).side = Vec3d.normalize sqrtQ ![0, 0, 0]
      ∧ (eyeBasis sqrtQ navZenith).up = Vec3d.normalize sqrtQ ![0, 0, 0] := by
  obtain ⟨hs, hu, hside, hup⟩ := eyeBasis_horizon_vertical sqrtQ navZenith rfl rfl rfl
  exact ⟨rfl, rfl, rfl, rfl,
    (eyeBasis_horizon sqrtQ (setLocalVision ![0, 0, 0] nav0) rfl).1, rfl, rfl, hs, hu, hside, hup⟩

/-- C23 (amended): the gaze setters and the eye-basis construction have no
zero-length guard.  Each gaze setter stores the vector it is given, whatever it
is; in `ViewHorizon` mode, for a gaze with a non-zero horizontal part, none of
the three vectors `updateModelViewMat` normalizes has length zero (the square
root being one at the squared length of `localVision`), while for a gaze
pointing exactly at the zenith or the nadir the side vector `(f.y, -f.x, 0)` and
the up vector `s x f` are zero vectors and are normalized all the same. -/
theorem zero_length_only_off_vertical (sqrt : K → K) (pos : Vec3d K) (nav navV : Navigator K)
    (hmode : nav.viewingMode = ViewingModeType.ViewHorizon)
    (hhoriz : nav.localVision 0 ≠ 0 ∨ nav.localVision 1 ≠ 0)
    (hL : IsSqrtAt sqrt (Vec3d.lengthSquared nav.localVision))
    (hmodeV : navV.viewingMode = ViewingModeType.ViewHorizon)
    (hV0 : navV.localVision 0 = 0) (hV1 : navV.localVision 1 = 0) :
    (setLocalVision pos nav).localVision = pos
      ∧ (setEquVision pos nav).equVision = pos
      ∧ (setJ2000EquVision pos nav).J2000EquVision = pos
      ∧ 0 < Vec3d.lengthSquared nav.localVision
      ∧ 0 < Vec3d.lengthSquared (eyeBasis sqrt nav).sideRaw
      ∧ 0 < Vec3d.lengthSquared (eyeBasis sqrt nav).upRaw
      ∧ (eyeBasis sqrt navV).sideRaw = ![0, 0, 0]
      ∧ (eyeBasis sqrt navV).upRaw = ![0, 0, 0]
      ∧ (eyeBasis sqrt navV).side = Vec3d.normalize sqrt ![0, 0, 0]
      ∧ (eyeBasis sqrt navV).up = Vec3d.normalize sqrt ![0, 0, 0] := by
  obtain ⟨hLpos, -, hspos, hulen, -⟩ := eyeBasis_horizon_lengths sqrt nav hmode hhoriz hL
  obtain ⟨hs, hu, hside, hup⟩ := eyeBasis_horizon_vertical sqrt navV hmodeV hV0 hV1
  exact ⟨rfl, rfl, rfl, hLpos, hspos, by rw [hulen]; exact hspos, hs, hu, hside, hup⟩

/-- C23 (amended) for the zero vector given to the setters of `navLooking`, the
gaze `(3, 4, 12)` of `navLooking` and the gaze of `navZenith`, with the rational
square root. -/
theorem zero_length_only_off_vertical_witness :
    (setLocalVision ![0, 0, 0] navLooking).localVision = ![0, 0, 0]
      ∧ (setEquVision ![0, 0, 0] navLooking).equVision = ![0, 0, 0]
      ∧ (setJ2000EquVision ![0, 0, 0] navLooking).J2000EquVision = ![0, 0, 0]
      ∧ 0 < Vec3d.lengthSquared navLooking.localVision
      ∧ 0 < Vec3d.lengthSquared (eyeBasis sqrtQ navLooking).sideRaw
      ∧ 0 < Vec3d.lengthSquared (eyeBasis sqrtQ navLooking).upRaw
      ∧ (eyeBasis sqrtQ navZenith).sideRaw = ![0, 0, 0]
      ∧ (eyeBasis sqrtQ navZenith).upRaw = ![0, 0, 0]
      ∧ (eyeBasis sqrtQ navZenith).side = Vec3d.normalize sqrtQ ![0, 0, 0]
      ∧ (eyeBasis sqrtQ navZenith).up = Vec3d.normalize sqrtQ ![0, 0, 0] :=
  zero_length_only_off_vertical sqrtQ ![0, 0, 0] navLooking navZenith rfl
    (Or.inl (by show (3 : ℚ) ≠ 0; norm_num))
    (by rw [navLooking_lengthSquared, IsSqrtAt, sqrtQ_169]; norm_num)
    rfl rfl rfl

end Stellarium
